import Mathlib

/-!
# Summed-area variance shadow maps: host pipeline of `SASVSM.cpp`

A shallow embedding of the OpenGL command stream that `main()` of
`source/SASVSM.cpp` issues (set-up code and one iteration of the render loop),
of the GL state those commands act on, and of the image contents the two
summed-area-table (SAT) compute dispatches produce.

Conventions.
* Texel values are exact (an additive commutative monoid or group, `ℚ` in the
  channel-wise statements); 32-bit float rounding is not modelled, except in
  `attenuationWith`, the attenuation of the Soft-Shadow Sampler with rounded
  arithmetic.
* An image is a function of the texel coordinate `(x, y)`; only texels with
  `x, y < S` are part of an `S × S` image.
* The GLSL sources and the helper classes `FrameBuffer`, `Shader` and `Model`
  are not part of the translated sources. What is assumed about them is stated
  at the definition that uses it.
-/

namespace SASVSM

/-! ## Constants of `SASVSM.cpp` -/

/-- Window width, `SCR_WIDTH`. -/
def SCR_WIDTH : Nat := 1024

/-- Window height, `SCR_HEIGHT`. -/
def SCR_HEIGHT : Nat := 768

/-- Side length of the shadow map, `SHADOW_MAP_SIZE`. -/
def SHADOW_MAP_SIZE : Nat := 1024

/-! ## GL objects -/

/-- The `FrameBuffer` objects `main()` creates. -/
inductive FB where
  | sBuffer
  | satBuffer
  | gBuffer
  | aoBuffer
  deriving DecidableEq, Repr

/-- Texture objects: the `index`-th texture attached to a `FrameBuffer`, and the
stand-alone textures of `main()`. -/
inductive Tex where
  | attached (fb : FB) (index : Nat)
  | woodTexture
  | envCubemap
  | irradianceMap
  | brdfLUTTexture
  deriving DecidableEq, Repr

/-- The variance buffer: texture 0 of `sBuffer`. -/
abbrev varianceBuffer : Tex := Tex.attached FB.sBuffer 0

/-- SAT buffer A: texture 0 of `satBuffer`. -/
abbrev satA : Tex := Tex.attached FB.satBuffer 0

/-- SAT buffer B: texture 1 of `satBuffer`. -/
abbrev satB : Tex := Tex.attached FB.satBuffer 1

/-- The `Shader` objects of `main()` that the render loop or the shader
configuration uses. -/
inductive Program where
  | shaderSATHorizontal
  | shaderSATVertical
  | computeSAT
  | cubemapShader
  | shaderSSAO
  | computeBilateralBlur
  | shaderDepthWrite
  | shaderDebugDepthMap
  | shaderDebugCubemap
  | shaderGeometryPass
  | shaderTexturedGeometryPass
  | pbrShader
  | shaderGBufferDebug
  | shaderSSAODebug
  | shaderGlobalLightSphere
  | shaderLightSphere
  | shaderPointLightingPass
  deriving DecidableEq, Repr

/-- Names of the uniforms `main()` assigns. -/
inductive Uniform where
  | gPosition | gNormal | gDiffuse | gSpecular
  | shadowSAT | environmentMap | irradianceMap | brdfLUT
  | ambientOcclusion | shadowMap | iblSamples | gBufferMode
  | aoTexture | image | input_image | output_image
  | uSrc | uDst | depthMap | cubeMap
  | aoSamples | sampleTurns | lightSourceRadius | softSATVSM
  | shadowSaturation | PenumbraSize | zNear | zFar
  | sampleRadius | shadowScalar | shadowContrast
  | gLightIntensity | lightRadius
  | lightSpaceMatrix | model | projection | view | transform
  | screenSize | direction | specularCol | diffuseCol
  | gLightPosition | gLightColor | viewPos | lightColor
  deriving DecidableEq, Repr

/-- Internal texture formats that occur in `main()`. -/
inductive TexFormat where
  | RGBA32F | RGBA16F | RGB16F | RGBA
  | DEPTH_COMPONENT32 | DEPTH_COMPONENT
  deriving DecidableEq, Repr

/-- Number of colour channels of a texture format. -/
def TexFormat.channels : TexFormat → Nat
  | .RGBA32F => 4
  | .RGBA16F => 4
  | .RGB16F => 3
  | .RGBA => 4
  | .DEPTH_COMPONENT32 => 1
  | .DEPTH_COMPONENT => 1

/-- Image access qualifiers of `FrameBuffer::bindImage`. -/
inductive Access where
  | READ_ONLY | WRITE_ONLY | READ_WRITE
  deriving DecidableEq, Repr

/-- Texture wrap modes. -/
inductive Wrap where
  | REPEAT | CLAMP_TO_EDGE | CLAMP_TO_BORDER | MIRRORED_REPEAT
  deriving DecidableEq, Repr

/-- Texture binding targets. -/
inductive Target where
  | TEXTURE_2D | TEXTURE_CUBE_MAP
  deriving DecidableEq, Repr

/-- An RGBA colour (clear colour, border colour). -/
structure Color where
  r : ℚ
  g : ℚ
  b : ℚ
  a : ℚ
  deriving DecidableEq

/-- The sampling parameters of a texture that `main()` sets. -/
structure TexParams where
  wrapS : Wrap
  wrapT : Wrap
  borderColor : Color
  generateMipmap : Bool
  deriving DecidableEq

/-- What a draw call draws. -/
inductive Mesh where
  | plane        -- planeVAO, glDrawArrays(GL_TRIANGLES, 0, 6)
  | model (i : Nat)   -- meshModels[i]->draw(shader)
  | quad         -- renderQuad()
  | cube         -- renderCube()
  | lightInstanced   -- glDrawElementsInstanced on the light sphere
  | lightModel   -- lightModel.draw(shader)
  deriving DecidableEq, Repr

/-! ## GL state -/

/-- The part of the OpenGL context state, and of the `FrameBuffer` and `Shader`
objects, that the commands of `main()` read or write. -/
structure GLState where
  /-- Value set by glClearColor. -/
  clearColor : Color
  /-- Bound draw frame buffer; `none` is the default frame buffer. -/
  drawFramebuffer : Option FB
  /-- Bound read frame buffer; `none` is the default frame buffer. -/
  readFramebuffer : Option FB
  /-- Program made current by `Shader::use`. -/
  program : Option Program
  /-- Selected texture unit (glActiveTexture). -/
  activeTexture : Nat
  /-- Texture bound to each target of each texture unit. -/
  textureUnit : Nat → Target → Option Tex
  /-- Texture level bound to each image unit, with format and access. -/
  imageUnit : Nat → Option (Tex × TexFormat × Access)
  /-- Integer (and sampler / image) uniforms of each program. -/
  uniformInt : Program → Uniform → Option Int
  /-- Float uniforms of each program. -/
  uniformFloat : Program → Uniform → Option ℚ
  /-- Size given to each `FrameBuffer` constructor. -/
  fbSize : FB → Option (Nat × Nat)
  /-- Formats of the textures attached to each `FrameBuffer`, in order. -/
  attachments : FB → List TexFormat
  /-- Sampling parameters of each texture. -/
  texParams : Tex → TexParams
  /-- Viewport size. -/
  viewport : Nat × Nat

/-! ## Commands -/

/-- The GL calls, and the calls of the helper classes `FrameBuffer`, `Shader`
and `Model`, that `main()` makes. -/
inductive Cmd where
  /-- The call glClearColor(r, g, b, a). -/
  | clearColor (c : Color)
  /-- The call glClear; the flags say which of the colour and depth bits are set. -/
  | clear (color depth : Bool)
  /-- The call glEnable(GL_DEPTH_TEST). -/
  | enableDepthTest
  /-- The call glViewport(0, 0, w, h). -/
  | viewport (w h : Nat)
  /-- Constructor `FrameBuffer(w, h)`. -/
  | newFrameBuffer (fb : FB) (w h : Nat)
  /-- Method `FrameBuffer::attachTexture(format, ...)`. -/
  | attachTexture (fb : FB) (fmt : TexFormat)
  /-- Method `FrameBuffer::attachRender(format)`. -/
  | attachRender (fb : FB) (fmt : TexFormat)
  /-- Method `FrameBuffer::check()`. -/
  | check (fb : FB)
  /-- Method `FrameBuffer::bindOutput()`. -/
  | bindOutput (fb : FB)
  /-- Method `FrameBuffer::bindRead()`. -/
  | bindRead (fb : FB)
  /-- The call glBindFramebuffer(GL_DRAW_FRAMEBUFFER, 0). -/
  | bindDrawDefault
  /-- Static method `FrameBuffer::unbind()`. -/
  | unbind
  /-- The call glBlitFramebuffer of the depth buffer. -/
  | blitDepth
  /-- Method `FrameBuffer::bindInput(index)`. -/
  | bindInput (fb : FB) (index : Nat)
  /-- Method `FrameBuffer::bindInput()`. -/
  | bindInputAll (fb : FB)
  /-- Method `FrameBuffer::bindImage(unit, index, format, access)`. -/
  | bindImage (fb : FB) (unit index : Nat) (fmt : TexFormat) (access : Access)
  /-- The call glActiveTexture(GL_TEXTURE0 + unit). -/
  | activeTexture (unit : Nat)
  /-- The call glBindTexture(target, texture). -/
  | bindTexture (target : Target) (t : Tex)
  /-- The call glTexParameteri(GL_TEXTURE_2D, GL_TEXTURE_WRAP_S, w). -/
  | texWrapS (w : Wrap)
  /-- The call glTexParameteri(GL_TEXTURE_2D, GL_TEXTURE_WRAP_T, w). -/
  | texWrapT (w : Wrap)
  /-- The call glTexParameterfv(GL_TEXTURE_2D, GL_TEXTURE_BORDER_COLOR, c). -/
  | texBorderColor (c : Color)
  /-- The call glTexParameteri(GL_TEXTURE_2D, GL_GENERATE_MIPMAP, b). -/
  | texGenerateMipmap (b : Bool)
  /-- The call glTexEnvf(GL_TEXTURE_ENV, GL_TEXTURE_ENV_MODE, GL_REPLACE). -/
  | texEnvReplace
  /-- The call glGenerateMipmap(GL_TEXTURE_2D). -/
  | generateMipmap
  /-- Method `Shader::use()`. -/
  | use (p : Program)
  /-- Methods `Shader::setUniformInt` and `Shader::setUniformBool`. -/
  | setUniformInt (p : Program) (u : Uniform) (v : Int)
  /-- Method `Shader::setUniformFloat`. -/
  | setUniformFloat (p : Program) (u : Uniform) (v : ℚ)
  /-- Vector and matrix uniform uploads; the value is not modelled. -/
  | setUniformData (p : Program) (u : Uniform)
  /-- The call glBindBufferBase(GL_UNIFORM_BUFFER, 7, uboBlurData). -/
  | bindBlurData
  /-- A draw call on the given geometry. -/
  | draw (m : Mesh)
  /-- The call glPolygonMode(GL_FRONT_AND_BACK, ...); true is GL_LINE. -/
  | polygonMode (line : Bool)
  /-- The call glDispatchCompute(gx, gy, gz). -/
  | dispatchCompute (gx gy gz : Nat)
  /-- The call glMemoryBarrier(GL_SHADER_IMAGE_ACCESS_BARRIER_BIT). -/
  | memoryBarrier
  deriving DecidableEq

/-- Bind texture `t` to `target` of the selected texture unit (glBindTexture). -/
def GLState.bindTex (s : GLState) (target : Target) (t : Option Tex) : GLState :=
  let unit := Function.update (s.textureUnit s.activeTexture) target t
  { s with textureUnit := Function.update s.textureUnit s.activeTexture unit }

/-- The texture a glTexParameter call on GL_TEXTURE_2D applies to: the one bound
to that target of the selected unit. -/
def GLState.boundTex2D (s : GLState) : Option Tex :=
  s.textureUnit s.activeTexture Target.TEXTURE_2D

/-- Change the sampling parameters of the texture bound to GL_TEXTURE_2D of the
selected unit; without a bound texture the call changes nothing modelled. -/
def GLState.setParams (s : GLState) (f : TexParams → TexParams) : GLState :=
  { s with texParams :=
      match s.boundTex2D with
      | some t => Function.update s.texParams t (f (s.texParams t))
      | none => s.texParams }

/-- The `index`-th texture attached to `fb`, if there is one. -/
def GLState.attachedTex (s : GLState) (fb : FB) (index : Nat) : Option Tex :=
  if index < (s.attachments fb).length then some (Tex.attached fb index) else none

/-- Modelled from the spec: `FrameBuffer::bindInput()` without argument
(framebuffer.h is not among the translated sources). The source uses it as
"bind all of our input textures": texture `i` of the frame buffer is bound to
GL_TEXTURE_2D of texture unit `i`, for every attached texture in order. -/
def GLState.bindAll (s : GLState) (fb : FB) : Nat → GLState
  | 0 => s
  | n + 1 =>
    let s1 := GLState.bindAll s fb n
    GLState.bindTex { s1 with activeTexture := n } Target.TEXTURE_2D (s1.attachedTex fb n)

/-- Modelled from the spec: the constructor `FrameBuffer(w, h)` (framebuffer.h
is not among the translated sources). The spec has the orchestrator own
GPU-resident images of one resolution per target: the object records its size
and starts without attached textures. -/
@[simp]
def FrameBuffer.create (s : GLState) (fb : FB) (w h : Nat) : GLState :=
  { s with
    fbSize := Function.update s.fbSize fb (some (w, h))
    attachments := Function.update s.attachments fb [] }

/-- Modelled from the spec: `FrameBuffer::attachTexture(format, ...)`
(framebuffer.h is not among the translated sources). It creates the next
attached texture of the frame buffer in the given format, of the frame
buffer's size, with the sampling parameters `dflt`, which the model leaves
open, and leaves it bound to GL_TEXTURE_2D of the selected unit. -/
@[simp]
def FrameBuffer.attachTexture (dflt : TexParams) (s : GLState) (fb : FB)
    (fmt : TexFormat) : GLState :=
  let t := Tex.attached fb (s.attachments fb).length
  GLState.bindTex
    { s with
      attachments := Function.update s.attachments fb (s.attachments fb ++ [fmt])
      texParams := Function.update s.texParams t dflt }
    Target.TEXTURE_2D (some t)

/-- Modelled from the spec: `FrameBuffer::bindOutput()` (framebuffer.h is not
among the translated sources): the frame buffer becomes the render target of
the following clears and draws, as in "render each fragment's light-space
depth and write it to the VarianceBuffer". -/
@[simp]
def FrameBuffer.bindOutput (s : GLState) (fb : FB) : GLState :=
  { s with drawFramebuffer := some fb, readFramebuffer := some fb }

/-- Modelled from the spec: `FrameBuffer::bindRead()` (framebuffer.h is not
among the translated sources): the frame buffer becomes the source of the
following blit. -/
@[simp]
def FrameBuffer.bindRead (s : GLState) (fb : FB) : GLState :=
  { s with readFramebuffer := some fb }

/-- Modelled from the spec: the static `FrameBuffer::unbind()` (framebuffer.h
is not among the translated sources): the default frame buffer becomes the
render target again. -/
@[simp]
def FrameBuffer.unbind (s : GLState) : GLState :=
  { s with drawFramebuffer := none, readFramebuffer := none }

/-- Modelled from the spec: `FrameBuffer::bindInput(index)` (framebuffer.h is
not among the translated sources): attached texture `index` is bound to
GL_TEXTURE_2D of the selected texture unit, for sampling or for the
glTexParameter calls that follow it in the set-up code. -/
@[simp]
def FrameBuffer.bindInput (s : GLState) (fb : FB) (index : Nat) : GLState :=
  GLState.bindTex s Target.TEXTURE_2D (s.attachedTex fb index)

/-- Modelled from the spec: `FrameBuffer::bindImage(unit, index, format,
access)` (framebuffer.h is not among the translated sources): level 0 of
attached texture `index` is bound to image unit `unit` for image load and
store. This is the reading under which lines 648-653 are the spec's ping-pong,
"pass 1 writes A from VarianceBuffer; pass 2 writes B from A". When the
source gives no access, the model takes read-write ("the SAT Builder
requires read-write image access"). -/
@[simp]
def FrameBuffer.bindImage (s : GLState) (fb : FB) (unit index : Nat) (fmt : TexFormat)
    (access : Access) : GLState :=
  let img := (s.attachedTex fb index).map (fun t => (t, fmt, access))
  { s with imageUnit := Function.update s.imageUnit unit img }

/-- Modelled from the spec: `Shader::use()` (shader_s.h is not among the
translated sources): the program becomes the current one for the following
draws and dispatches. -/
@[simp]
def Shader.use (s : GLState) (p : Program) : GLState :=
  { s with program := some p }

/-- Modelled from the spec: `Shader::setUniformInt(name, v)` and
`Shader::setUniformBool` (shader_s.h is not among the translated sources):
the named uniform of that program gets the value; for a sampler or image
uniform the value is the texture or image unit it reads. -/
@[simp]
def Shader.setUniformInt (s : GLState) (p : Program) (u : Uniform) (v : Int) : GLState :=
  let us := Function.update (s.uniformInt p) u (some v)
  { s with uniformInt := Function.update s.uniformInt p us }

/-- Modelled from the spec: `Shader::setUniformFloat(name, v)` (shader_s.h is
not among the translated sources): the named uniform of that program gets the
value. -/
@[simp]
def Shader.setUniformFloat (s : GLState) (p : Program) (u : Uniform) (v : ℚ) : GLState :=
  let us := Function.update (s.uniformFloat p) u (some v)
  { s with uniformFloat := Function.update s.uniformFloat p us }

/-- The effect of one command on the modelled state. Commands whose effect is
on state that is not modelled (vertex arrays, buffers, depth test, polygon
mode, vector and matrix uniforms) and the commands that only hand work to the
GPU (clear, draw, dispatch, barrier, blit) leave the state as it is;
`Model::draw` (model.h is not among the translated sources) is taken to issue
its draw call only. -/
def step (dflt : TexParams) (s : GLState) : Cmd → GLState
  | .clearColor c => { s with clearColor := c }
  | .clear _ _ => s
  | .enableDepthTest => s
  | .viewport w h => { s with viewport := (w, h) }
  | .newFrameBuffer fb w h => FrameBuffer.create s fb w h
  | .attachTexture fb fmt => FrameBuffer.attachTexture dflt s fb fmt
  | .attachRender _ _ => s
  | .check _ => s
  | .bindOutput fb => FrameBuffer.bindOutput s fb
  | .bindRead fb => FrameBuffer.bindRead s fb
  | .bindDrawDefault => { s with drawFramebuffer := none }
  | .unbind => FrameBuffer.unbind s
  | .blitDepth => s
  | .bindInput fb index => FrameBuffer.bindInput s fb index
  | .bindInputAll fb => GLState.bindAll s fb (s.attachments fb).length
  | .bindImage fb unit index fmt access => FrameBuffer.bindImage s fb unit index fmt access
  | .activeTexture unit => { s with activeTexture := unit }
  | .bindTexture target t => GLState.bindTex s target (some t)
  | .texWrapS w => s.setParams (fun p => { p with wrapS := w })
  | .texWrapT w => s.setParams (fun p => { p with wrapT := w })
  | .texBorderColor c => s.setParams (fun p => { p with borderColor := c })
  | .texGenerateMipmap b => s.setParams (fun p => { p with generateMipmap := b })
  | .texEnvReplace => s
  | .generateMipmap => s
  | .use p => Shader.use s p
  | .setUniformInt p u v => Shader.setUniformInt s p u v
  | .setUniformFloat p u v => Shader.setUniformFloat s p u v
  | .setUniformData _ _ => s
  | .bindBlurData => s
  | .draw _ => s
  | .polygonMode _ => s
  | .dispatchCompute _ _ _ => s
  | .memoryBarrier => s

/-- State after a command sequence. -/
def run (dflt : TexParams) (s : GLState) : List Cmd → GLState
  | [] => s
  | c :: cs => run dflt (step dflt s c) cs

/-- The commands of a sequence, each paired with the state it is issued in. -/
def trace (dflt : TexParams) (s : GLState) : List Cmd → List (GLState × Cmd)
  | [] => []
  | c :: cs => (s, c) :: trace dflt (step dflt s c) cs

/-! ## The set-up code of `main()` -/

/-- The border colour array `borderColor[] = { 0, 0, 0, 0 }`. -/
def borderColor : Color := ⟨0, 0, 0, 0⟩

/-- The five parameter calls made after a `bindInput(i)` in the frame buffer
configuration ("Remove artifacts on the edges of the shadowmap"). -/
def clampToBorderCmds : List Cmd :=
  [ Cmd.texWrapS Wrap.CLAMP_TO_BORDER,
    Cmd.texWrapT Wrap.CLAMP_TO_BORDER,
    Cmd.texBorderColor borderColor,
    Cmd.texGenerateMipmap true,
    Cmd.texEnvReplace ]

/-- Lines 363-381: the depth map frame buffer `sBuffer`. Both of its textures
are bound and configured. -/
def configureSBuffer : List Cmd :=
  [ Cmd.newFrameBuffer FB.sBuffer SHADOW_MAP_SIZE SHADOW_MAP_SIZE,
    Cmd.attachTexture FB.sBuffer TexFormat.RGBA32F,
    Cmd.attachTexture FB.sBuffer TexFormat.RGBA32F,
    Cmd.attachRender FB.sBuffer TexFormat.DEPTH_COMPONENT32,
    Cmd.bindInput FB.sBuffer 0 ]
  ++ clampToBorderCmds
  ++ [ Cmd.bindInput FB.sBuffer 1 ]
  ++ clampToBorderCmds

/-- Lines 384-393: the SAT generation frame buffer `satBuffer`. Only
`bindInput(0)` is followed by the parameter calls. -/
def configureSatBuffer : List Cmd :=
  [ Cmd.newFrameBuffer FB.satBuffer SHADOW_MAP_SIZE SHADOW_MAP_SIZE,
    Cmd.attachTexture FB.satBuffer TexFormat.RGBA32F,
    Cmd.attachTexture FB.satBuffer TexFormat.RGBA32F,
    Cmd.attachRender FB.satBuffer TexFormat.DEPTH_COMPONENT32,
    Cmd.bindInput FB.satBuffer 0 ]
  ++ clampToBorderCmds

/-- Lines 398-409: the g-buffer. -/
def configureGBuffer : List Cmd :=
  [ Cmd.newFrameBuffer FB.gBuffer SCR_WIDTH SCR_HEIGHT,
    Cmd.attachTexture FB.gBuffer TexFormat.RGBA16F,
    Cmd.attachTexture FB.gBuffer TexFormat.RGB16F,
    Cmd.attachTexture FB.gBuffer TexFormat.RGBA,
    Cmd.attachTexture FB.gBuffer TexFormat.RGBA,
    Cmd.bindOutput FB.gBuffer,
    Cmd.attachRender FB.gBuffer TexFormat.DEPTH_COMPONENT,
    Cmd.bindInput FB.gBuffer 0,
    Cmd.generateMipmap,
    Cmd.check FB.gBuffer,
    Cmd.unbind ]

/-- Lines 412-417: the SSAO capture frame buffer. -/
def configureAoBuffer : List Cmd :=
  [ Cmd.newFrameBuffer FB.aoBuffer SCR_WIDTH SCR_HEIGHT,
    Cmd.attachTexture FB.aoBuffer TexFormat.RGBA32F,
    Cmd.attachTexture FB.aoBuffer TexFormat.RGBA32F,
    Cmd.bindOutput FB.aoBuffer,
    Cmd.check FB.aoBuffer,
    Cmd.unbind ]

/-- Initial value of the variable `iblSamples`. -/
def initialIblSamples : Int := 30

/-- Lines 507-584: the shader configuration (sampler and image unit
assignments). The uniform buffer of the blur weights (lines 556-567) is not
part of the modelled state. -/
def configureShaders : List Cmd :=
  [ Cmd.use Program.pbrShader,
    Cmd.setUniformInt Program.pbrShader Uniform.gPosition 0,
    Cmd.setUniformInt Program.pbrShader Uniform.gNormal 1,
    Cmd.setUniformInt Program.pbrShader Uniform.gDiffuse 2,
    Cmd.setUniformInt Program.pbrShader Uniform.gSpecular 3,
    Cmd.setUniformInt Program.pbrShader Uniform.shadowSAT 4,
    Cmd.setUniformInt Program.pbrShader Uniform.environmentMap 5,
    Cmd.setUniformInt Program.pbrShader Uniform.irradianceMap 6,
    Cmd.setUniformInt Program.pbrShader Uniform.brdfLUT 7,
    Cmd.setUniformInt Program.pbrShader Uniform.ambientOcclusion 8,
    Cmd.setUniformInt Program.pbrShader Uniform.shadowMap 9,
    Cmd.setUniformInt Program.pbrShader Uniform.iblSamples initialIblSamples,
    Cmd.use Program.shaderPointLightingPass,
    Cmd.setUniformInt Program.shaderPointLightingPass Uniform.gPosition 0,
    Cmd.setUniformInt Program.shaderPointLightingPass Uniform.gNormal 1,
    Cmd.setUniformInt Program.shaderPointLightingPass Uniform.gDiffuse 2,
    Cmd.setUniformInt Program.shaderPointLightingPass Uniform.gSpecular 3,
    Cmd.setUniformData Program.shaderPointLightingPass Uniform.screenSize,
    Cmd.use Program.shaderGBufferDebug,
    Cmd.setUniformInt Program.shaderGBufferDebug Uniform.gPosition 0,
    Cmd.setUniformInt Program.shaderGBufferDebug Uniform.gNormal 1,
    Cmd.setUniformInt Program.shaderGBufferDebug Uniform.gDiffuse 2,
    Cmd.setUniformInt Program.shaderGBufferDebug Uniform.gSpecular 3,
    Cmd.setUniformInt Program.shaderGBufferDebug Uniform.gBufferMode 1,
    Cmd.use Program.shaderSSAODebug,
    Cmd.setUniformInt Program.shaderSSAODebug Uniform.aoTexture 0,
    Cmd.use Program.shaderSSAO,
    Cmd.setUniformInt Program.shaderSSAO Uniform.gPosition 0,
    Cmd.setUniformInt Program.shaderSSAO Uniform.gNormal 1,
    Cmd.use Program.shaderSATHorizontal,
    Cmd.setUniformInt Program.shaderSATHorizontal Uniform.image 0,
    Cmd.use Program.shaderSATVertical,
    Cmd.setUniformInt Program.shaderSATVertical Uniform.image 0,
    Cmd.use Program.computeSAT,
    Cmd.setUniformInt Program.computeSAT Uniform.input_image 0,
    Cmd.setUniformInt Program.computeSAT Uniform.output_image 1,
    Cmd.use Program.computeBilateralBlur,
    Cmd.setUniformInt Program.computeBilateralBlur Uniform.uSrc 0,
    Cmd.setUniformInt Program.computeBilateralBlur Uniform.uDst 1,
    Cmd.setUniformData Program.computeBilateralBlur Uniform.screenSize,
    Cmd.setUniformInt Program.computeBilateralBlur Uniform.gPosition 2,
    Cmd.setUniformInt Program.computeBilateralBlur Uniform.gNormal 3,
    Cmd.use Program.cubemapShader,
    Cmd.setUniformInt Program.cubemapShader Uniform.environmentMap 0,
    Cmd.use Program.shaderDebugDepthMap,
    Cmd.setUniformInt Program.shaderDebugDepthMap Uniform.depthMap 0,
    Cmd.use Program.shaderDebugCubemap,
    Cmd.setUniformInt Program.shaderDebugCubemap Uniform.cubeMap 0 ]

/-- The frame buffer and shader configuration of `main()`, in source order. -/
def setupCmds : List Cmd :=
  configureSBuffer ++ configureSatBuffer ++ configureGBuffer ++ configureAoBuffer
    ++ configureShaders

/-- A GL context state before the frame buffers are configured: nothing bound,
no uniform assigned, no frame buffer object yet. -/
def GLState.initial (dflt : TexParams) : GLState where
  clearColor := ⟨0, 0, 0, 0⟩
  drawFramebuffer := none
  readFramebuffer := none
  program := none
  activeTexture := 0
  textureUnit := fun _ _ => none
  imageUnit := fun _ => none
  uniformInt := fun _ _ => none
  uniformFloat := fun _ _ => none
  fbSize := fun _ => none
  attachments := fun _ => []
  texParams := fun _ => dflt
  viewport := (SCR_WIDTH, SCR_HEIGHT)

/-- State when the render loop is entered for the first time. -/
def setupState (dflt : TexParams) : GLState :=
  run dflt (GLState.initial dflt) setupCmds

/-! ## One iteration of the render loop -/

/-- Value `GBufferRender::Final` of the debug view enum. -/
def GBufferRender.Final : Int := 0

/-- Value `GBufferRender::Occlusion` of the debug view enum. -/
def GBufferRender.Occlusion : Int := 5

/-- The variables of `main()` that one iteration of the render loop reads, with
the state of the control panel that decides the GL call made from it. -/
structure FrameInput where
  enableShadows : Bool
  bilateralBlur : Bool
  gBufferMode : Int
  drawPointLights : Bool
  drawPointLightsWireframe : Bool
  showDepthMap : Bool
  softSATVSM : Bool
  shadowSaturation : ℚ
  penumbraSize : ℚ
  lightSourceRadius : Int
  iblSamples : Int
  aoSamples : Int
  sampleTurns : Int
  sampleRadius : ℚ
  shadowScalar : ℚ
  shadowContrast : ℚ
  lightIntensity : ℚ
  lightRadius : ℚ
  /-- The "Debug" header of the control panel is open. -/
  debugHeaderOpen : Bool
  /-- The value of `gBufferMode` after the combo box of line 1037, which line
  1038 uploads when the "Debug" header is open. -/
  debugGBufferMode : Int

/-- Number of entries of `objectPositions` (and of `meshModels`): `main()`
pushes exactly one. -/
def objectCount : Nat := 1

/-- The commands of a loop `for (i = 0; i < n; i++) body(i)`. -/
def forEach (n : Nat) (body : Nat → List Cmd) : List Cmd :=
  ((List.range n).map body).flatten

/-- Lines 618-639: Variance Capture, the scene drawn from the light into the
variance buffer. -/
def varianceCapture : List Cmd :=
  [ Cmd.use Program.shaderDepthWrite,
    Cmd.setUniformData Program.shaderDepthWrite Uniform.lightSpaceMatrix,
    Cmd.setUniformData Program.shaderDepthWrite Uniform.model,
    Cmd.viewport SHADOW_MAP_SIZE SHADOW_MAP_SIZE,
    Cmd.bindOutput FB.sBuffer,
    Cmd.clear true true,
    Cmd.activeTexture 0,
    Cmd.bindTexture Target.TEXTURE_2D Tex.woodTexture,
    Cmd.draw Mesh.plane ]
  ++ forEach objectCount (fun i =>
      [ Cmd.setUniformData Program.shaderDepthWrite Uniform.model,
        Cmd.draw (Mesh.model i) ])
  ++ [ Cmd.unbind ]

/-- Lines 642-655: the SAT Builder. `width` is `(int)SHADOW_MAP_SIZE`; the
access argument of `bindImage` is left to its default. -/
def satBuilder : List Cmd :=
  [ Cmd.use Program.computeSAT,
    Cmd.bindImage FB.sBuffer 0 0 TexFormat.RGBA32F Access.READ_WRITE,
    Cmd.bindImage FB.satBuffer 1 0 TexFormat.RGBA32F Access.READ_WRITE,
    Cmd.dispatchCompute SHADOW_MAP_SIZE 1 1,
    Cmd.memoryBarrier,
    Cmd.bindImage FB.satBuffer 0 0 TexFormat.RGBA32F Access.READ_WRITE,
    Cmd.bindImage FB.satBuffer 1 1 TexFormat.RGBA32F Access.READ_WRITE,
    Cmd.dispatchCompute SHADOW_MAP_SIZE 1 1,
    Cmd.memoryBarrier ]

/-- Lines 692-696: the shadow pass when shadows are disabled. -/
def clearShadowMap : List Cmd :=
  [ Cmd.viewport SHADOW_MAP_SIZE SHADOW_MAP_SIZE,
    Cmd.bindOutput FB.sBuffer,
    Cmd.clearColor ⟨1, 1, 1, 1⟩,
    Cmd.clear true true,
    Cmd.clearColor ⟨0, 0, 0, 1⟩ ]

/-- Lines 602-697: start of the frame and step 1, the shadow pass. -/
def shadowPass (inp : FrameInput) : List Cmd :=
  [ Cmd.clearColor ⟨0, 0, 0, 1⟩, Cmd.enableDepthTest ]
  ++ (if inp.enableShadows then varianceCapture ++ satBuilder else clearShadowMap)

/-- Lines 702-741: step 2, the geometry pass into the g-buffer. -/
def geometryPass : List Cmd :=
  [ Cmd.viewport SCR_WIDTH SCR_HEIGHT,
    Cmd.bindOutput FB.gBuffer,
    Cmd.clear true true,
    Cmd.use Program.cubemapShader,
    Cmd.setUniformData Program.cubemapShader Uniform.projection,
    Cmd.use Program.shaderTexturedGeometryPass,
    Cmd.setUniformData Program.shaderTexturedGeometryPass Uniform.projection,
    Cmd.setUniformData Program.shaderTexturedGeometryPass Uniform.view,
    Cmd.setUniformData Program.shaderTexturedGeometryPass Uniform.model,
    Cmd.setUniformData Program.shaderTexturedGeometryPass Uniform.specularCol,
    Cmd.activeTexture 0,
    Cmd.bindTexture Target.TEXTURE_2D Tex.woodTexture,
    Cmd.draw Mesh.plane,
    Cmd.use Program.shaderGeometryPass,
    Cmd.setUniformData Program.shaderGeometryPass Uniform.projection,
    Cmd.setUniformData Program.shaderGeometryPass Uniform.view ]
  ++ forEach objectCount (fun i =>
      [ Cmd.setUniformData Program.shaderGeometryPass Uniform.model,
        Cmd.setUniformData Program.shaderGeometryPass Uniform.diffuseCol,
        Cmd.setUniformData Program.shaderGeometryPass Uniform.specularCol,
        Cmd.draw (Mesh.model i) ])
  ++ [ Cmd.unbind ]

/-- Lines 745-756: step 2a, the SSAO texture. -/
def ssaoPass (inp : FrameInput) : List Cmd :=
  [ Cmd.bindOutput FB.aoBuffer,
    Cmd.clear true false,
    Cmd.use Program.shaderSSAO,
    Cmd.setUniformData Program.shaderSSAO Uniform.view,
    Cmd.setUniformInt Program.shaderSSAO Uniform.aoSamples inp.aoSamples,
    Cmd.setUniformFloat Program.shaderSSAO Uniform.sampleRadius inp.sampleRadius,
    Cmd.setUniformInt Program.shaderSSAO Uniform.sampleTurns inp.sampleTurns,
    Cmd.setUniformFloat Program.shaderSSAO Uniform.shadowScalar inp.shadowScalar,
    Cmd.setUniformFloat Program.shaderSSAO Uniform.shadowContrast inp.shadowContrast,
    Cmd.bindInputAll FB.gBuffer,
    Cmd.draw Mesh.quad,
    Cmd.unbind ]

/-- Lines 759-780: the bilateral blur of the AO texture; the group counts are
`std::ceil(float(SCR_WIDTH) / 128)` and `std::ceil(float(SCR_HEIGHT) / 128)`. -/
def blurPass (inp : FrameInput) : List Cmd :=
  if inp.bilateralBlur then
    [ Cmd.use Program.computeBilateralBlur,
      Cmd.bindBlurData,
      Cmd.setUniformData Program.computeBilateralBlur Uniform.projection,
      Cmd.setUniformData Program.computeBilateralBlur Uniform.view,
      Cmd.bindImage FB.aoBuffer 0 0 TexFormat.RGBA32F Access.READ_ONLY,
      Cmd.bindImage FB.aoBuffer 1 1 TexFormat.RGBA32F Access.WRITE_ONLY,
      Cmd.setUniformData Program.computeBilateralBlur Uniform.direction,
      Cmd.activeTexture 2,
      Cmd.bindInput FB.gBuffer 0,
      Cmd.activeTexture 3,
      Cmd.bindInput FB.gBuffer 1,
      Cmd.dispatchCompute ((SCR_WIDTH + 127) / 128) SCR_HEIGHT 1,
      Cmd.memoryBarrier,
      Cmd.bindImage FB.aoBuffer 0 1 TexFormat.RGBA32F Access.READ_ONLY,
      Cmd.bindImage FB.aoBuffer 1 0 TexFormat.RGBA32F Access.WRITE_ONLY,
      Cmd.setUniformData Program.computeBilateralBlur Uniform.direction,
      Cmd.dispatchCompute ((SCR_HEIGHT + 127) / 128) SCR_WIDTH 1,
      Cmd.memoryBarrier ]
  else []

/-- Lines 787-820: the bindings and uniforms of the lighting pass in the
Final view. -/
def lightingFinal (inp : FrameInput) : List Cmd :=
  [ Cmd.use Program.pbrShader,
    Cmd.bindInputAll FB.gBuffer,
    Cmd.activeTexture 4,
    Cmd.bindInput FB.satBuffer 1,
    Cmd.activeTexture 5,
    Cmd.bindTexture Target.TEXTURE_CUBE_MAP Tex.envCubemap,
    Cmd.activeTexture 6,
    Cmd.bindTexture Target.TEXTURE_CUBE_MAP Tex.irradianceMap,
    Cmd.activeTexture 7,
    Cmd.bindTexture Target.TEXTURE_2D Tex.brdfLUTTexture,
    Cmd.activeTexture 8,
    Cmd.bindInput FB.aoBuffer 0,
    Cmd.activeTexture 9,
    Cmd.bindInput FB.sBuffer 0,
    Cmd.setUniformData Program.pbrShader Uniform.gLightPosition,
    Cmd.setUniformData Program.pbrShader Uniform.gLightColor,
    Cmd.setUniformFloat Program.pbrShader Uniform.gLightIntensity inp.lightIntensity,
    Cmd.setUniformData Program.pbrShader Uniform.viewPos,
    Cmd.setUniformData Program.pbrShader Uniform.lightSpaceMatrix,
    Cmd.setUniformInt Program.pbrShader Uniform.iblSamples inp.iblSamples,
    Cmd.setUniformFloat Program.pbrShader Uniform.shadowSaturation inp.shadowSaturation,
    Cmd.setUniformFloat Program.pbrShader Uniform.PenumbraSize inp.penumbraSize,
    Cmd.setUniformInt Program.pbrShader Uniform.lightSourceRadius inp.lightSourceRadius,
    Cmd.setUniformFloat Program.pbrShader Uniform.zNear 1,
    Cmd.setUniformFloat Program.pbrShader Uniform.zFar 15,
    Cmd.setUniformInt Program.pbrShader Uniform.softSATVSM (if inp.softSATVSM then 1 else 0) ]

/-- Lines 784-834: step 3 up to, and without, the full-screen quad: the clear
and the bindings of the view selected by `gBufferMode`. -/
def lightingBind (inp : FrameInput) : List Cmd :=
  Cmd.clear true true ::
    (if inp.gBufferMode = GBufferRender.Final then lightingFinal inp
     else if inp.gBufferMode = GBufferRender.Occlusion then
       [ Cmd.use Program.shaderSSAODebug,
         Cmd.activeTexture 0,
         Cmd.bindInput FB.aoBuffer 0 ]
     else
       [ Cmd.use Program.shaderGBufferDebug,
         Cmd.setUniformInt Program.shaderGBufferDebug Uniform.gBufferMode inp.gBufferMode,
         Cmd.bindInputAll FB.gBuffer ])

/-- Line 837: "finally render quad", the draw of the lighting pass. -/
def lightingDraw : List Cmd :=
  [ Cmd.draw Mesh.quad ]

/-- Lines 879-946: sky box, light volumes and depth map overlays, and the GL
call the control panel makes (line 1038). The point light pass of step 3.5 is
commented out in the source. Drawing the control panel itself, and the
calls it can trigger other than that one (`renderCubemap` on a change of the
sky box, `updatePointLights`), are not modelled: they assign no uniform of
the programs above, attach no texture and set no texture parameter of the
frame buffer textures. -/
def overlays (inp : FrameInput) : List Cmd :=
  (if inp.gBufferMode = GBufferRender.Final then
    [ Cmd.bindRead FB.gBuffer,
      Cmd.bindDrawDefault,
      Cmd.blitDepth,
      Cmd.unbind,
      Cmd.enableDepthTest,
      Cmd.use Program.cubemapShader,
      Cmd.setUniformData Program.cubemapShader Uniform.view,
      Cmd.activeTexture 0,
      Cmd.bindTexture Target.TEXTURE_CUBE_MAP Tex.envCubemap,
      Cmd.draw Mesh.cube ]
   else [])
  ++ (if inp.drawPointLights ∧ inp.gBufferMode = GBufferRender.Final then
    [ Cmd.enableDepthTest,
      Cmd.use Program.shaderLightSphere,
      Cmd.setUniformData Program.shaderLightSphere Uniform.projection,
      Cmd.setUniformData Program.shaderLightSphere Uniform.view,
      Cmd.polygonMode inp.drawPointLightsWireframe,
      Cmd.draw Mesh.lightInstanced,
      Cmd.polygonMode false,
      Cmd.use Program.shaderGlobalLightSphere,
      Cmd.setUniformData Program.shaderGlobalLightSphere Uniform.projection,
      Cmd.setUniformData Program.shaderGlobalLightSphere Uniform.view,
      Cmd.setUniformData Program.shaderGlobalLightSphere Uniform.model,
      Cmd.setUniformData Program.shaderGlobalLightSphere Uniform.lightColor,
      Cmd.setUniformFloat Program.shaderGlobalLightSphere Uniform.lightRadius inp.lightRadius,
      Cmd.draw Mesh.lightModel ]
   else [])
  ++ (if inp.showDepthMap then
    [ Cmd.use Program.shaderDebugDepthMap,
      Cmd.setUniformData Program.shaderDebugDepthMap Uniform.transform,
      Cmd.setUniformFloat Program.shaderDebugDepthMap Uniform.zNear 1,
      Cmd.setUniformFloat Program.shaderDebugDepthMap Uniform.zFar 15,
      Cmd.activeTexture 0,
      Cmd.bindInput FB.satBuffer 1,
      Cmd.draw Mesh.quad ]
   else [])
  ++ (if inp.debugHeaderOpen then
    [ Cmd.setUniformInt Program.pbrShader Uniform.gBufferMode inp.debugGBufferMode ]
   else [])

/-- Everything of a frame that precedes the draw of the lighting pass. -/
def beforeLightingDraw (inp : FrameInput) : List Cmd :=
  shadowPass inp ++ geometryPass ++ ssaoPass inp ++ blurPass inp ++ lightingBind inp

/-- The command sequence of one iteration of the render loop. -/
def frame (inp : FrameInput) : List Cmd :=
  beforeLightingDraw inp ++ lightingDraw ++ overlays inp

/-! ## What the GPU is asked to do -/

/-- The texture whose level is bound to the image unit that uniform `u` of
program `p` names, if any. -/
def boundImage (s : GLState) (p : Program) (u : Uniform) : Option Tex :=
  match s.uniformInt p u with
  | some k => if 0 ≤ k then (s.imageUnit k.toNat).map (fun b => b.1) else none
  | none => none

/-- The texture a sampler uniform `u` of program `p` reads: the one bound to
GL_TEXTURE_2D of the texture unit the uniform names. -/
def sampledTex (s : GLState) (p : Program) (u : Uniform) : Option Tex :=
  match s.uniformInt p u with
  | some k => if 0 ≤ k then s.textureUnit k.toNat Target.TEXTURE_2D else none
  | none => none

/-- Names of the input and output image uniforms of the two compute programs
(lines 552-553 and 568-569). -/
def Program.imageUniforms : Program → Option (Uniform × Uniform)
  | Program.computeSAT => some (Uniform.input_image, Uniform.output_image)
  | Program.computeBilateralBlur => some (Uniform.uSrc, Uniform.uDst)
  | _ => none

/-- The work a command hands to the GPU, with the resources as they are bound
when the command is issued. -/
inductive Event where
  /-- A glClear: the bound draw frame buffer, the clear colour in effect, and
  whether the colour bit is set. -/
  | clear (target : Option FB) (c : Color) (colorBit : Bool)
  /-- A draw call: current program, bound draw frame buffer, geometry, and,
  when the PBR shader is current, the textures its samplers `shadowSAT` and
  `shadowMap` read. -/
  | draw (p : Option Program) (target : Option FB) (m : Mesh)
      (shadowSAT shadowMap : Option Tex)
  /-- A compute dispatch: current program, group counts, and the textures
  bound as its input and output image. -/
  | dispatch (p : Option Program) (gx gy gz : Nat) (input output : Option Tex)
  /-- A glMemoryBarrier(GL_SHADER_IMAGE_ACCESS_BARRIER_BIT). -/
  | barrier
  deriving DecidableEq

/-- The event of command `c` issued in state `s`; commands that only change
state give none. -/
def observe (s : GLState) : Cmd → Option Event
  | Cmd.clear color _ => some (Event.clear s.drawFramebuffer s.clearColor color)
  | Cmd.draw m =>
    some (Event.draw s.program s.drawFramebuffer m
      (if s.program = some Program.pbrShader
        then sampledTex s Program.pbrShader Uniform.shadowSAT else none)
      (if s.program = some Program.pbrShader
        then sampledTex s Program.pbrShader Uniform.shadowMap else none))
  | Cmd.dispatchCompute gx gy gz =>
    some (Event.dispatch s.program gx gy gz
      (s.program.bind (fun p => p.imageUniforms.bind (fun u => boundImage s p u.1)))
      (s.program.bind (fun p => p.imageUniforms.bind (fun u => boundImage s p u.2))))
  | Cmd.memoryBarrier => some Event.barrier
  | _ => none

/-- The events of a command sequence issued from state `s`, in order. -/
def events (dflt : TexParams) (s : GLState) (cs : List Cmd) : List Event :=
  (trace dflt s cs).filterMap (fun e => observe e.1 e.2)

/-- A compute dispatch issued while `computeSAT` is current. -/
def Event.isSATDispatch : Event → Bool
  | Event.dispatch (some Program.computeSAT) _ _ _ _ _ => true
  | _ => false

/-- A glMemoryBarrier call. -/
def Event.isBarrier : Event → Bool
  | Event.barrier => true
  | _ => false

/-- A Variance Capture draw call: a draw with `shaderDepthWrite` current and
`sBuffer` bound as output. -/
def Event.isCaptureDraw : Event → Bool
  | Event.draw (some Program.shaderDepthWrite) (some FB.sBuffer) _ _ _ => true
  | _ => false

/-- A clear of the variance buffer: a glClear with the colour bit set while
`sBuffer` is bound as output. -/
def Event.isVarianceClear : Event → Bool
  | Event.clear (some FB.sBuffer) _ true => true
  | _ => false

/-- The draw of the lighting pass: a full-screen quad drawn to the default
frame buffer. -/
def Event.isLightingDraw : Event → Bool
  | Event.draw _ none Mesh.quad _ _ => true
  | _ => false

/-- The assignments of the set-up code that the render loop relies on: the
image units of the two compute programs, the sampler units of the PBR shader
for the SAT and the shadow map, and the textures attached to the four frame
buffers. -/
def Configured (s : GLState) : Prop :=
  s.uniformInt Program.computeSAT Uniform.input_image = some 0
  ∧ s.uniformInt Program.computeSAT Uniform.output_image = some 1
  ∧ s.uniformInt Program.computeBilateralBlur Uniform.uSrc = some 0
  ∧ s.uniformInt Program.computeBilateralBlur Uniform.uDst = some 1
  ∧ s.uniformInt Program.pbrShader Uniform.shadowSAT = some 4
  ∧ s.uniformInt Program.pbrShader Uniform.shadowMap = some 9
  ∧ s.attachments FB.sBuffer = [TexFormat.RGBA32F, TexFormat.RGBA32F]
  ∧ s.attachments FB.satBuffer = [TexFormat.RGBA32F, TexFormat.RGBA32F]
  ∧ s.attachments FB.gBuffer
      = [TexFormat.RGBA16F, TexFormat.RGB16F, TexFormat.RGBA, TexFormat.RGBA]
  ∧ s.attachments FB.aoBuffer = [TexFormat.RGBA32F, TexFormat.RGBA32F]

/-- The Stage H dispatch of a shadow-enabled frame: `computeSAT` on
`(S, 1, 1)` groups, variance buffer in, SAT buffer A out. -/
def stageH : Event :=
  Event.dispatch (some Program.computeSAT) SHADOW_MAP_SIZE 1 1 (some varianceBuffer) (some satA)

/-- The Stage V dispatch of a shadow-enabled frame: `computeSAT` on
`(S, 1, 1)` groups, SAT buffer A in, SAT buffer B out. -/
def stageV : Event :=
  Event.dispatch (some Program.computeSAT) SHADOW_MAP_SIZE 1 1 (some satA) (some satB)

/-! ## Image contents and the SAT kernel -/

/-- An image: the texel value at column `x` and row `y`. -/
abbrev Image (α : Type) := Nat → Nat → α

/-- Contents of all textures. -/
abbrev Pixels (α : Type) := Tex → Image α

/-- Inclusive running sum of a line: `f 0 + f 1 + ... + f n`. -/
def scanLine {α : Type} [Add α] (f : Nat → α) : Nat → α
  | 0 => f 0
  | n + 1 => scanLine f n + f (n + 1)

/-- Modelled from the spec: the `computeSAT` compute shader
(computeSAT.glsl is not among the translated sources). One scan unit per line
of the `S × S` input computes the inclusive running sum across the line
(section 4.2 of the spec). The host runs one and the same program for both
stages and changes only the image bindings, and the spec has the second stage
scan the orthogonal axis: the unit of input row `g` therefore stores its
running sums along column `g` of the output, the transposed store of the
SuperBible kernel that the source names. Texels outside the `S × S` image do
not exist; the model gives them the value 0. -/
def computeSATKernel {α : Type} [Add α] [Zero α] (S : Nat) (input : Image α) : Image α :=
  fun x y => if x < S ∧ y < S then scanLine (fun i => input i x) y else 0

/-- The effect of one event on the texture contents, as far as the SAT build
goes: a dispatch of `computeSAT` replaces the image bound as `output_image`
by the kernel applied to the image bound as `input_image`. Every other event
of the SAT Builder is a barrier, which changes no contents. -/
def dispatchEffect {α : Type} (kernel : Image α → Image α) (px : Pixels α) :
    Event → Pixels α
  | Event.dispatch (some Program.computeSAT) _ _ _ (some i) (some o) =>
    Function.update px o (kernel (px i))
  | _ => px

/-- Texture contents after the SAT Builder commands (lines 642-655) are issued
in state `s` on contents `px`. -/
def satBuild {α : Type} (dflt : TexParams) (kernel : Image α → Image α) (s : GLState)
    (px : Pixels α) : Pixels α :=
  (events dflt s satBuilder).foldl (dispatchEffect kernel) px

/-- Brute-force inclusive 2D sum of `v` over `[0, x] × [0, y]`. -/
def cumSum2D {α : Type} [AddCommMonoid α] (v : Image α) (x y : Nat) : α :=
  ∑ i in Finset.range (x + 1), ∑ j in Finset.range (y + 1), v i j

/-! ## Derived notions used in the statements and proofs -/

/-- Sampling parameters of a freshly created OpenGL texture: wrap mode
GL_REPEAT, border colour (0, 0, 0, 0). -/
def glDefaults : TexParams := ⟨Wrap.REPEAT, Wrap.REPEAT, ⟨0, 0, 0, 0⟩, false⟩

/-- The command neither creates or extends a frame buffer nor assigns one of
the uniforms `Configured` speaks of. -/
def Cmd.keepsConfig : Cmd → Bool
  | Cmd.newFrameBuffer _ _ _ => false
  | Cmd.attachTexture _ _ => false
  | Cmd.setUniformInt p u _ =>
    !(decide (p = Program.computeSAT) || decide (p = Program.computeBilateralBlur)
      || (decide (p = Program.pbrShader)
          && (decide (u = Uniform.shadowSAT) || decide (u = Uniform.shadowMap))))
  | _ => true

/-- The command is none of the glTexParameter calls and creates no texture. -/
def Cmd.keepsTexParams : Cmd → Bool
  | Cmd.attachTexture _ _ => false
  | Cmd.texWrapS _ => false
  | Cmd.texWrapT _ => false
  | Cmd.texBorderColor _ => false
  | Cmd.texGenerateMipmap _ => false
  | _ => true

/-- The clear colour set at the top of every frame (line 602). -/
def frameClearColor : Color := ⟨0, 0, 0, 1⟩

/-- Events of the shadow pass of a frame. -/
def shadowEvents (inp : FrameInput) : List Event :=
  if inp.enableShadows then
    [ Event.clear (some FB.sBuffer) frameClearColor true,
      Event.draw (some Program.shaderDepthWrite) (some FB.sBuffer) Mesh.plane none none,
      Event.draw (some Program.shaderDepthWrite) (some FB.sBuffer) (Mesh.model 0) none none,
      stageH, Event.barrier, stageV, Event.barrier ]
  else [ Event.clear (some FB.sBuffer) ⟨1, 1, 1, 1⟩ true ]

/-- Events of the geometry pass, the SSAO pass and the bilateral blur. -/
def gBufferEvents (inp : FrameInput) : List Event :=
  [ Event.clear (some FB.gBuffer) frameClearColor true,
    Event.draw (some Program.shaderTexturedGeometryPass) (some FB.gBuffer) Mesh.plane none none,
    Event.draw (some Program.shaderGeometryPass) (some FB.gBuffer) (Mesh.model 0) none none,
    Event.clear (some FB.aoBuffer) frameClearColor true,
    Event.draw (some Program.shaderSSAO) (some FB.aoBuffer) Mesh.quad none none ]
  ++ (if inp.bilateralBlur then
    [ Event.dispatch (some Program.computeBilateralBlur) ((SCR_WIDTH + 127) / 128) SCR_HEIGHT 1
        (some (Tex.attached FB.aoBuffer 0)) (some (Tex.attached FB.aoBuffer 1)),
      Event.barrier,
      Event.dispatch (some Program.computeBilateralBlur) ((SCR_HEIGHT + 127) / 128) SCR_WIDTH 1
        (some (Tex.attached FB.aoBuffer 1)) (some (Tex.attached FB.aoBuffer 0)),
      Event.barrier ]
   else [])

/-- The draw of the lighting pass, by debug view. -/
def lightingEvent (inp : FrameInput) : Event :=
  if inp.gBufferMode = GBufferRender.Final then
    Event.draw (some Program.pbrShader) none Mesh.quad (some satB) (some varianceBuffer)
  else if inp.gBufferMode = GBufferRender.Occlusion then
    Event.draw (some Program.shaderSSAODebug) none Mesh.quad none none
  else Event.draw (some Program.shaderGBufferDebug) none Mesh.quad none none

/-- Events after the draw of the lighting pass. -/
def overlayEvents (inp : FrameInput) : List Event :=
  (if inp.gBufferMode = GBufferRender.Final then
    [ Event.draw (some Program.cubemapShader) none Mesh.cube none none ] else [])
  ++ (if inp.drawPointLights ∧ inp.gBufferMode = GBufferRender.Final then
    [ Event.draw (some Program.shaderLightSphere) none Mesh.lightInstanced none none,
      Event.draw (some Program.shaderGlobalLightSphere) none Mesh.lightModel none none ]
   else [])
  ++ (if inp.showDepthMap then
    [ Event.draw (some Program.shaderDebugDepthMap) none Mesh.quad none none ] else [])

/-! ## The box query of the Soft-Shadow Sampler -/

/-- Modelled from the spec: a corner read of the SAT by the Soft-Shadow Sampler
(the lighting shader deferredSASVSM.glsl is not among the translated sources).
Section 3 of the spec: "Coordinates are clamped to `[0, S-1]`; out-of-range
corners are treated as contributing zero (equivalent to a zero-padded
border)". A coordinate above `S - 1` is clamped to `S - 1`, where the SAT
holds the sum up to the edge; a corner with a negative coordinate, the corner
`x-r-1` or `y-r-1` of a box that reaches the left or the top edge, contributes
zero. -/
def satLookup {α : Type} [Zero α] (S : Nat) (sat : Image α) (x y : Int) : α :=
  if x < 0 ∨ y < 0 then 0
  else sat (min x ((S : Int) - 1)).toNat (min y ((S : Int) - 1)).toNat

/-- Modelled from the spec: the sum of a box query `(x, y, r)` of the
Soft-Shadow Sampler, by inclusion-exclusion over four corner reads (section 3,
BoxStatistics): `SAT[x+r,y+r] − SAT[x-r-1,y+r] − SAT[x+r,y-r-1] +
SAT[x-r-1,y-r-1]`. -/
def boxQuery {α : Type} [AddCommGroup α] (S : Nat) (sat : Image α) (x y r : Nat) : α :=
  satLookup S sat ((x : Int) + r) ((y : Int) + r)
    - satLookup S sat ((x : Int) - r - 1) ((y : Int) + r)
    - satLookup S sat ((x : Int) + r) ((y : Int) - r - 1)
    + satLookup S sat ((x : Int) - r - 1) ((y : Int) - r - 1)

/-- The zero-padded buffer: `v` inside the `S × S` image, 0 outside. -/
def zeroPadded {α : Type} [Zero α] (S : Nat) (v : Image α) (i j : Int) : α :=
  if 0 ≤ i ∧ i < S ∧ 0 ≤ j ∧ j < S then v i.toNat j.toNat else 0

/-- Brute-force sum of the zero-padded buffer over the box of side `2 r + 1`
centred at `(x, y)`. -/
def boxSum {α : Type} [AddCommMonoid α] (S : Nat) (v : Image α) (x y r : Nat) : α :=
  ∑ di in Finset.range (2 * r + 1), ∑ dj in Finset.range (2 * r + 1),
    zeroPadded S v ((x : Int) - r + di) ((y : Int) - r + dj)

/-- Brute-force sum of the buffer over the box of side `2 r + 1` centred at
`(x, y)`, for a box inside the image (`r ≤ x` and `r ≤ y`). -/
def boxSumInside {α : Type} [AddCommMonoid α] (v : Image α) (x y r : Nat) : α :=
  ∑ di in Finset.range (2 * r + 1), ∑ dj in Finset.range (2 * r + 1),
    v (x - r + di) (y - r + dj)

/-- Running sum of an integer-indexed line from index 0 to `a`; empty for
negative `a`. -/
def lineSum {α : Type} [AddCommMonoid α] (f : Int → α) (a : Int) : α :=
  if 0 ≤ a then ∑ i in Finset.range (a.toNat + 1), f i else 0

/-- The running 2D sum of the zero-padded buffer up to integer corner `(a, b)`. -/
def cornerSum {α : Type} [AddCommMonoid α] (S : Nat) (v : Image α) (a b : Int) : α :=
  lineSum (fun i => lineSum (fun j => zeroPadded S v i j) b) a

/-- The events issued after the last Variance Capture draw and before the
first SAT dispatch of an event sequence. -/
def captureToStageH (es : List Event) : List Event :=
  ((es.takeWhile (fun e => !e.isSATDispatch)).reverse.takeWhile
    (fun e => !e.isCaptureDraw)).reverse

/-- The values the variables of `main()` have when the render loop is entered
(lines 429-459), with the control panel headers closed. -/
def initialInput : FrameInput where
  enableShadows := true
  bilateralBlur := true
  gBufferMode := 0
  drawPointLights := false
  drawPointLightsWireframe := true
  showDepthMap := false
  softSATVSM := false
  shadowSaturation := 1 / 2
  penumbraSize := 1
  lightSourceRadius := 16
  iblSamples := 30
  aoSamples := 20
  sampleTurns := 16
  sampleRadius := 1
  shadowScalar := 299 / 1000
  shadowContrast := 1
  lightIntensity := 1
  lightRadius := 1 / 8
  debugHeaderOpen := false
  debugGBufferMode := 0

/-! ## Further notions for the dispatch, format and shadows-off statements -/

/-- The command is a glDispatchCompute call. -/
def Cmd.isDispatch : Cmd → Bool
  | Cmd.dispatchCompute _ _ _ => true
  | _ => false

/-- The dispatches of a command sequence that are issued while `computeSAT` is
current, each with the whole GL state it is issued in. -/
def satDispatches (dflt : TexParams) (s : GLState) (cs : List Cmd) : List (GLState × Cmd) :=
  (trace dflt s cs).filter
    (fun e => e.2.isDispatch && decide (e.1.program = some Program.computeSAT))

/-- The commands of a shadow-enabled frame that precede the SAT Builder
(lines 602-639). -/
def beforeSatBuilder : List Cmd :=
  [ Cmd.clearColor ⟨0, 0, 0, 1⟩, Cmd.enableDepthTest ] ++ varianceCapture

/-- The commands of a frame that follow the shadow pass (lines 702-946 and
line 1038). -/
def afterShadowPass (inp : FrameInput) : List Cmd :=
  geometryPass ++ ssaoPass inp ++ blurPass inp ++ lightingBind inp ++ lightingDraw
    ++ overlays inp

/-- State in which the Stage H dispatch of a shadow-enabled frame started in
`s` is issued: after lines 602-649. -/
def stageHState (dflt : TexParams) (s : GLState) : GLState :=
  run dflt s (beforeSatBuilder ++ satBuilder.take 3)

/-- State in which the Stage V dispatch of a shadow-enabled frame started in
`s` is issued: after lines 602-653. -/
def stageVState (dflt : TexParams) (s : GLState) : GLState :=
  run dflt s (beforeSatBuilder ++ satBuilder.take 7)

/-- State after a sequence of frames, one per input. -/
def runFrames (dflt : TexParams) (s : GLState) : List FrameInput → GLState
  | [] => s
  | inp :: rest => runFrames dflt (run dflt s (frame inp)) rest

/-- The format is a floating-point colour format. -/
def TexFormat.isFloat : TexFormat → Bool
  | .RGBA32F => true
  | .RGBA16F => true
  | .RGB16F => true
  | _ => false

/-- The frame buffer a texture is attached to, if it is an attached one. -/
def Tex.owner : Tex → Option FB
  | Tex.attached fb _ => some fb
  | _ => none

/-- The event may write texture `t`: a clear of the colour buffers or a draw
while the frame buffer that `t` is attached to is bound as output, or a
dispatch that has `t` bound to one of the image units of its program (the
input unit counts as well: `main()` binds both units of `computeSAT` with
`GL_READ_WRITE`). -/
def Event.writes (t : Tex) : Event → Bool
  | Event.clear (some fb) _ true => decide (t.owner = some fb)
  | Event.draw _ (some fb) _ _ _ => decide (t.owner = some fb)
  | Event.dispatch _ _ _ _ i o => decide (i = some t) || decide (o = some t)
  | _ => false

/-- Number of work groups of a `glDispatchCompute(gx, gy, gz)` call. -/
def Cmd.groupCount : Cmd → Nat
  | Cmd.dispatchCompute gx gy gz => gx * gy * gz
  | _ => 0

/-- The events of a run of loop iterations, in order. -/
def frameEvents (dflt : TexParams) (s : GLState) : List FrameInput → List Event
  | [] => []
  | inp :: rest => events dflt s (frame inp) ++ frameEvents dflt (run dflt s (frame inp)) rest

/-! ## The attenuation of the Soft-Shadow Sampler -/

/-- Modelled from the spec: the value of a floating-point expression of the
lighting shader (deferredSASVSM.glsl is not among the translated sources). The
numbers are exact; what is kept of the floating-point format is the outcome of
a division by zero, which the formula of section 4.4 meets at
`shadowSaturation = 1`: an infinity of the sign of the dividend, and no number
at all for 0 / 0. Rounding is no part of this type: `attenuation` computes
with exact operations, `attenuationWith` rounds the result of every
operation. -/
inductive FVal where
  /-- A finite number. -/
  | fin (q : ℚ)
  /-- Positive infinity. -/
  | posInf
  /-- Negative infinity. -/
  | negInf
  /-- Not a number. -/
  | nan
  deriving DecidableEq

/-- Modelled from the spec: the quotient `a / b` of two finite numbers as the
shader computes it (the shader is not among the translated sources): the exact
quotient when `b` is not zero, an infinity of the sign of `a` when `b` is zero
and `a` is not, and no number for 0 / 0. -/
def fdiv (a b : ℚ) : FVal :=
  if b ≠ 0 then FVal.fin (a / b)
  else if 0 < a then FVal.posInf
  else if a < 0 then FVal.negInf
  else FVal.nan

/-- Modelled from the spec: `x - s` for a finite `s` (the shader is not among
the translated sources). -/
def FVal.sub (x : FVal) (s : ℚ) : FVal :=
  match x with
  | FVal.fin q => FVal.fin (q - s)
  | other => other

/-- Modelled from the spec: `x / b` for a finite `b` (the shader is not among
the translated sources); an infinity keeps its sign when divided by a number
that is not negative. -/
def FVal.div (x : FVal) (b : ℚ) : FVal :=
  match x with
  | FVal.fin q => fdiv q b
  | FVal.posInf => if 0 ≤ b then FVal.posInf else FVal.negInf
  | FVal.negInf => if 0 ≤ b then FVal.negInf else FVal.posInf
  | FVal.nan => FVal.nan

/-- Modelled from the spec: `clamp(x, lo, hi)`, that is `min(max(x, lo), hi)`
(the shader is not among the translated sources). Negative infinity gives
`lo` and positive infinity gives `hi`; for a value that is not a number the
result is not defined. -/
def clamp (x : FVal) (lo hi : ℚ) : Option ℚ :=
  match x with
  | FVal.fin q => some (min (max q lo) hi)
  | FVal.posInf => some hi
  | FVal.negInf => some (min lo hi)
  | FVal.nan => none

/-- Modelled from the spec: the one-sided Chebyshev upper bound
`p_max = v / (v + (d_receiver - mean)^2)` of step 6 of section 4.4 (the shader
is not among the translated sources). -/
def p_max (v mean d_receiver : ℚ) : FVal :=
  fdiv v (v + (d_receiver - mean) ^ 2)

/-- Modelled from the spec: steps 4 to 6 of the Soft-Shadow Sampler (section
4.4; the shader is not among the translated sources). The variance is
`v = max(meanSquare - mean², ε)`; a receiver with `d_receiver ≤ mean` is fully
lit; otherwise the result is
`clamp((p_max - shadowSaturation) / (1 - shadowSaturation), 0, 1)`. The result
is `none` where the expression has no numeric value. -/
def attenuation (ε mean meanSquare d_receiver shadowSaturation : ℚ) : Option ℚ :=
  let v := max (meanSquare - mean ^ 2) ε
  if d_receiver ≤ mean then some 1
  else clamp (((p_max v mean d_receiver).sub shadowSaturation).div (1 - shadowSaturation)) 0 1

/-! ## The control panel and the variables of the render loop -/

/-- Modelled from the spec: `ImGui::SliderFloat(label, &v, v_min, v_max)`
(imgui is not among the translated sources). Section 6 of the spec gives the
tunables of the control panel their ranges (`shadowSaturation: float[0,1]`): a
slider leaves the variable as it is while the user does not move it, and
stores the position it is moved to, a value of `[v_min, v_max]`, otherwise.
`moved` is the position the user asks for in this iteration, if any. -/
def ImGui.SliderFloat (v v_min v_max : ℚ) (moved : Option ℚ) : ℚ :=
  match moved with
  | none => v
  | some x => min (max x v_min) v_max

/-- Modelled from the spec: `ImGui::SliderInt(label, &v, v_min, v_max)` (imgui
is not among the translated sources), as `ImGui.SliderFloat`. -/
def ImGui.SliderInt (v v_min v_max : Int) (moved : Option Int) : Int :=
  match moved with
  | none => v
  | some x => min (max x v_min) v_max

/-- Modelled from the spec: `ImGui::Checkbox(label, &v)` (imgui is not among
the translated sources): a click flips the flag. -/
def ImGui.Checkbox (v : Bool) (clicked : Bool) : Bool :=
  if clicked then !v else v

/-- Modelled from the spec: `ImGui::Combo(label, &v, items, count)` (imgui is
not among the translated sources): the index of the item the user picks, one
of `0 .. count - 1`, is stored; without a pick the variable stays. -/
def ImGui.Combo (v : Int) (count : Nat) (picked : Option Nat) : Int :=
  match picked with
  | none => v
  | some i => if i < count then (i : Int) else v

/-- What the user does to the control panel during one iteration of the
render loop: which headers are open, and for each widget that acts on a
variable of `FrameInput` the position, pick or click, if any. The widgets of
the materials and of the point lights act on no variable of `FrameInput` and
are left out. -/
structure PanelInput where
  ssaoOpen : Bool
  aoSamples : Option Int
  sampleRadius : Option ℚ
  sampleTurns : Option Int
  shadowScalar : Option ℚ
  shadowContrast : Option ℚ
  bilateralBlur : Bool
  iblOpen : Bool
  iblSamples : Option Int
  lightingOpen : Bool
  globalLightOpen : Bool
  globalLightIntensity : Option ℚ
  shadowsOpen : Bool
  enableShadows : Bool
  shadowSaturation : Option ℚ
  penumbraSize : Option ℚ
  lightSourceRadius : Option Int
  softSATVSM : Bool
  debugOpen : Bool
  gBufferMode : Option Nat
  drawPointLights : Bool
  drawPointLightsWireframe : Bool
  showDepthMap : Bool

/-- Lines 959-966: the widgets under the header "SSAO". -/
def panelSSAO (ui : PanelInput) (v : FrameInput) : FrameInput :=
  if ui.ssaoOpen then
    { v with
      aoSamples := ImGui.SliderInt v.aoSamples 1 64 ui.aoSamples
      sampleRadius := ImGui.SliderFloat v.sampleRadius 0 5 ui.sampleRadius
      sampleTurns := ImGui.SliderInt v.sampleTurns 1 64 ui.sampleTurns
      shadowScalar := ImGui.SliderFloat v.shadowScalar (1 / 10) 20 ui.shadowScalar
      shadowContrast := ImGui.SliderFloat v.shadowContrast (1 / 10) 10 ui.shadowContrast
      bilateralBlur := ImGui.Checkbox v.bilateralBlur ui.bilateralBlur }
  else v

/-- Lines 968-975: the slider under the header "IBL". -/
def panelIBL (ui : PanelInput) (v : FrameInput) : FrameInput :=
  if ui.iblOpen then { v with iblSamples := ImGui.SliderInt v.iblSamples 1 100 ui.iblSamples }
  else v

/-- Lines 1027-1033: the widgets under the header "Shadows". -/
def panelShadows (ui : PanelInput) (v : FrameInput) : FrameInput :=
  if ui.shadowsOpen then
    { v with
      enableShadows := ImGui.Checkbox v.enableShadows ui.enableShadows
      shadowSaturation := ImGui.SliderFloat v.shadowSaturation 0 1 ui.shadowSaturation
      penumbraSize := ImGui.SliderFloat v.penumbraSize (1 / 2) 10 ui.penumbraSize
      lightSourceRadius := ImGui.SliderInt v.lightSourceRadius 4 40 ui.lightSourceRadius
      softSATVSM := ImGui.Checkbox v.softSATVSM ui.softSATVSM }
  else v

/-- Lines 1003-1034: the widgets under the header "Lighting Config": the
intensity of the global light and the header "Shadows". -/
def panelLighting (ui : PanelInput) (v : FrameInput) : FrameInput :=
  if ui.lightingOpen then
    panelShadows ui
      (if ui.globalLightOpen then
        { v with lightIntensity := ImGui.SliderFloat v.lightIntensity 0 15 ui.globalLightIntensity }
       else v)
  else v

/-- Lines 1035-1045: the widgets under the header "Debug". -/
def panelDebug (ui : PanelInput) (v : FrameInput) : FrameInput :=
  if ui.debugOpen then
    { v with
      gBufferMode := ImGui.Combo v.gBufferMode 6 ui.gBufferMode
      drawPointLights := ImGui.Checkbox v.drawPointLights ui.drawPointLights
      drawPointLightsWireframe :=
        ImGui.Checkbox v.drawPointLightsWireframe ui.drawPointLightsWireframe
      showDepthMap := ImGui.Checkbox v.showDepthMap ui.showDepthMap }
  else v

/-- Lines 952-1051: the variables of `main()` after the control panel code of
one iteration. -/
def controlPanel (ui : PanelInput) (v : FrameInput) : FrameInput :=
  panelDebug ui (panelLighting ui (panelIBL ui (panelSSAO ui v)))

/-- The render loop `while (!glfwWindowShouldClose(window))` as far as its
variables go: the input of each iteration's frame, given what the user does
to the control panel in each iteration. An iteration draws with the variables
as the iterations before it left them; the GL call under the header "Debug"
is made when that header is open in the iteration, with the value its combo
box has just left in `gBufferMode`. -/
def renderLoop (v : FrameInput) : List PanelInput → List FrameInput
  | [] => []
  | ui :: rest =>
    { v with
      debugHeaderOpen := ui.debugOpen
      debugGBufferMode := (controlPanel ui v).gBufferMode }
      :: renderLoop (controlPanel ui v) rest

/-! ## The blur data of `openglblurdata.cpp`

The numbers are those of a field `K` and the arithmetic is exact; `glm::exp`
is a parameter. A division by zero, which the source meets for `deviation = 0`
only, has the value 0 of the field's division. -/

/-- The constant `Sqrt2Pi` of openglblurdata.cpp, with the decimal digits of
the source. -/
def Sqrt2Pi {K : Type} [Field K] : K :=
  2.5066282746310005024157652848110452530069867406099383

/-- Function `normalDist(value, mean, deviation)` of openglblurdata.cpp. -/
def normalDist {K : Type} [Field K] (exp : K → K) (value mean deviation : K) : K :=
  let value := value - mean
  let valueSquared := value * value
  let variance := deviation * deviation
  exp (-valueSquared / (2 * variance)) / (Sqrt2Pi * deviation)

/-- The member `float weights[65]`: the entry at each index, `none` while
nothing has been assigned to it. -/
abbrev Weights (K : Type) := Nat → Option K

/-- The assignment `weights[i] = x`; it fails for an index outside the array
`weights[65]`. -/
def Weights.write {K : Type} (w : Weights K) (i : Int) (x : K) : Option (Weights K) :=
  if 0 ≤ i ∧ i < 65 then some (Function.update w i.toNat (some x)) else none

/-- The value read by `weights[i]`; the read fails for an index outside the
array and for an entry nothing has been assigned to. -/
def Weights.read {K : Type} (w : Weights K) (i : Int) : Option K :=
  if 0 ≤ i ∧ i < 65 then w i.toNat else none

/-- Class `OpenGLBlurData` of openglblurdata.h. -/
structure OpenGLBlurData (K : Type) where
  blurWidth : Int
  blurWidth2 : Int
  weights : Weights K

/-- A loop `for (int i = 0; i < n; ++i)` whose body may fail. -/
def forLoop {σ : Type} (n : Int) (body : σ → Int → Option σ) (s : σ) : Option σ :=
  (List.range n.toNat).foldlM (fun st i => body st (i : Int)) s

/-- The body of the first loop of the constructor (lines 31-33) on the state
`(weights, total)`: `weights[blurWidth2 - i]` is assigned first, then
`weights[i]`. -/
def fillBody {K : Type} [Field K] (exp : K → K) (deviation : K) (blurWidth blurWidth2 : Int)
    (st : Weights K × K) (i : Int) : Option (Weights K × K) :=
  let current := normalDist exp ((blurWidth - i : Int) : K) 0 deviation
  (st.1.write (blurWidth2 - i) current).bind fun w1 =>
    (w1.write i current).map fun w2 => (w2, st.2 + 2 * current)

/-- The body of the second loop of the constructor (line 41):
`weights[i] /= total`. -/
def normalizeBody {K : Type} [Field K] (total : K) (w : Weights K) (i : Int) :
    Option (Weights K) :=
  (w.read i).bind fun x => w.write i (x / total)

/-- The constructor `OpenGLBlurData::OpenGLBlurData(int width, float
deviation)` of openglblurdata.cpp; `none` when an array access fails. -/
def OpenGLBlurData.new {K : Type} [Field K] (exp : K → K) (width : Int) (deviation : K) :
    Option (OpenGLBlurData K) :=
  let blurWidth := width
  let blurWidth := if blurWidth < 1 then 1 else blurWidth
  let blurWidth := if blurWidth > 32 then 32 else blurWidth
  let blurWidth2 := 2 * blurWidth
  (forLoop blurWidth (fillBody exp deviation blurWidth blurWidth2) (fun _ => none, 0)).bind
    fun st =>
      (st.1.write blurWidth (normalDist exp 0 0 deviation)).bind fun w =>
        (w.read blurWidth).bind fun x =>
          let total := st.2 + x
          (forLoop (blurWidth2 + 1) (normalizeBody total) w).map fun w2 =>
            { blurWidth := blurWidth, blurWidth2 := blurWidth2, weights := w2 }

/-- The value the constructor computes for tap `j` before it normalises:
`normalDist(float(blurWidth - j), 0, deviation)`. -/
def rawWeight {K : Type} [Field K] (exp : K → K) (deviation : K) (blurWidth : Int) (j : Nat) : K :=
  normalDist exp ((blurWidth - j : Int) : K) 0 deviation

/-- The value of `total` when the constructor normalises: twice the values of
the taps `0 .. blurWidth - 1` and the value of the centre tap. -/
def rawTotal {K : Type} [Field K] (exp : K → K) (deviation : K) (blurWidth : Int) : K :=
  (∑ i in Finset.range blurWidth.toNat, 2 * rawWeight exp deviation blurWidth i)
    + rawWeight exp deviation blurWidth blurWidth.toNat

/-- The width the constructor works with: `width` brought into `[1, 32]` by
lines 24-25. -/
def clampWidth (width : Int) : Int :=
  let blurWidth := if width < 1 then 1 else width
  if blurWidth > 32 then 32 else blurWidth

/-! ## The point lights (`configurePointLights`, `updatePointLights`)

The numbers are those of an ordered field `K` and the arithmetic is exact. -/

/-- Constant `LIGHT_GRID_WIDTH`: "point light grid size". -/
def LIGHT_GRID_WIDTH : Nat := 5

/-- Constant `LIGHT_GRID_HEIGHT`: "point light vertical grid height". -/
def LIGHT_GRID_HEIGHT : Nat := 4

/-- Constant `INITIAL_POINT_LIGHT_RADIUS`. -/
def INITIAL_POINT_LIGHT_RADIUS {K : Type} [Field K] : K := 0.870

/-- A `glm::vec4`. -/
structure Vec4 (K : Type) where
  x : K
  y : K
  z : K
  w : K
  deriving DecidableEq

/-- A `glm::mat4`: its four columns `m[0] .. m[3]`. -/
structure Mat4 (K : Type) where
  c0 : Vec4 K
  c1 : Vec4 K
  c2 : Vec4 K
  c3 : Vec4 K
  deriving DecidableEq

/-- The matrix `glm::mat4(1.0f)`. -/
def Mat4.identity {K : Type} [Field K] : Mat4 K :=
  ⟨⟨1, 0, 0, 0⟩, ⟨0, 1, 0, 0⟩, ⟨0, 0, 1, 0⟩, ⟨0, 0, 0, 1⟩⟩

/-- The vector `a * s` for a scalar `s`. -/
def Vec4.scale {K : Type} [Field K] (a : Vec4 K) (s : K) : Vec4 K :=
  ⟨a.x * s, a.y * s, a.z * s, a.w * s⟩

/-- The vector `a + b`. -/
def Vec4.add {K : Type} [Field K] (a b : Vec4 K) : Vec4 K :=
  ⟨a.x + b.x, a.y + b.y, a.z + b.z, a.w + b.w⟩

/-- Library function `glm::translate(m, vec3(x, y, z))`: the matrix `m` with
column 3 replaced by `m[0] * x + m[1] * y + m[2] * z + m[3]`. -/
def translate {K : Type} [Field K] (m : Mat4 K) (x y z : K) : Mat4 K :=
  { m with c3 := (((m.c0.scale x).add (m.c1.scale y)).add (m.c2.scale z)).add m.c3 }

/-- What the point light code takes from the C library: the values the
successive calls of `rand()` return after `srand(glfwGetTime())`, the constant
`RAND_MAX`, and `glm::pi`, `cos`, `sin`. -/
structure LightEnv (K : Type) where
  rand : Nat → Nat
  RAND_MAX : Nat
  pi : K
  cos : K → K
  sin : K → K

/-- The index `curLight` of the light of grid cell `(X, Z, Y)`. -/
def curLight (lightIndexX lightIndexZ lightIndexY : Nat) : Nat :=
  lightIndexX * LIGHT_GRID_WIDTH * LIGHT_GRID_HEIGHT + lightIndexZ * LIGHT_GRID_HEIGHT
    + lightIndexY

/-- The grid cells `(lightIndexX, lightIndexZ, lightIndexY)` in the order the
three nested loops of both functions visit them. -/
def gridCells : List (Nat × Nat × Nat) :=
  (List.range LIGHT_GRID_WIDTH).flatMap fun lightIndexX =>
    (List.range LIGHT_GRID_WIDTH).flatMap fun lightIndexZ =>
      (List.range LIGHT_GRID_HEIGHT).map fun lightIndexY =>
        (lightIndexX, lightIndexZ, lightIndexY)

/-- The random offset `(xOffset, zOffset)` of `configurePointLights`, drawn
with the calls `k` and `k + 1` of `rand()`. -/
def lightOffset {K : Type} [Field K] (env : LightEnv K) (k : Nat) : K × K :=
  let angle := (env.rand k : K) * 2 * env.pi / (env.RAND_MAX : K)
  let length := (env.rand (k + 1) : K) * 0.5 / (env.RAND_MAX : K)
  (env.cos angle * length, env.sin angle * length)

/-- The body of the loops of `configurePointLights` (lines 1086-1106) up to
the two `emplace_back` calls: the matrix and the colour and size of the light
of a grid cell, when `k` calls of `rand()` have been made before. -/
def lightEntry {K : Type} [Field K] (env : LightEnv K) (radius separation yOffset : K)
    (cell : Nat × Nat × Nat) (k : Nat) : Mat4 K × Vec4 K :=
  let diameter := 2 * radius
  let xPos := ((cell.1 : K) - ((LIGHT_GRID_WIDTH : K) - 1) / 2) * (diameter * separation)
  let zPos := ((cell.2.1 : K) - ((LIGHT_GRID_WIDTH : K) - 1) / 2) * (diameter * separation)
  let yPos :=
    ((cell.2.2 : K) - ((LIGHT_GRID_HEIGHT : K) - 1) / 2) * (diameter * separation) + yOffset
  let xPos := xPos + (lightOffset env k).1
  let zPos := zPos + (lightOffset env k).2
  let rColor := ((env.rand (k + 2) % 100 : Nat) : K) / 200 + 0.5
  let gColor := ((env.rand (k + 3) % 100 : Nat) : K) / 200 + 0.5
  let bColor := ((env.rand (k + 4) % 100 : Nat) : K) / 200 + 0.5
  (translate Mat4.identity xPos yPos zPos, ⟨rColor, gColor, bColor, radius⟩)

/-- One pass of the loop body of `configurePointLights` on the two vectors
and the number of `rand()` calls made so far: both vectors get one more
entry. -/
def configureBody {K : Type} [Field K] (env : LightEnv K) (radius separation yOffset : K)
    (st : List (Mat4 K) × List (Vec4 K) × Nat) (cell : Nat × Nat × Nat) :
    List (Mat4 K) × List (Vec4 K) × Nat :=
  let e := lightEntry env radius separation yOffset cell st.2.2
  (st.1 ++ [e.1], st.2.1 ++ [e.2], st.2.2 + 5)

/-- Function `configurePointLights(modelMatrices, modelColorSizes, radius,
separation, yOffset)`: the two vectors after the call. -/
def configurePointLights {K : Type} [Field K] (env : LightEnv K)
    (modelMatrices : List (Mat4 K)) (modelColorSizes : List (Vec4 K))
    (radius separation yOffset : K) : List (Mat4 K) × List (Vec4 K) :=
  let st := gridCells.foldl (configureBody env radius separation yOffset)
    (modelMatrices, modelColorSizes, 0)
  (st.1, st.2.1)

/-- The buffer calls at the end of `updatePointLights`. -/
inductive BufferCall (K : Type) where
  /-- Call `glBindBuffer(GL_ARRAY_BUFFER, b)`, with `b` the `matrixBuffer` or 0. -/
  | bindArrayBuffer (matrixBuffer : Bool)
  /-- Call `glBufferData(GL_ARRAY_BUFFER, n * sizeof(glm::mat4), data,
  GL_STATIC_DRAW)` with the `n` matrices read from `data`. -/
  | arrayBufferData (matrices : List (Mat4 K))
  deriving DecidableEq

/-- The body of the loops of `updatePointLights` (lines 1124-1132); it fails
when `curLight` is not an index of one of the vectors. -/
def updateBody {K : Type} [Field K] (separation yOffset radius : K)
    (st : List (Mat4 K) × List (Vec4 K)) (cell : Nat × Nat × Nat) :
    Option (List (Mat4 K) × List (Vec4 K)) :=
  let curLight := curLight cell.1 cell.2.1 cell.2.2
  let diameter := 2 * (INITIAL_POINT_LIGHT_RADIUS : K)
  let xPos := ((cell.1 : K) - ((LIGHT_GRID_WIDTH : K) - 1) / 2) * (diameter * separation)
  let zPos := ((cell.2.1 : K) - ((LIGHT_GRID_WIDTH : K) - 1) / 2) * (diameter * separation)
  let yPos := ((cell.2.2 : K) - ((LIGHT_GRID_HEIGHT : K) - 1) / 2) * (diameter * separation)
  match st.1[curLight]?, st.2[curLight]? with
  | some m, some c =>
    some (st.1.set curLight { m with c3 := ⟨xPos, yPos + yOffset, zPos, 1⟩ },
          st.2.set curLight { c with w := radius })
  | _, _ => none

/-- Function `updatePointLights(modelMatrices, modelColorSizes, separation,
yOffset, radius)`: the two vectors after the call and the buffer calls made;
`none` when a vector is indexed out of its range. -/
def updatePointLights {K : Type} [LinearOrderedField K]
    (modelMatrices : List (Mat4 K)) (modelColorSizes : List (Vec4 K))
    (separation yOffset radius : K) :
    Option (List (Mat4 K) × List (Vec4 K) × List (BufferCall K)) :=
  if separation < 0 then some (modelMatrices, modelColorSizes, [])
  else
    (gridCells.foldlM (updateBody separation yOffset radius)
        (modelMatrices, modelColorSizes)).map fun st =>
      (st.1, st.2,
        [ BufferCall.bindArrayBuffer true,
          BufferCall.arrayBufferData
            (st.1.take (LIGHT_GRID_WIDTH * LIGHT_GRID_WIDTH * LIGHT_GRID_HEIGHT)),
          BufferCall.bindArrayBuffer false ])

/-- The grid cell with index `n`. -/
def cellOf (n : Nat) : Nat × Nat × Nat :=
  (n / (LIGHT_GRID_WIDTH * LIGHT_GRID_HEIGHT), n / LIGHT_GRID_HEIGHT % LIGHT_GRID_WIDTH,
    n % LIGHT_GRID_HEIGHT)

/-- The centre of light `n`: column 3 of its matrix. -/
def centre {K : Type} (modelMatrices : List (Mat4 K)) (n : Nat) : Option (Vec4 K) :=
  modelMatrices[n]?.map fun m => m.c3

/-- The centre `updatePointLights` assigns to the light of a grid cell: the
vector `glm::vec4(xPos, yPos + yOffset, zPos, 1.0)` of line 1131. -/
def updatedCentre {K : Type} [Field K] (separation yOffset : K) (cell : Nat × Nat × Nat) :
    Vec4 K :=
  let diameter := 2 * (INITIAL_POINT_LIGHT_RADIUS : K)
  let xPos := ((cell.1 : K) - ((LIGHT_GRID_WIDTH : K) - 1) / 2) * (diameter * separation)
  let zPos := ((cell.2.1 : K) - ((LIGHT_GRID_WIDTH : K) - 1) / 2) * (diameter * separation)
  let yPos := ((cell.2.2 : K) - ((LIGHT_GRID_HEIGHT : K) - 1) / 2) * (diameter * separation)
  ⟨xPos, yPos + yOffset, zPos, 1⟩

/-! ## Further notions for the statements on the blur data -/

/-- Lines 21-36 of the constructor `OpenGLBlurData::OpenGLBlurData`: the array
`weights` and the value of `total` when the normalisation loop is entered;
`none` when an array access fails. -/
def OpenGLBlurData.filled {K : Type} [Field K] (exp : K → K) (width : Int) (deviation : K) :
    Option (Weights K × K) :=
  let blurWidth := width
  let blurWidth := if blurWidth < 1 then 1 else blurWidth
  let blurWidth := if blurWidth > 32 then 32 else blurWidth
  let blurWidth2 := 2 * blurWidth
  (forLoop blurWidth (fillBody exp deviation blurWidth blurWidth2) (fun _ => none, 0)).bind
    fun st =>
      (st.1.write blurWidth (normalDist exp 0 0 deviation)).bind fun w =>
        (w.read blurWidth).map fun x => (w, st.2 + x)

/-- The Gaussian tap of the statement on the normalised weights, written as
there: `exp(-(w - i)^2 / (2 * deviation^2))`. -/
def gaussianTap {K : Type} [Field K] (exp : K → K) (w : Int) (deviation : K) (i : Nat) : K :=
  exp (-((w - i : Int) : K) ^ 2 / (2 * deviation ^ 2))

/-- The normalised Gaussian tap of the statement on the normalised weights,
written as there: the tap `i` divided by the sum of the taps `0 .. 2 * w`. -/
def normalisedGaussian {K : Type} [Field K] (exp : K → K) (w : Int) (deviation : K) (i : Nat) :
    K :=
  gaussianTap exp w deviation i
    / ∑ k in Finset.range (2 * w.toNat + 1), gaussianTap exp w deviation k

/-! ## Further notions for the statements on the point lights -/

/-- Constant `totalLights` of `main()` (line 461). -/
def totalLights : Nat := LIGHT_GRID_WIDTH * LIGHT_GRID_WIDTH * LIGHT_GRID_HEIGHT

/-! ## The attenuation of the Soft-Shadow Sampler with rounded arithmetic -/

/-- Modelled from the spec: the quotient `a / b` of two finite numbers with
the result rounded by `rnd`; the outcome of a division by zero is that of
`fdiv`. -/
def fdivWith (rnd : ℚ → ℚ) (a b : ℚ) : FVal :=
  if b ≠ 0 then FVal.fin (rnd (a / b))
  else if 0 < a then FVal.posInf
  else if a < 0 then FVal.negInf
  else FVal.nan

/-- Modelled from the spec: `x - s` for a finite `s`, rounded by `rnd`. -/
def FVal.subWith (rnd : ℚ → ℚ) (x : FVal) (s : ℚ) : FVal :=
  match x with
  | FVal.fin q => FVal.fin (rnd (q - s))
  | other => other

/-- Modelled from the spec: `x / b` for a finite `b`, rounded by `rnd`. -/
def FVal.divWith (rnd : ℚ → ℚ) (x : FVal) (b : ℚ) : FVal :=
  match x with
  | FVal.fin q => fdivWith rnd q b
  | FVal.posInf => if 0 ≤ b then FVal.posInf else FVal.negInf
  | FVal.negInf => if 0 ≤ b then FVal.negInf else FVal.posInf
  | FVal.nan => FVal.nan

/-- Modelled from the spec: the Chebyshev bound
`p_max = v / (v + (d_receiver - mean)^2)` of step 6 of section 4.4, with the
result of every operation rounded by `rnd`. -/
def p_maxWith (rnd : ℚ → ℚ) (v mean d_receiver : ℚ) : FVal :=
  let delta := rnd (d_receiver - mean)
  fdivWith rnd v (rnd (v + rnd (delta * delta)))

/-- Modelled from the spec: steps 4 to 6 of the Soft-Shadow Sampler (section
4.4; the shader is not among the translated sources) with the result of every
arithmetic operation rounded by `rnd`; comparisons, `max` and `clamp` are
exact. With the identity for `rnd` this is `attenuation`. The result is `none`
where the expression is not a number. -/
def attenuationWith (rnd : ℚ → ℚ) (ε mean meanSquare d_receiver shadowSaturation : ℚ) :
    Option ℚ :=
  let v := max (rnd (meanSquare - rnd (mean * mean))) ε
  if d_receiver ≤ mean then some 1
  else
    clamp (((p_maxWith rnd v mean d_receiver).subWith rnd shadowSaturation).divWith rnd
      (rnd (1 - shadowSaturation))) 0 1

theorem run_append (d : TexParams) (s : GLState) (a b : List Cmd) :
    run d s (a ++ b) = run d (run d s a) b := by
  induction a generalizing s with
  | nil => rfl
  | cons c cs ih => simp [run, ih]

theorem trace_append (d : TexParams) (s : GLState) (a b : List Cmd) :
    trace d s (a ++ b) = trace d s a ++ trace d (run d s a) b := by
  induction a generalizing s with
  | nil => rfl
  | cons c cs ih => simp [trace, run, ih]

theorem events_append (d : TexParams) (s : GLState) (a b : List Cmd) :
    events d s (a ++ b) = events d s a ++ events d (run d s a) b := by
  simp [events, trace_append]

theorem forEach_objectCount (body : Nat → List Cmd) : forEach objectCount body = body 0 := by
  simp [forEach, objectCount, List.range_succ]

theorem bindAll_fields (s : GLState) (fb : FB) (n : Nat) :
    (GLState.bindAll s fb n).uniformInt = s.uniformInt
    ∧ (GLState.bindAll s fb n).attachments = s.attachments
    ∧ (GLState.bindAll s fb n).texParams = s.texParams := by
  induction n with
  | zero => simp [GLState.bindAll]
  | succ k ih =>
    obtain ⟨h1, h2, h3⟩ := ih
    simp [GLState.bindAll, GLState.bindTex, h1, h2, h3]

theorem step_configured (d : TexParams) (s : GLState) (c : Cmd) (hs : Configured s)
    (hc : c.keepsConfig = true) : Configured (step d s c) := by
  obtain ⟨h0, h1, h2, h3, h4, h5, h6, h7, h8, h9⟩ := hs
  cases c <;>
    simp_all [Configured, step, GLState.bindTex, GLState.setParams, bindAll_fields,
      Cmd.keepsConfig]
  case setUniformInt p u v =>
    obtain ⟨⟨hp1, hp2⟩, hp3⟩ := hc
    simp only [Function.update_apply]
    refine ⟨?_, ?_, ?_, ?_, ?_, ?_⟩
    · rw [if_neg (Ne.symm hp1)]; exact h0
    · rw [if_neg (Ne.symm hp1)]; exact h1
    · rw [if_neg (Ne.symm hp2)]; exact h2
    · rw [if_neg (Ne.symm hp2)]; exact h3
    · split
      · rename_i hp
        subst hp
        have hu : ¬ Uniform.shadowSAT = u := fun h => by
          rcases hp3 with k | k
          · exact k rfl
          · exact k.1 h.symm
        rw [Function.update_noteq hu]; exact h4
      · exact h4
    · split
      · rename_i hp
        subst hp
        have hu : ¬ Uniform.shadowMap = u := fun h => by
          rcases hp3 with k | k
          · exact k rfl
          · exact k.2 h.symm
        rw [Function.update_noteq hu]; exact h5
      · exact h5

theorem run_configured (d : TexParams) (s : GLState) (cs : List Cmd) (hs : Configured s)
    (hc : cs.all Cmd.keepsConfig = true) : Configured (run d s cs) := by
  induction cs generalizing s with
  | nil => exact hs
  | cons c cs ih =>
    simp only [List.all_cons, Bool.and_eq_true] at hc
    exact ih _ (step_configured d s c hs hc.1) hc.2

theorem shadowPass_keepsConfig (inp : FrameInput) :
    (shadowPass inp).all Cmd.keepsConfig = true := by
  cases h : inp.enableShadows <;>
    simp [shadowPass, varianceCapture, satBuilder, clearShadowMap, forEach_objectCount, h,
      Cmd.keepsConfig]

theorem geometryPass_keepsConfig : geometryPass.all Cmd.keepsConfig = true := by
  simp [geometryPass, forEach_objectCount, Cmd.keepsConfig]

theorem ssaoPass_keepsConfig (inp : FrameInput) :
    (ssaoPass inp).all Cmd.keepsConfig = true := by
  simp [ssaoPass, Cmd.keepsConfig]

theorem blurPass_keepsConfig (inp : FrameInput) :
    (blurPass inp).all Cmd.keepsConfig = true := by
  cases h : inp.bilateralBlur <;> simp [blurPass, h, Cmd.keepsConfig]

theorem lightingBind_keepsConfig (inp : FrameInput) :
    (lightingBind inp).all Cmd.keepsConfig = true := by
  by_cases hF : inp.gBufferMode = 0 <;> by_cases hO : inp.gBufferMode = 5 <;>
    simp [lightingBind, lightingFinal, GBufferRender.Final, GBufferRender.Occlusion, hF, hO,
      Cmd.keepsConfig]

theorem overlays_keepsConfig (inp : FrameInput) :
    (overlays inp).all Cmd.keepsConfig = true := by
  simp only [overlays, List.all_append, Bool.and_eq_true]
  refine ⟨⟨⟨?_, ?_⟩, ?_⟩, ?_⟩ <;> split <;> simp [Cmd.keepsConfig]

theorem beforeLightingDraw_keepsConfig (inp : FrameInput) :
    (beforeLightingDraw inp).all Cmd.keepsConfig = true := by
  simp [beforeLightingDraw, List.all_append, shadowPass_keepsConfig, geometryPass_keepsConfig,
    ssaoPass_keepsConfig, blurPass_keepsConfig, lightingBind_keepsConfig]

theorem frame_keepsConfig (inp : FrameInput) : (frame inp).all Cmd.keepsConfig = true := by
  simp [frame, List.all_append, beforeLightingDraw_keepsConfig, overlays_keepsConfig,
    lightingDraw, Cmd.keepsConfig]

/-- A frame leaves the configuration of the set-up code in place. -/
theorem frame_configured (d : TexParams) (s : GLState) (inp : FrameInput) (hs : Configured s) :
    Configured (run d s (frame inp)) :=
  run_configured d s _ hs (frame_keepsConfig inp)

set_option maxRecDepth 8000 in
/-- The set-up code establishes the configuration, whatever the GL state it
starts from. -/
theorem configured_setup (d : TexParams) (s0 : GLState) :
    Configured (run d s0 setupCmds) := by
  simp [Configured, setupCmds, configureSBuffer, configureSatBuffer, configureGBuffer,
    configureAoBuffer, configureShaders, clampToBorderCmds, run, step,
    GLState.bindTex, GLState.setParams, GLState.boundTex2D, GLState.attachedTex]

theorem configured_setupState (d : TexParams) : Configured (setupState d) :=
  configured_setup d (GLState.initial d)

set_option maxRecDepth 8000 in
theorem events_firstPasses (d : TexParams) (s : GLState) (inp : FrameInput)
    (hs : Configured s) :
    events d s (shadowPass inp ++ geometryPass ++ ssaoPass inp ++ blurPass inp)
        = shadowEvents inp ++ gBufferEvents inp
    ∧ (run d s (shadowPass inp ++ geometryPass ++ ssaoPass inp ++ blurPass inp)).drawFramebuffer
        = none
    ∧ (run d s (shadowPass inp ++ geometryPass ++ ssaoPass inp ++ blurPass inp)).clearColor
        = frameClearColor := by
  obtain ⟨c0, c1, c2, c3, c4, c5, c6, c7, c8, c9⟩ := hs
  cases h1 : inp.enableShadows <;> cases h2 : inp.bilateralBlur <;>
    simp [events, shadowPass, varianceCapture, satBuilder, clearShadowMap, geometryPass, ssaoPass,
      blurPass, forEach_objectCount, trace, run, step, observe, boundImage, sampledTex,
      GLState.bindAll, Program.imageUniforms, GLState.bindTex, GLState.attachedTex,
      shadowEvents, gBufferEvents, stageH, stageV, frameClearColor,
      c0, c1, c2, c3, c4, c5, c6, c7, c8, c9, h1, h2]

set_option maxRecDepth 8000 in
theorem events_lighting (d : TexParams) (s : GLState) (inp : FrameInput)
    (hs : Configured s) (hfb : s.drawFramebuffer = none) :
    events d s (lightingBind inp ++ lightingDraw)
        = [Event.clear none s.clearColor true, lightingEvent inp]
    ∧ (run d s (lightingBind inp ++ lightingDraw)).drawFramebuffer = none := by
  obtain ⟨c0, c1, c2, c3, c4, c5, c6, c7, c8, c9⟩ := hs
  by_cases hF : inp.gBufferMode = 0 <;> by_cases hO : inp.gBufferMode = 5 <;>
    simp [events, lightingBind, lightingFinal, lightingDraw, lightingEvent,
      GBufferRender.Final, GBufferRender.Occlusion, trace, run, step, observe, sampledTex,
      GLState.bindAll, GLState.bindTex, GLState.attachedTex,
      c4, c5, c6, c7, c8, c9, hF, hO, hfb]

set_option maxRecDepth 8000 in
theorem events_overlays (d : TexParams) (s : GLState) (inp : FrameInput)
    (hfb : s.drawFramebuffer = none) :
    events d s (overlays inp) = overlayEvents inp := by
  by_cases hF : inp.gBufferMode = 0 <;>
    cases h1 : inp.drawPointLights <;> cases h2 : inp.showDepthMap <;>
    cases h3 : inp.debugHeaderOpen <;>
    simp [events, overlays, overlayEvents, GBufferRender.Final, trace, step, observe,
      GLState.bindTex, GLState.attachedTex, hF, h1, h2, h3, hfb]

/-- The events of a frame started in a configured state. -/
theorem events_frame (d : TexParams) (s : GLState) (inp : FrameInput) (hs : Configured s) :
    events d s (frame inp)
      = shadowEvents inp ++ gBufferEvents inp
        ++ [Event.clear none frameClearColor true, lightingEvent inp] ++ overlayEvents inp := by
  have hk : (shadowPass inp ++ geometryPass ++ ssaoPass inp ++ blurPass inp).all Cmd.keepsConfig
      = true := by
    simp [List.all_append, shadowPass_keepsConfig, geometryPass_keepsConfig,
      ssaoPass_keepsConfig, blurPass_keepsConfig]
  obtain ⟨e1, f1, k1⟩ := events_firstPasses d s inp hs
  have hs1 := run_configured d s _ hs hk
  obtain ⟨e2, f2⟩ := events_lighting d _ inp hs1 f1
  have e3 := events_overlays d _ inp f2
  have hsplit : frame inp
      = (shadowPass inp ++ geometryPass ++ ssaoPass inp ++ blurPass inp)
        ++ ((lightingBind inp ++ lightingDraw) ++ overlays inp) := by
    simp [frame, beforeLightingDraw]
  rw [hsplit, events_append d s _ ((lightingBind inp ++ lightingDraw) ++ overlays inp),
    events_append d _ (lightingBind inp ++ lightingDraw) (overlays inp), e1, e2, e3, k1]
  simp

/-! ## Facts about the event lists of the passes -/

theorem shadowEvents_enabled (inp : FrameInput) (hen : inp.enableShadows = true) :
    shadowEvents inp
      = [ Event.clear (some FB.sBuffer) frameClearColor true,
          Event.draw (some Program.shaderDepthWrite) (some FB.sBuffer) Mesh.plane none none,
          Event.draw (some Program.shaderDepthWrite) (some FB.sBuffer) (Mesh.model 0) none none,
          stageH, Event.barrier, stageV, Event.barrier ] := by
  simp [shadowEvents, hen]

theorem gBufferEvents_plain (inp : FrameInput) :
    ∀ e ∈ gBufferEvents inp,
      e.isSATDispatch = false ∧ e.isLightingDraw = false ∧ e.isCaptureDraw = false
        ∧ e.isVarianceClear = false := by
  cases h : inp.bilateralBlur <;>
    simp [gBufferEvents, h, Event.isSATDispatch, Event.isLightingDraw, Event.isCaptureDraw,
      Event.isVarianceClear]

theorem lightingEvent_plain (inp : FrameInput) :
    (lightingEvent inp).isSATDispatch = false ∧ (lightingEvent inp).isLightingDraw = true
      ∧ (lightingEvent inp).isCaptureDraw = false
      ∧ (lightingEvent inp).isVarianceClear = false := by
  unfold lightingEvent
  split
  · simp [Event.isSATDispatch, Event.isLightingDraw, Event.isCaptureDraw, Event.isVarianceClear]
  · split <;>
      simp [Event.isSATDispatch, Event.isLightingDraw, Event.isCaptureDraw,
        Event.isVarianceClear]

theorem overlayEvents_plain (inp : FrameInput) :
    ∀ e ∈ overlayEvents inp,
      e.isSATDispatch = false ∧ e.isCaptureDraw = false ∧ e.isVarianceClear = false := by
  intro e he
  simp only [overlayEvents, List.mem_append] at he
  rcases he with (he | he) | he
  · split at he <;> simp at he
    subst he
    simp [Event.isSATDispatch, Event.isCaptureDraw, Event.isVarianceClear]
  · split at he <;> simp at he
    rcases he with rfl | rfl <;>
      simp [Event.isSATDispatch, Event.isCaptureDraw, Event.isVarianceClear]
  · split at he <;> simp at he
    subst he
    simp [Event.isSATDispatch, Event.isCaptureDraw, Event.isVarianceClear]

theorem afterShadow_plain (inp : FrameInput) :
    ∀ e ∈ gBufferEvents inp ++ [Event.clear none frameClearColor true, lightingEvent inp]
        ++ overlayEvents inp,
      e.isSATDispatch = false ∧ e.isCaptureDraw = false ∧ e.isVarianceClear = false := by
  intro e he
  simp only [List.mem_append, List.mem_cons, List.mem_singleton, List.not_mem_nil,
    or_false] at he
  rcases he with (he | he | he) | he
  · exact ⟨(gBufferEvents_plain inp e he).1, (gBufferEvents_plain inp e he).2.2⟩
  · subst he
    simp [Event.isSATDispatch, Event.isCaptureDraw, Event.isVarianceClear]
  · subst he
    exact ⟨(lightingEvent_plain inp).1, (lightingEvent_plain inp).2.2⟩
  · exact overlayEvents_plain inp e he

theorem shadowEvents_noLighting (inp : FrameInput) :
    ∀ e ∈ shadowEvents inp, e.isLightingDraw = false := by
  cases hen : inp.enableShadows <;>
    simp [shadowEvents, hen, stageH, stageV, Event.isLightingDraw]

/-- Before the draw of the lighting pass no quad is drawn to the default frame
buffer. -/
theorem beforeLighting_noLighting (inp : FrameInput) :
    ∀ e ∈ shadowEvents inp ++ gBufferEvents inp ++ [Event.clear none frameClearColor true],
      e.isLightingDraw = false := by
  intro e he
  simp only [List.mem_append, List.mem_singleton] at he
  rcases he with (he | he) | he
  · exact shadowEvents_noLighting inp e he
  · exact (gBufferEvents_plain inp e he).2.1
  · subst he
    rfl

/-! ## The SAT build -/

theorem scanLine_eq_sum {α : Type} [AddCommMonoid α] (f : Nat → α) (n : Nat) :
    scanLine f n = ∑ i in Finset.range (n + 1), f i := by
  induction n with
  | zero => simp [scanLine]
  | succ k ih => rw [scanLine, ih, Finset.sum_range_succ _ (k + 1)]

theorem events_satBuilder (d : TexParams) (s : GLState) (hs : Configured s) :
    events d s satBuilder = [stageH, Event.barrier, stageV, Event.barrier] := by
  obtain ⟨c0, c1, c2, c3, c4, c5, c6, c7, c8, c9⟩ := hs
  simp [events, satBuilder, trace, step, observe, boundImage, Program.imageUniforms,
    GLState.attachedTex, stageH, stageV, c0, c1, c6, c7]

/-- The SAT build writes the kernel's image of the variance buffer to A and the
kernel's image of that to B, and nothing else. -/
theorem satBuild_eq {α : Type} (d : TexParams) (kernel : Image α → Image α) (s : GLState)
    (px : Pixels α) (hs : Configured s) :
    satBuild d kernel s px
      = Function.update (Function.update px satA (kernel (px varianceBuffer))) satB
          (kernel (kernel (px varianceBuffer))) := by
  simp [satBuild, events_satBuilder d s hs, dispatchEffect, stageH, stageV]

/-- Inside the image, the kernel stores at `(x, y)` the running sum of input
row `x` up to column `y`. -/
theorem computeSATKernel_apply {α : Type} [AddCommMonoid α] (S : Nat) (w : Image α)
    (x y : Nat) (hx : x < S) (hy : y < S) :
    computeSATKernel S w x y = ∑ i in Finset.range (y + 1), w i x := by
  simp [computeSATKernel, hx, hy, scanLine_eq_sum]

/-- Two applications of the kernel give the inclusive 2D sum. -/
theorem computeSATKernel_twice {α : Type} [AddCommMonoid α] (S : Nat) (v : Image α)
    (x y : Nat) (hx : x < S) (hy : y < S) :
    computeSATKernel S (computeSATKernel S v) x y = cumSum2D v x y := by
  rw [computeSATKernel_apply S _ x y hx hy, cumSum2D, Finset.sum_comm]
  refine Finset.sum_congr rfl (fun i hi => ?_)
  have hi2 : i < S := by
    have := Finset.mem_range.mp hi
    omega
  exact computeSATKernel_apply S v i x hi2 hx

/-- C1. After the two dispatches of the SAT Builder, issued in any state that
carries the configuration of the set-up code and on any texture contents, SAT
buffer B holds at every texel `(x, y)` with `x, y < SHADOW_MAP_SIZE`, in each of
the two channels (depth, depth squared), the sum of the variance buffer over
all texels `(i, j)` with `i ≤ x` and `j ≤ y`. The kernel is the one modelled
from the spec; sums are exact. -/
theorem sat_holds_inclusive_sum (d : TexParams) (s : GLState) (px : Pixels (ℚ × ℚ))
    (hs : Configured s) (x y : Nat) (hx : x < SHADOW_MAP_SIZE) (hy : y < SHADOW_MAP_SIZE) :
    (satBuild d (computeSATKernel SHADOW_MAP_SIZE) s px satB x y).1
        = ∑ i in Finset.range (x + 1), ∑ j in Finset.range (y + 1), (px varianceBuffer i j).1
    ∧ (satBuild d (computeSATKernel SHADOW_MAP_SIZE) s px satB x y).2
        = ∑ i in Finset.range (x + 1), ∑ j in Finset.range (y + 1), (px varianceBuffer i j).2 := by
  rw [satBuild_eq d _ s px hs]
  simp only [Function.update_same]
  rw [computeSATKernel_twice SHADOW_MAP_SIZE _ x y hx hy]
  simp [cumSum2D, Prod.fst_sum, Prod.snd_sum]

/-- Witness of C1: the SAT of the uniform buffer (1/2, 13/50) after the first
frame's set-up, at texel (1, 2). -/
theorem sat_holds_inclusive_sum_witness :
    Configured (setupState glDefaults) ∧ 1 < SHADOW_MAP_SIZE ∧ 2 < SHADOW_MAP_SIZE
    ∧ (satBuild glDefaults (computeSATKernel SHADOW_MAP_SIZE) (setupState glDefaults)
          (fun _ _ _ => ((1 : ℚ) / 2, (13 : ℚ) / 50)) satB 1 2).1
        = ∑ _i in Finset.range (1 + 1), ∑ _j in Finset.range (2 + 1), (1 : ℚ) / 2 :=
  ⟨configured_setupState glDefaults, by decide, by decide,
    (sat_holds_inclusive_sum glDefaults (setupState glDefaults)
      (fun _ _ _ => ((1 : ℚ) / 2, (13 : ℚ) / 50)) (configured_setupState glDefaults) 1 2
      (by decide) (by decide)).1⟩

/-- C7. Re-running the SAT build on its own result, in any configured state,
changes no texture contents; and the contents of SAT buffers A and B after a
build depend only on the variance buffer, not on the state the build is issued
in nor on the previous contents of A and B. The kernel is any function from
the input image to the output image. -/
theorem satBuild_idempotent {α : Type} (d : TexParams) (kernel : Image α → Image α)
    (s s2 : GLState) (px px2 : Pixels α) (hs : Configured s) (hs2 : Configured s2)
    (hv : px varianceBuffer = px2 varianceBuffer) :
    satBuild d kernel s2 (satBuild d kernel s px) = satBuild d kernel s px
    ∧ satBuild d kernel s px satA = satBuild d kernel s2 px2 satA
    ∧ satBuild d kernel s px satB = satBuild d kernel s2 px2 satB := by
  have hAV : satA ≠ varianceBuffer := by decide
  have hBV : satB ≠ varianceBuffer := by decide
  have hAB : satA ≠ satB := by decide
  refine ⟨?_, ?_, ?_⟩
  · rw [satBuild_eq d kernel s2 _ hs2, satBuild_eq d kernel s px hs]
    funext t
    by_cases hB : t = satB
    · subst hB
      simp [Function.update_noteq hBV.symm, Function.update_noteq hAV.symm]
    · by_cases hA : t = satA
      · subst hA
        simp [Function.update_noteq hBV.symm, Function.update_noteq hAV.symm,
          Function.update_noteq hAB]
      · simp [Function.update_noteq hB, Function.update_noteq hA]
  · rw [satBuild_eq d kernel s px hs, satBuild_eq d kernel s2 px2 hs2, hv]
    simp [Function.update_noteq hAB]
  · rw [satBuild_eq d kernel s px hs, satBuild_eq d kernel s2 px2 hs2, hv]
    simp

/-- Witness of C7: the build after set-up, re-run in the state the first frame
leaves, with the modelled kernel on integer texels. -/
theorem satBuild_idempotent_witness :
    satBuild glDefaults (computeSATKernel SHADOW_MAP_SIZE)
        (run glDefaults (setupState glDefaults) (frame initialInput))
        (satBuild glDefaults (computeSATKernel SHADOW_MAP_SIZE) (setupState glDefaults)
          (fun _ x y => (x + y : ℤ)))
      = satBuild glDefaults (computeSATKernel SHADOW_MAP_SIZE) (setupState glDefaults)
          (fun _ x y => (x + y : ℤ)) :=
  (satBuild_idempotent glDefaults (computeSATKernel SHADOW_MAP_SIZE) (setupState glDefaults)
    (run glDefaults (setupState glDefaults) (frame initialInput))
    (fun _ x y => (x + y : ℤ)) (fun _ x y => (x + y : ℤ))
    (configured_setupState glDefaults)
    (frame_configured glDefaults _ initialInput (configured_setupState glDefaults)) rfl).1

/-! ## C2, C3 -/

/-- C3. In every shadow-enabled frame started in a configured state the event
sequence has the form `pre ++ Stage H :: mid ++ Stage V :: post`, where `mid`
contains a memory barrier and neither `pre`, `mid` nor `post` contains a
dispatch of `computeSAT`: Stage H and Stage V are the only SAT dispatches and a
barrier is issued between them. -/
theorem barrier_between_stages (d : TexParams) (s : GLState) (inp : FrameInput)
    (hs : Configured s) (hen : inp.enableShadows = true) :
    ∃ pre mid post : List Event,
      events d s (frame inp) = pre ++ stageH :: mid ++ stageV :: post
      ∧ Event.barrier ∈ mid
      ∧ (∀ e ∈ pre, e.isSATDispatch = false)
      ∧ (∀ e ∈ mid, e.isSATDispatch = false)
      ∧ (∀ e ∈ post, e.isSATDispatch = false) := by
  refine ⟨[ Event.clear (some FB.sBuffer) frameClearColor true,
      Event.draw (some Program.shaderDepthWrite) (some FB.sBuffer) Mesh.plane none none,
      Event.draw (some Program.shaderDepthWrite) (some FB.sBuffer) (Mesh.model 0) none none ],
    [Event.barrier],
    Event.barrier :: (gBufferEvents inp ++ [Event.clear none frameClearColor true,
      lightingEvent inp] ++ overlayEvents inp), ?_, ?_, ?_, ?_, ?_⟩
  · rw [events_frame d s inp hs, shadowEvents_enabled inp hen]
    simp
  · simp
  · simp [Event.isSATDispatch]
  · simp [Event.isSATDispatch]
  · intro e he
    rcases List.mem_cons.mp he with rfl | he
    · rfl
    · exact (afterShadow_plain inp e he).1

/-- Witness of C3: the first frame after set-up. -/
theorem barrier_between_stages_witness :
    ∃ pre mid post : List Event,
      events glDefaults (setupState glDefaults) (frame initialInput)
        = pre ++ stageH :: mid ++ stageV :: post
      ∧ Event.barrier ∈ mid
      ∧ (∀ e ∈ pre, e.isSATDispatch = false)
      ∧ (∀ e ∈ mid, e.isSATDispatch = false)
      ∧ (∀ e ∈ post, e.isSATDispatch = false) :=
  barrier_between_stages glDefaults (setupState glDefaults) initialInput
    (configured_setupState glDefaults) rfl

/-- C2. In every shadow-enabled frame started in a configured state, the
dispatches of `computeSAT` are exactly two: the first with sBuffer texture 0
(the variance buffer) bound as input image and satBuffer texture 0 (A) as
output image, the second with A as input and satBuffer texture 1 (B) as
output; and no dispatch of `computeSAT` has one texture bound as both. -/
theorem sat_dispatch_bindings (d : TexParams) (s : GLState) (inp : FrameInput)
    (hs : Configured s) (hen : inp.enableShadows = true) :
    (events d s (frame inp)).filter Event.isSATDispatch
      = [ Event.dispatch (some Program.computeSAT) SHADOW_MAP_SIZE 1 1
            (some (Tex.attached FB.sBuffer 0)) (some (Tex.attached FB.satBuffer 0)),
          Event.dispatch (some Program.computeSAT) SHADOW_MAP_SIZE 1 1
            (some (Tex.attached FB.satBuffer 0)) (some (Tex.attached FB.satBuffer 1)) ]
    ∧ ∀ gx gy gz i o,
        Event.dispatch (some Program.computeSAT) gx gy gz i o ∈ events d s (frame inp)
          → i ≠ o := by
  have hrest : (gBufferEvents inp ++ [Event.clear none frameClearColor true,
      lightingEvent inp] ++ overlayEvents inp).filter Event.isSATDispatch = [] := by
    rw [List.filter_eq_nil_iff]
    intro e he
    simp [(afterShadow_plain inp e he).1]
  have hev : events d s (frame inp)
      = shadowEvents inp ++ (gBufferEvents inp ++ [Event.clear none frameClearColor true,
          lightingEvent inp] ++ overlayEvents inp) := by
    rw [events_frame d s inp hs]
    simp
  constructor
  · rw [hev, List.filter_append, hrest, shadowEvents_enabled inp hen]
    simp [Event.isSATDispatch, stageH, stageV, List.filter]
  · intro gx gy gz i o hmem
    rw [hev, List.mem_append] at hmem
    rcases hmem with hmem | hmem
    · rw [shadowEvents_enabled inp hen] at hmem
      simp [stageH, stageV] at hmem
      rcases hmem with ⟨-, -, -, rfl, rfl⟩ | ⟨-, -, -, rfl, rfl⟩ <;> decide
    · have := (afterShadow_plain inp _ hmem).1
      simp [Event.isSATDispatch] at this

/-- Witness of C2: the first frame after set-up. -/
theorem sat_dispatch_bindings_witness :
    (events glDefaults (setupState glDefaults) (frame initialInput)).filter Event.isSATDispatch
      = [ Event.dispatch (some Program.computeSAT) SHADOW_MAP_SIZE 1 1
            (some (Tex.attached FB.sBuffer 0)) (some (Tex.attached FB.satBuffer 0)),
          Event.dispatch (some Program.computeSAT) SHADOW_MAP_SIZE 1 1
            (some (Tex.attached FB.satBuffer 0)) (some (Tex.attached FB.satBuffer 1)) ] :=
  (sat_dispatch_bindings glDefaults (setupState glDefaults) initialInput
    (configured_setupState glDefaults) rfl).1

/-! ## C4 -/

/-- The events of a shadow-enabled frame, with the shadow pass spelled out. -/
theorem events_enabled (d : TexParams) (s : GLState) (inp : FrameInput)
    (hs : Configured s) (hen : inp.enableShadows = true) :
    events d s (frame inp)
      = [ Event.clear (some FB.sBuffer) frameClearColor true,
          Event.draw (some Program.shaderDepthWrite) (some FB.sBuffer) Mesh.plane none none,
          Event.draw (some Program.shaderDepthWrite) (some FB.sBuffer) (Mesh.model 0) none none,
          stageH, Event.barrier ]
        ++ (stageV :: Event.barrier :: (gBufferEvents inp
              ++ [Event.clear none frameClearColor true, lightingEvent inp]
              ++ overlayEvents inp)) := by
  rw [events_frame d s inp hs, shadowEvents_enabled inp hen]
  simp

/-- Nothing is issued between the last capture draw and the Stage H dispatch
of a shadow-enabled frame. -/
theorem captureToStageH_frame (d : TexParams) (s : GLState) (inp : FrameInput)
    (hs : Configured s) (hen : inp.enableShadows = true) :
    captureToStageH (events d s (frame inp)) = [] := by
  rw [events_enabled d s inp hs hen]
  simp [captureToStageH, List.takeWhile, Event.isSATDispatch, Event.isCaptureDraw, stageH]

/-- C4, as amended. In every shadow-enabled frame started in a configured
state the events begin with the clear of the variance buffer, the two
Variance Capture draws, the Stage H dispatch and a memory barrier, in this
order; no later event is a Variance Capture draw; and nothing at all, so no
memory barrier either, is issued between the last capture draw and the
Stage H dispatch. -/
theorem capture_then_stageH (d : TexParams) (s : GLState) (inp : FrameInput)
    (hs : Configured s) (hen : inp.enableShadows = true) :
    (∃ post : List Event,
      events d s (frame inp)
        = [ Event.clear (some FB.sBuffer) ⟨0, 0, 0, 1⟩ true,
            Event.draw (some Program.shaderDepthWrite) (some FB.sBuffer) Mesh.plane none none,
            Event.draw (some Program.shaderDepthWrite) (some FB.sBuffer) (Mesh.model 0)
              none none,
            stageH, Event.barrier ] ++ post
      ∧ ∀ e ∈ post, e.isCaptureDraw = false)
    ∧ captureToStageH (events d s (frame inp)) = [] := by
  refine ⟨⟨_, events_enabled d s inp hs hen, ?_⟩, captureToStageH_frame d s inp hs hen⟩
  intro e he
  rcases List.mem_cons.mp he with rfl | he
  · rfl
  · rcases List.mem_cons.mp he with rfl | he
    · rfl
    · exact (afterShadow_plain inp e he).2.1

/-- Witness of the amended C4: the first frame after set-up. -/
theorem capture_then_stageH_witness :
    captureToStageH (events glDefaults (setupState glDefaults) (frame initialInput)) = [] :=
  (capture_then_stageH glDefaults (setupState glDefaults) initialInput
    (configured_setupState glDefaults) rfl).2

/-- Counterexample to C4 as stated: in the first frame after set-up, which is
shadow-enabled, no memory barrier is among the events issued after the last
Variance Capture draw and before the Stage H dispatch. -/
theorem no_barrier_before_stageH :
    initialInput.enableShadows = true
    ∧ ¬ ∃ e ∈ captureToStageH
          (events glDefaults (setupState glDefaults) (frame initialInput)),
        e.isBarrier = true := by
  refine ⟨rfl, ?_⟩
  rw [captureToStageH_frame glDefaults (setupState glDefaults) initialInput
    (configured_setupState glDefaults) rfl]
  simp

/-! ## C5, C6 -/

set_option maxRecDepth 8000 in
/-- Texture units 4 and 9 after the bindings of the Final view. -/
theorem lightingFinal_units (d : TexParams) (s : GLState) (inp : FrameInput)
    (hs : Configured s) (hF : inp.gBufferMode = GBufferRender.Final) :
    (run d s (lightingBind inp)).textureUnit 4 Target.TEXTURE_2D = some satB
    ∧ (run d s (lightingBind inp)).textureUnit 9 Target.TEXTURE_2D = some varianceBuffer
    ∧ (run d s (lightingBind inp)).program = some Program.pbrShader := by
  obtain ⟨c0, c1, c2, c3, c4, c5, c6, c7, c8, c9⟩ := hs
  simp [lightingBind, lightingFinal, hF, run, step, GLState.bindAll, GLState.bindTex,
    GLState.attachedTex, c6, c7, c8, c9]

/-- The first part of a frame keeps the configuration. -/
theorem firstPasses_configured (d : TexParams) (s : GLState) (inp : FrameInput)
    (hs : Configured s) :
    Configured (run d s (shadowPass inp ++ geometryPass ++ ssaoPass inp ++ blurPass inp)) := by
  apply run_configured d s _ hs
  simp [List.all_append, shadowPass_keepsConfig, geometryPass_keepsConfig,
    ssaoPass_keepsConfig, blurPass_keepsConfig]

/-- C5. In every frame rendered in Final mode and started in a configured
state, the draw of the lighting pass is issued with the PBR shader current,
its sampler `shadowSAT` reading satBuffer texture 1 (B) and its sampler
`shadowMap` reading sBuffer texture 0 (the variance buffer): when the quad is
drawn, texture unit 4, the value of `shadowSAT`, holds B and texture unit 9,
the value of `shadowMap`, holds the variance buffer. No earlier event is a
quad drawn to the default frame buffer, and in a shadow-enabled frame the
Stage V dispatch, whose output image is B, is among the earlier events. -/
theorem lighting_samples_satB (d : TexParams) (s : GLState) (inp : FrameInput)
    (hs : Configured s) (hF : inp.gBufferMode = GBufferRender.Final) :
    (∃ pre post : List Event,
      events d s (frame inp)
        = pre ++ Event.draw (some Program.pbrShader) none Mesh.quad
            (some (Tex.attached FB.satBuffer 1)) (some (Tex.attached FB.sBuffer 0)) :: post
      ∧ (∀ e ∈ pre, e.isLightingDraw = false)
      ∧ (inp.enableShadows = true →
          Event.dispatch (some Program.computeSAT) SHADOW_MAP_SIZE 1 1
            (some (Tex.attached FB.satBuffer 0)) (some (Tex.attached FB.satBuffer 1)) ∈ pre))
    ∧ (run d s (beforeLightingDraw inp)).uniformInt Program.pbrShader Uniform.shadowSAT = some 4
    ∧ (run d s (beforeLightingDraw inp)).uniformInt Program.pbrShader Uniform.shadowMap = some 9
    ∧ (run d s (beforeLightingDraw inp)).textureUnit 4 Target.TEXTURE_2D
        = some (Tex.attached FB.satBuffer 1)
    ∧ (run d s (beforeLightingDraw inp)).textureUnit 9 Target.TEXTURE_2D
        = some (Tex.attached FB.sBuffer 0) := by
  have hl : lightingEvent inp = Event.draw (some Program.pbrShader) none Mesh.quad
      (some (Tex.attached FB.satBuffer 1)) (some (Tex.attached FB.sBuffer 0)) := by
    simp [lightingEvent, hF]
  have hb : beforeLightingDraw inp
      = (shadowPass inp ++ geometryPass ++ ssaoPass inp ++ blurPass inp) ++ lightingBind inp := by
    simp [beforeLightingDraw]
  have hs1 := firstPasses_configured d s inp hs
  have hcfg : Configured (run d s (beforeLightingDraw inp)) :=
    run_configured d s _ hs (beforeLightingDraw_keepsConfig inp)
  have hu := lightingFinal_units d _ inp hs1 hF
  refine ⟨⟨shadowEvents inp ++ gBufferEvents inp ++ [Event.clear none frameClearColor true],
    overlayEvents inp, ?_, ?_, ?_⟩, hcfg.2.2.2.2.1, hcfg.2.2.2.2.2.1, ?_, ?_⟩
  · rw [events_frame d s inp hs, hl]
    simp
  · exact beforeLighting_noLighting inp
  · intro hen
    rw [shadowEvents_enabled inp hen]
    simp [stageV]
  · rw [hb, run_append]
    exact hu.1
  · rw [hb, run_append]
    exact hu.2.1

/-- Witness of C5: the first frame after set-up, which is in Final mode. -/
theorem lighting_samples_satB_witness :
    (run glDefaults (setupState glDefaults) (beforeLightingDraw initialInput)).textureUnit 4
        Target.TEXTURE_2D = some (Tex.attached FB.satBuffer 1) :=
  (lighting_samples_satB glDefaults (setupState glDefaults) initialInput
    (configured_setupState glDefaults) rfl).2.2.2.1

/-- C6. In every shadow-enabled frame started in a configured state the event
sequence has the form `a ++ Stage H :: b ++ Stage V :: barrier :: c ++ e ::
post`, where `e` is the draw of the lighting pass (a quad drawn to the
default frame buffer, the first one of the frame; in Final mode it is drawn
with the PBR shader) and neither `e` nor any event of `post` is a dispatch of
`computeSAT`. -/
theorem sat_before_lighting (d : TexParams) (s : GLState) (inp : FrameInput)
    (hs : Configured s) (hen : inp.enableShadows = true) :
    ∃ (a b c post : List Event) (e : Event),
      events d s (frame inp)
        = a ++ stageH :: b ++ stageV :: Event.barrier :: c ++ e :: post
      ∧ e.isLightingDraw = true
      ∧ (∀ x ∈ a ++ stageH :: b ++ stageV :: Event.barrier :: c, x.isLightingDraw = false)
      ∧ (∀ x ∈ e :: post, x.isSATDispatch = false)
      ∧ (inp.gBufferMode = GBufferRender.Final →
          e = Event.draw (some Program.pbrShader) none Mesh.quad (some satB)
                (some varianceBuffer)) := by
  refine ⟨[ Event.clear (some FB.sBuffer) frameClearColor true,
      Event.draw (some Program.shaderDepthWrite) (some FB.sBuffer) Mesh.plane none none,
      Event.draw (some Program.shaderDepthWrite) (some FB.sBuffer) (Mesh.model 0) none none ],
    [Event.barrier], gBufferEvents inp ++ [Event.clear none frameClearColor true],
    overlayEvents inp, lightingEvent inp, ?_, (lightingEvent_plain inp).2.1, ?_, ?_, ?_⟩
  · rw [events_frame d s inp hs, shadowEvents_enabled inp hen]
    simp
  · intro x hx
    apply beforeLighting_noLighting inp x
    rw [shadowEvents_enabled inp hen]
    simpa using hx
  · intro x hx
    rcases List.mem_cons.mp hx with rfl | hx
    · exact (lightingEvent_plain inp).1
    · exact (overlayEvents_plain inp x hx).1
  · intro hF
    simp [lightingEvent, hF]

/-- Witness of C6: the first frame after set-up. -/
theorem sat_before_lighting_witness :
    ∃ (a b c post : List Event) (e : Event),
      events glDefaults (setupState glDefaults) (frame initialInput)
        = a ++ stageH :: b ++ stageV :: Event.barrier :: c ++ e :: post
      ∧ e.isLightingDraw = true
      ∧ (∀ x ∈ a ++ stageH :: b ++ stageV :: Event.barrier :: c, x.isLightingDraw = false)
      ∧ (∀ x ∈ e :: post, x.isSATDispatch = false)
      ∧ (initialInput.gBufferMode = GBufferRender.Final →
          e = Event.draw (some Program.pbrShader) none Mesh.quad (some satB)
                (some varianceBuffer)) :=
  sat_before_lighting glDefaults (setupState glDefaults) initialInput
    (configured_setupState glDefaults) rfl

/-! ## C8: the box query -/

theorem lineSum_step {α : Type} [AddCommGroup α] (f : Int → α) (hf : ∀ i, i < 0 → f i = 0)
    (a : Int) : lineSum f a = lineSum f (a - 1) + f a := by
  rcases lt_trichotomy a 0 with h | h | h
  · have h1 : ¬ (0 ≤ a) := by omega
    have h2 : ¬ (0 ≤ a - 1) := by omega
    simp [lineSum, h1, h2, hf a h]
  · subst h
    simp [lineSum]
  · have h1 : 0 ≤ a := by omega
    have h2 : 0 ≤ a - 1 := by omega
    have h3 : a.toNat = (a - 1).toNat + 1 := by omega
    have h4 : (((a - 1).toNat + 1 : Nat) : Int) = a := by omega
    simp only [lineSum, h1, h2, if_true]
    rw [h3, Finset.sum_range_succ _ ((a - 1).toNat + 1), h4]

/-- One-dimensional inclusion-exclusion: a window sum is a difference of two
running sums. -/
theorem window_sum {α : Type} [AddCommGroup α] (f : Int → α) (hf : ∀ i, i < 0 → f i = 0)
    (lo : Int) (n : Nat) :
    ∑ d in Finset.range n, f (lo + d) = lineSum f (lo + n - 1) - lineSum f (lo - 1) := by
  induction n with
  | zero => simp
  | succ k ih =>
    have e : lo + ((k + 1 : Nat) : Int) - 1 = lo + k := by push_cast; ring
    rw [Finset.sum_range_succ, ih, e, lineSum_step f hf (lo + k)]
    abel

/-- The zero-padded buffer vanishes left of and above the image. -/
theorem zeroPadded_neg_left {α : Type} [Zero α] (S : Nat) (v : Image α) (i j : Int)
    (h : i < 0) : zeroPadded S v i j = 0 := by
  have : ¬ (0 ≤ i) := by omega
  simp [zeroPadded, this]

theorem zeroPadded_neg_top {α : Type} [Zero α] (S : Nat) (v : Image α) (i j : Int)
    (h : j < 0) : zeroPadded S v i j = 0 := by
  have : ¬ (0 ≤ j) := by omega
  simp [zeroPadded, this]

theorem cornerSum_neg_left {α : Type} [AddCommMonoid α] (S : Nat) (v : Image α) (i b : Int)
    (h : i < 0) : lineSum (fun j => zeroPadded S v i j) b = 0 := by
  unfold lineSum
  split
  · exact Finset.sum_eq_zero (fun j _ => zeroPadded_neg_left S v i j h)
  · rfl

/-- Two-dimensional inclusion-exclusion for the zero-padded buffer. -/
theorem boxSum_eq_corners {α : Type} [AddCommGroup α] (S : Nat) (v : Image α) (x y r : Nat) :
    boxSum S v x y r
      = cornerSum S v ((x : Int) + r) ((y : Int) + r)
        - cornerSum S v ((x : Int) - r - 1) ((y : Int) + r)
        - cornerSum S v ((x : Int) + r) ((y : Int) - r - 1)
        + cornerSum S v ((x : Int) - r - 1) ((y : Int) - r - 1) := by
  have ey : (y : Int) - r + ((2 * r + 1 : Nat) : Int) - 1 = y + r := by push_cast; ring
  have ex : (x : Int) - r + ((2 * r + 1 : Nat) : Int) - 1 = x + r := by push_cast; ring
  have inner : ∀ i : Int,
      ∑ dj in Finset.range (2 * r + 1), zeroPadded S v i ((y : Int) - r + dj)
        = lineSum (fun j => zeroPadded S v i j) ((y : Int) + r)
          - lineSum (fun j => zeroPadded S v i j) ((y : Int) - r - 1) := by
    intro i
    rw [window_sum (fun j => zeroPadded S v i j)
      (fun j hj => zeroPadded_neg_top S v i j hj) ((y : Int) - r) (2 * r + 1), ey]
  unfold boxSum
  simp only [inner, Finset.sum_sub_distrib]
  rw [window_sum (fun i => lineSum (fun j => zeroPadded S v i j) ((y : Int) + r))
      (fun i hi => cornerSum_neg_left S v i _ hi) ((x : Int) - r) (2 * r + 1),
    window_sum (fun i => lineSum (fun j => zeroPadded S v i j) ((y : Int) - r - 1))
      (fun i hi => cornerSum_neg_left S v i _ hi) ((x : Int) - r) (2 * r + 1), ex]
  simp only [cornerSum]
  abel

/-- A running sum of a line that vanishes from index `S` on stops growing at
`S - 1`. -/
theorem lineSum_clamp {α : Type} [AddCommMonoid α] (S : Nat) (hS : 0 < S) (f : Int → α)
    (hf : ∀ i : Int, (S : Int) ≤ i → f i = 0) (a : Int) (ha : 0 ≤ a) :
    lineSum f a = lineSum f (min a ((S : Int) - 1)) := by
  rcases le_or_lt a ((S : Int) - 1) with h | h
  · rw [min_eq_left h]
  · rw [min_eq_right h.le]
    have h1 : (0 : Int) ≤ (S : Int) - 1 := by omega
    simp only [lineSum, ha, h1, if_true]
    have e : ((S : Int) - 1).toNat + 1 = S := by omega
    rw [e]
    symm
    refine Finset.sum_subset ?_ ?_
    · intro i hi
      have := Finset.mem_range.1 hi
      exact Finset.mem_range.2 (by omega)
    · intro i _ hi
      have : ¬ i < S := fun h => hi (Finset.mem_range.2 h)
      exact hf i (by omega)

theorem zeroPadded_right {α : Type} [Zero α] (S : Nat) (v : Image α) (i j : Int)
    (h : (S : Int) ≤ i) : zeroPadded S v i j = 0 := by
  have : ¬ (i < S) := by omega
  simp [zeroPadded, this]

theorem zeroPadded_bottom {α : Type} [Zero α] (S : Nat) (v : Image α) (i j : Int)
    (h : (S : Int) ≤ j) : zeroPadded S v i j = 0 := by
  have : ¬ (j < S) := by omega
  simp [zeroPadded, this]

/-- The running 2D sum of the zero-padded buffer stops growing at the right
and the bottom edge. -/
theorem cornerSum_clamp {α : Type} [AddCommMonoid α] (S : Nat) (hS : 0 < S) (v : Image α)
    (a b : Int) (ha : 0 ≤ a) (hb : 0 ≤ b) :
    cornerSum S v a b = cornerSum S v (min a ((S : Int) - 1)) (min b ((S : Int) - 1)) := by
  unfold cornerSum
  rw [lineSum_clamp S hS _ (fun i hi => ?_) a ha]
  · congr 1
    funext i
    exact lineSum_clamp S hS _ (fun j hj => zeroPadded_bottom S v i j hj) b hb
  · simp only [lineSum, hb, if_true]
    exact Finset.sum_eq_zero (fun j _ => zeroPadded_right S v i j hi)

theorem cornerSum_neg {α : Type} [AddCommMonoid α] (S : Nat) (v : Image α) (a b : Int)
    (h : a < 0 ∨ b < 0) : cornerSum S v a b = 0 := by
  unfold cornerSum
  rcases h with h | h
  · have : ¬ (0 ≤ a) := by omega
    simp [lineSum, this]
  · have : ¬ (0 ≤ b) := by omega
    simp [lineSum, this]

/-- A corner read of an image that holds the inclusive 2D sums of `v` inside
`S × S` returns the running sum of the zero-padded buffer, at every integer
corner. -/
theorem satLookup_eq_cornerSum {α : Type} [AddCommMonoid α] (S : Nat) (hS : 0 < S)
    (v sat : Image α) (hsat : ∀ x y, x < S → y < S → sat x y = cumSum2D v x y) (a b : Int) :
    satLookup S sat a b = cornerSum S v a b := by
  by_cases h : a < 0 ∨ b < 0
  · rw [cornerSum_neg S v a b h]
    simp [satLookup, h]
  · have ha : 0 ≤ a := by omega
    have hb : 0 ≤ b := by omega
    rw [cornerSum_clamp S hS v a b ha hb]
    have hx : (min a ((S : Int) - 1)).toNat < S := by omega
    have hy : (min b ((S : Int) - 1)).toNat < S := by omega
    have hma : 0 ≤ min a ((S : Int) - 1) := by omega
    have hmb : 0 ≤ min b ((S : Int) - 1) := by omega
    simp only [satLookup, h, if_false]
    rw [hsat _ _ hx hy, cumSum2D]
    unfold cornerSum lineSum
    simp only [hma, hmb, if_true]
    refine Finset.sum_congr rfl (fun i hi => ?_)
    refine Finset.sum_congr rfl (fun j hj => ?_)
    have hi2 := Finset.mem_range.mp hi
    have hj2 := Finset.mem_range.mp hj
    have c2 : (i : Int) < S := by omega
    have c4 : (j : Int) < S := by omega
    simp [zeroPadded, c2, c4]

/-- Inside the image the zero-padded brute-force sum is the brute-force sum. -/
theorem boxSum_inside {α : Type} [AddCommMonoid α] (S : Nat) (v : Image α) (x y r : Nat)
    (hx0 : r ≤ x) (hy0 : r ≤ y) (hx : x + r < S) (hy : y + r < S) :
    boxSum S v x y r = boxSumInside v x y r := by
  unfold boxSum boxSumInside
  refine Finset.sum_congr rfl (fun di hdi => ?_)
  refine Finset.sum_congr rfl (fun dj hdj => ?_)
  have h1 := Finset.mem_range.mp hdi
  have h2 := Finset.mem_range.mp hdj
  have c1 : (0 : Int) ≤ (x : Int) - r + di := by omega
  have c2 : (x : Int) - r + di < S := by omega
  have c3 : (0 : Int) ≤ (y : Int) - r + dj := by omega
  have c4 : (y : Int) - r + dj < S := by omega
  have e1 : ((x : Int) - r + di).toNat = x - r + di := by omega
  have e2 : ((y : Int) - r + dj).toNat = y - r + dj := by omega
  simp [zeroPadded, c1, c2, c3, c4, e1, e2]

/-- The SAT the build leaves in buffer B holds the inclusive 2D sums of the
variance buffer. -/
theorem satBuild_cumSum {α : Type} [AddCommMonoid α] (d : TexParams) (s : GLState)
    (px : Pixels α) (hs : Configured s) (x y : Nat) (hx : x < SHADOW_MAP_SIZE)
    (hy : y < SHADOW_MAP_SIZE) :
    satBuild d (computeSATKernel SHADOW_MAP_SIZE) s px satB x y
      = cumSum2D (px varianceBuffer) x y := by
  rw [satBuild_eq d _ s px hs]
  simp only [Function.update_same]
  exact computeSATKernel_twice SHADOW_MAP_SIZE _ x y hx hy

/-- C8. For the SAT that the build leaves in buffer B and every box query
`(x, y, r)`, the four-corner inclusion-exclusion sum
`SAT[x+r,y+r] - SAT[x-r-1,y+r] - SAT[x+r,y-r-1] + SAT[x-r-1,y-r-1]` equals the
brute-force sum of the zero-padded variance buffer over the box, whichever
edges the box extends past; for a box inside the bounds this is the
brute-force sum of the variance buffer over the box. Kernel and box query are
the ones modelled from the spec; sums are exact. -/
theorem boxQuery_eq_boxSum {α : Type} [AddCommGroup α] (d : TexParams) (s : GLState)
    (px : Pixels α) (hs : Configured s) (x y r : Nat) :
    boxQuery SHADOW_MAP_SIZE (satBuild d (computeSATKernel SHADOW_MAP_SIZE) s px satB) x y r
        = boxSum SHADOW_MAP_SIZE (px varianceBuffer) x y r
    ∧ (r ≤ x → r ≤ y → x + r < SHADOW_MAP_SIZE → y + r < SHADOW_MAP_SIZE →
        boxQuery SHADOW_MAP_SIZE (satBuild d (computeSATKernel SHADOW_MAP_SIZE) s px satB) x y r
          = boxSumInside (px varianceBuffer) x y r) := by
  have hsat := satBuild_cumSum d s px hs
  have hS : 0 < SHADOW_MAP_SIZE := by decide
  have hq : boxQuery SHADOW_MAP_SIZE
      (satBuild d (computeSATKernel SHADOW_MAP_SIZE) s px satB) x y r
        = boxSum SHADOW_MAP_SIZE (px varianceBuffer) x y r := by
    rw [boxSum_eq_corners, boxQuery,
      satLookup_eq_cornerSum _ hS (px varianceBuffer) _ hsat,
      satLookup_eq_cornerSum _ hS (px varianceBuffer) _ hsat,
      satLookup_eq_cornerSum _ hS (px varianceBuffer) _ hsat,
      satLookup_eq_cornerSum _ hS (px varianceBuffer) _ hsat]
  refine ⟨hq, fun hx0 hy0 hx hy => ?_⟩
  rw [hq, boxSum_inside _ _ x y r hx0 hy0 hx hy]

/-- Witness of C8: the query (1023, 0, 1), whose box extends past the right
and the top edge, on the all-ones variance buffer after set-up; the
zero-padded brute-force sum over the box is 4. -/
theorem boxQuery_eq_boxSum_witness :
    boxQuery SHADOW_MAP_SIZE
        (satBuild glDefaults (computeSATKernel SHADOW_MAP_SIZE) (setupState glDefaults)
          (fun _ _ _ => (1 : Int)) satB) 1023 0 1
      = boxSum SHADOW_MAP_SIZE (fun _ _ => (1 : Int)) 1023 0 1
    ∧ boxSum SHADOW_MAP_SIZE (fun _ _ => (1 : Int)) 1023 0 1 = 4 :=
  ⟨(boxQuery_eq_boxSum glDefaults (setupState glDefaults) (fun _ _ _ => (1 : Int))
    (configured_setupState glDefaults) 1023 0 1).1, by decide⟩

/-! ## C9: sampling parameters of the SAT textures -/

theorem bindAll_texParams (s : GLState) (fb : FB) (n : Nat) :
    (GLState.bindAll s fb n).texParams = s.texParams :=
  (bindAll_fields s fb n).2.2

theorem step_texParams (d : TexParams) (s : GLState) (c : Cmd)
    (hc : c.keepsTexParams = true) : (step d s c).texParams = s.texParams := by
  cases c <;>
    simp_all [step, GLState.bindTex, GLState.setParams, bindAll_texParams, Cmd.keepsTexParams]

theorem run_texParams (d : TexParams) (s : GLState) (cs : List Cmd)
    (hc : cs.all Cmd.keepsTexParams = true) : (run d s cs).texParams = s.texParams := by
  induction cs generalizing s with
  | nil => rfl
  | cons c cs ih =>
    simp only [List.all_cons, Bool.and_eq_true] at hc
    rw [run, ih _ hc.2, step_texParams d s c hc.1]

theorem beforeLightingDraw_keepsTexParams (inp : FrameInput) :
    (beforeLightingDraw inp).all Cmd.keepsTexParams = true := by
  have h1 : (shadowPass inp).all Cmd.keepsTexParams = true := by
    cases h : inp.enableShadows <;>
      simp [shadowPass, varianceCapture, satBuilder, clearShadowMap, forEach_objectCount, h,
        Cmd.keepsTexParams]
  have h2 : geometryPass.all Cmd.keepsTexParams = true := by
    simp [geometryPass, forEach_objectCount, Cmd.keepsTexParams]
  have h3 : (ssaoPass inp).all Cmd.keepsTexParams = true := by
    simp [ssaoPass, Cmd.keepsTexParams]
  have h4 : (blurPass inp).all Cmd.keepsTexParams = true := by
    cases h : inp.bilateralBlur <;> simp [blurPass, h, Cmd.keepsTexParams]
  have h5 : (lightingBind inp).all Cmd.keepsTexParams = true := by
    by_cases hF : inp.gBufferMode = 0 <;> by_cases hO : inp.gBufferMode = 5 <;>
      simp [lightingBind, lightingFinal, GBufferRender.Final, GBufferRender.Occlusion, hF, hO,
        Cmd.keepsTexParams]
  simp [beforeLightingDraw, List.all_append, h1, h2, h3, h4, h5]

theorem frame_keepsTexParams (inp : FrameInput) :
    (frame inp).all Cmd.keepsTexParams = true := by
  have h6 : (overlays inp).all Cmd.keepsTexParams = true := by
    simp only [overlays, List.all_append, Bool.and_eq_true]
    refine ⟨⟨⟨?_, ?_⟩, ?_⟩, ?_⟩ <;> split <;> simp [Cmd.keepsTexParams]
  simp [frame, List.all_append, beforeLightingDraw_keepsTexParams, h6, lightingDraw,
    Cmd.keepsTexParams]

/-- A frame changes the sampling parameters of no texture. -/
theorem frame_texParams (d : TexParams) (s : GLState) (inp : FrameInput) :
    (run d s (frame inp)).texParams = s.texParams :=
  run_texParams d s _ (frame_keepsTexParams inp)

set_option maxRecDepth 8000 in
/-- C9: what the set-up code leaves as sampling parameters of the two SAT
textures, whatever the GL state it starts from. satBuffer texture 1 (B), the
texture the lighting pass samples, has the parameters
`FrameBuffer::attachTexture` gave it, whatever they are: no parameter call of
`main()` reaches it. With the OpenGL defaults its wrap modes are GL_REPEAT.
satBuffer texture 0 (A) is the one with wrap modes clamp-to-border and border
colour (0, 0, 0, 0). No frame changes the sampling parameters of any
texture. -/
theorem satB_sampling_untouched :
    (∀ (d : TexParams) (s0 : GLState), (run d s0 setupCmds).texParams satB = d)
    ∧ ((setupState glDefaults).texParams satB).wrapS = Wrap.REPEAT
    ∧ ((setupState glDefaults).texParams satB).wrapT = Wrap.REPEAT
    ∧ (∀ (d : TexParams) (s0 : GLState), (run d s0 setupCmds).texParams satA
        = ⟨Wrap.CLAMP_TO_BORDER, Wrap.CLAMP_TO_BORDER, ⟨0, 0, 0, 0⟩, true⟩)
    ∧ (∀ (d : TexParams) (s : GLState) (inp : FrameInput),
        (run d s (frame inp)).texParams = s.texParams) := by
  have hB : ∀ (d : TexParams) (s0 : GLState), (run d s0 setupCmds).texParams satB = d := by
    intro d s0
    simp [setupCmds, configureSBuffer, configureSatBuffer, configureGBuffer,
      configureAoBuffer, configureShaders, clampToBorderCmds, run, step,
      GLState.bindTex, GLState.setParams, GLState.boundTex2D, GLState.attachedTex,
      Function.update_apply]
  refine ⟨hB, ?_, ?_, ?_, frame_texParams⟩
  · rw [setupState, hB]; rfl
  · rw [setupState, hB]; rfl
  · intro d s0
    simp [setupCmds, configureSBuffer, configureSatBuffer, configureGBuffer,
      configureAoBuffer, configureShaders, clampToBorderCmds, run, step,
      GLState.bindTex, GLState.setParams, GLState.boundTex2D, GLState.attachedTex,
      Function.update_apply, borderColor]

/-! ## C10: the clear of the variance buffer -/

/-- The clears of the variance buffer in a frame: exactly one, with clear
colour (0, 0, 0, 1) when shadows are enabled and (1, 1, 1, 1) when they are
disabled. -/
theorem varianceClear_events (d : TexParams) (s : GLState) (inp : FrameInput)
    (hs : Configured s) :
    (events d s (frame inp)).filter Event.isVarianceClear
      = [ Event.clear (some FB.sBuffer)
            (if inp.enableShadows then ⟨0, 0, 0, 1⟩ else ⟨1, 1, 1, 1⟩) true ] := by
  have hrest : (gBufferEvents inp ++ [Event.clear none frameClearColor true,
      lightingEvent inp] ++ overlayEvents inp).filter Event.isVarianceClear = [] := by
    rw [List.filter_eq_nil_iff]
    intro e he
    simp [(afterShadow_plain inp e he).2.2]
  have hev : events d s (frame inp)
      = shadowEvents inp ++ (gBufferEvents inp ++ [Event.clear none frameClearColor true,
          lightingEvent inp] ++ overlayEvents inp) := by
    rw [events_frame d s inp hs]
    simp
  rw [hev, List.filter_append, hrest]
  cases hen : inp.enableShadows <;>
    simp [shadowEvents, hen, Event.isVarianceClear, stageH, stageV, frameClearColor, List.filter]

/-- C10, evaluated on the first frame after set-up, which is shadow-enabled:
the variance buffer is cleared once, and the clear colour in effect is
(0, 0, 0, 1), so its first two channels are 0 and not 1. -/
theorem varianceClear_initial :
    initialInput.enableShadows = true
    ∧ (events glDefaults (setupState glDefaults) (frame initialInput)).filter
          Event.isVarianceClear
        = [ Event.clear (some FB.sBuffer) ⟨0, 0, 0, 1⟩ true ] := by
  refine ⟨rfl, ?_⟩
  rw [varianceClear_events glDefaults _ initialInput (configured_setupState glDefaults)]
  rfl

/-! ## The states at the SAT dispatches -/

theorem satDispatches_append (d : TexParams) (s : GLState) (a b : List Cmd) :
    satDispatches d s (a ++ b) = satDispatches d s a ++ satDispatches d (run d s a) b := by
  simp [satDispatches, trace_append]

theorem satDispatches_noDispatch (d : TexParams) (s : GLState) (cs : List Cmd)
    (h : cs.all (fun c => !c.isDispatch) = true) : satDispatches d s cs = [] := by
  induction cs generalizing s with
  | nil => rfl
  | cons c cs ih =>
    simp only [List.all_cons, Bool.and_eq_true] at h
    have hc : c.isDispatch = false := by simpa using h.1
    simp only [satDispatches, trace, List.filter_cons, hc, Bool.false_and]
    exact ih _ h.2

theorem frame_enabled_split (inp : FrameInput) (hen : inp.enableShadows = true) :
    frame inp = beforeSatBuilder ++ (satBuilder ++ afterShadowPass inp) := by
  simp [frame, beforeLightingDraw, shadowPass, hen, beforeSatBuilder, afterShadowPass]

theorem frame_shadow_split (inp : FrameInput) :
    frame inp = shadowPass inp ++ afterShadowPass inp := by
  simp [frame, beforeLightingDraw, afterShadowPass]

theorem beforeSatBuilder_keepsConfig : beforeSatBuilder.all Cmd.keepsConfig = true := by
  simp [beforeSatBuilder, varianceCapture, forEach_objectCount, Cmd.keepsConfig]

theorem satBuilder_keepsConfig : satBuilder.all Cmd.keepsConfig = true := by
  simp [satBuilder, Cmd.keepsConfig]

theorem satDispatches_afterShadowPass (d : TexParams) (s : GLState) (inp : FrameInput) :
    satDispatches d s (afterShadowPass inp) = [] := by
  have h1 : ∀ s, satDispatches d s geometryPass = [] := fun s =>
    satDispatches_noDispatch d s _ (by simp [geometryPass, forEach_objectCount, Cmd.isDispatch])
  have h2 : ∀ s, satDispatches d s (ssaoPass inp) = [] := fun s =>
    satDispatches_noDispatch d s _ (by simp [ssaoPass, Cmd.isDispatch])
  have h3 : ∀ s, satDispatches d s (blurPass inp) = [] := by
    intro s
    cases h : inp.bilateralBlur <;>
      simp [satDispatches, blurPass, h, trace, step, Cmd.isDispatch, GLState.bindTex]
  have h4 : ∀ s, satDispatches d s (lightingBind inp) = [] := fun s =>
    satDispatches_noDispatch d s _ (by
      by_cases hF : inp.gBufferMode = 0 <;> by_cases hO : inp.gBufferMode = 5 <;>
        simp [lightingBind, lightingFinal, GBufferRender.Final, GBufferRender.Occlusion, hF, hO,
          Cmd.isDispatch])
  have h5 : ∀ s, satDispatches d s lightingDraw = [] := fun s =>
    satDispatches_noDispatch d s _ (by simp [lightingDraw, Cmd.isDispatch])
  have h6 : ∀ s, satDispatches d s (overlays inp) = [] := fun s =>
    satDispatches_noDispatch d s _ (by
      simp only [overlays, List.all_append, Bool.and_eq_true]
      refine ⟨⟨⟨?_, ?_⟩, ?_⟩, ?_⟩ <;> split <;> simp [Cmd.isDispatch])
  simp [afterShadowPass, satDispatches_append, h1, h2, h3, h4, h5, h6]

/-- The SAT dispatches of a shadow-enabled frame, with the states they are
issued in. -/
theorem satDispatches_frame (d : TexParams) (s : GLState) (inp : FrameInput)
    (hen : inp.enableShadows = true) :
    satDispatches d s (frame inp)
      = [ (stageHState d s, Cmd.dispatchCompute SHADOW_MAP_SIZE 1 1),
          (stageVState d s, Cmd.dispatchCompute SHADOW_MAP_SIZE 1 1) ] := by
  have h0 : satDispatches d s beforeSatBuilder = [] :=
    satDispatches_noDispatch d s _ (by
      simp [beforeSatBuilder, varianceCapture, forEach_objectCount, Cmd.isDispatch])
  rw [frame_enabled_split inp hen, satDispatches_append, satDispatches_append, h0,
    satDispatches_afterShadowPass]
  simp [satDispatches, satBuilder, trace, step, Cmd.isDispatch, stageHState, stageVState,
    run_append, run]

/-- What is bound when the two SAT dispatches are issued. -/
theorem stage_states (d : TexParams) (s : GLState) (hs : Configured s) :
    (stageHState d s).program = some Program.computeSAT
    ∧ (stageHState d s).uniformInt Program.computeSAT Uniform.input_image = some 0
    ∧ (stageHState d s).uniformInt Program.computeSAT Uniform.output_image = some 1
    ∧ (stageHState d s).imageUnit 0
        = some (varianceBuffer, TexFormat.RGBA32F, Access.READ_WRITE)
    ∧ (stageHState d s).imageUnit 1 = some (satA, TexFormat.RGBA32F, Access.READ_WRITE)
    ∧ (stageVState d s).imageUnit 0 = some (satA, TexFormat.RGBA32F, Access.READ_WRITE)
    ∧ (stageVState d s).imageUnit 1 = some (satB, TexFormat.RGBA32F, Access.READ_WRITE)
    ∧ stageVState d s
        = { stageHState d s with imageUnit := (stageVState d s).imageUnit } := by
  have hs1 : Configured (run d s beforeSatBuilder) :=
    run_configured d s _ hs beforeSatBuilder_keepsConfig
  have e1 : stageHState d s = run d (run d s beforeSatBuilder) (satBuilder.take 3) := by
    simp [stageHState, run_append]
  have e2 : stageVState d s = run d (run d s beforeSatBuilder) (satBuilder.take 7) := by
    simp [stageVState, run_append]
  rw [e1, e2]
  generalize run d s beforeSatBuilder = s1 at hs1
  obtain ⟨c0, c1, c2, c3, c4, c5, c6, c7, c8, c9⟩ := hs1
  simp [satBuilder, run, step, GLState.attachedTex, c0, c1, c6, c7, varianceBuffer, satA, satB]

/-! ## Frame buffer sizes and runs of frames -/

theorem step_fbSize (d : TexParams) (s : GLState) (c : Cmd) (hc : c.keepsConfig = true) :
    (step d s c).fbSize = s.fbSize := by
  cases c <;> simp_all [step, Cmd.keepsConfig, GLState.bindTex, GLState.setParams]
  case bindInputAll fb =>
    generalize (s.attachments fb).length = n
    induction n with
    | zero => simp [GLState.bindAll]
    | succ k ih => simp [GLState.bindAll, GLState.bindTex, ih]

theorem run_fbSize (d : TexParams) (s : GLState) (cs : List Cmd)
    (hc : cs.all Cmd.keepsConfig = true) : (run d s cs).fbSize = s.fbSize := by
  induction cs generalizing s with
  | nil => rfl
  | cons c cs ih =>
    simp only [List.all_cons, Bool.and_eq_true] at hc
    simp only [run]
    rw [ih _ hc.2, step_fbSize d s c hc.1]

theorem runFrames_configured (d : TexParams) (s : GLState) (inps : List FrameInput)
    (hs : Configured s) : Configured (runFrames d s inps) := by
  induction inps generalizing s with
  | nil => exact hs
  | cons inp rest ih => exact ih _ (frame_configured d s inp hs)

theorem runFrames_fbSize (d : TexParams) (s : GLState) (inps : List FrameInput) :
    (runFrames d s inps).fbSize = s.fbSize := by
  induction inps generalizing s with
  | nil => rfl
  | cons inp rest ih =>
    simp only [runFrames]
    rw [ih, run_fbSize d s _ (frame_keepsConfig inp)]

set_option maxRecDepth 8000 in
theorem setup_fbSize (d : TexParams) (s0 : GLState) :
    (run d s0 setupCmds).fbSize FB.sBuffer = some (SHADOW_MAP_SIZE, SHADOW_MAP_SIZE)
    ∧ (run d s0 setupCmds).fbSize FB.satBuffer = some (SHADOW_MAP_SIZE, SHADOW_MAP_SIZE) := by
  simp [setupCmds, configureSBuffer, configureSatBuffer, configureGBuffer,
    configureAoBuffer, configureShaders, clampToBorderCmds, run, step,
    GLState.bindTex, GLState.setParams, GLState.boundTex2D, GLState.attachedTex]

theorem stage_fbSize (d : TexParams) (s : GLState) :
    (stageHState d s).fbSize = s.fbSize ∧ (stageVState d s).fbSize = s.fbSize := by
  constructor
  · exact run_fbSize d s _ (by
      simp [beforeSatBuilder, varianceCapture, forEach_objectCount, satBuilder, Cmd.keepsConfig])
  · exact run_fbSize d s _ (by
      simp [beforeSatBuilder, varianceCapture, forEach_objectCount, satBuilder, Cmd.keepsConfig])

theorem stage_otherUnits (d : TexParams) (s : GLState) (n : Nat) (h0 : n ≠ 0) (h1 : n ≠ 1) :
    (stageVState d s).imageUnit n = (stageHState d s).imageUnit n := by
  have e1 : stageHState d s = run d (run d s beforeSatBuilder) (satBuilder.take 3) := by
    simp [stageHState, run_append]
  have e2 : stageVState d s = run d (run d s beforeSatBuilder) (satBuilder.take 7) := by
    simp [stageVState, run_append]
  rw [e1, e2]
  generalize run d s beforeSatBuilder = s1
  simp [satBuilder, run, step, Function.update_noteq h0, Function.update_noteq h1]

theorem events_shadowPass_disabled (d : TexParams) (s : GLState) (inp : FrameInput)
    (hen : inp.enableShadows = false) :
    events d s (shadowPass inp) = [Event.clear (some FB.sBuffer) ⟨1, 1, 1, 1⟩ true]
    ∧ (run d s (shadowPass inp)).clearColor = ⟨0, 0, 0, 1⟩ := by
  simp [events, shadowPass, hen, clearShadowMap, trace, run, step, observe]

/-- No event of a frame with shadows disabled is a SAT dispatch or may write
one of the two SAT buffers. -/
theorem frame_disabled_noSatWrite (d : TexParams) (s : GLState) (inp : FrameInput)
    (hs : Configured s) (hen : inp.enableShadows = false) :
    ∀ e ∈ events d s (frame inp),
      e.isSATDispatch = false ∧ e.writes satA = false ∧ e.writes satB = false := by
  intro e he
  rw [events_frame d s inp hs] at he
  simp only [List.mem_append] at he
  rcases he with ((he | he) | he) | he
  · simp [shadowEvents, hen] at he
    subst he
    simp [Event.isSATDispatch, Event.writes, satA, satB, Tex.owner]
  · simp only [gBufferEvents, List.mem_append] at he
    rcases he with he | he
    · simp at he
      rcases he with he | he | he | he | he <;> subst he <;>
        simp [Event.isSATDispatch, Event.writes, satA, satB, Tex.owner]
    · split at he
      · simp at he
        rcases he with he | he | he | he <;> subst he <;>
          simp [Event.isSATDispatch, Event.writes, satA, satB, Tex.owner]
      · simp at he
  · simp at he
    rcases he with he | he
    · subst he
      simp [Event.isSATDispatch, Event.writes]
    · subst he
      simp only [lightingEvent]
      split
      · simp [Event.isSATDispatch, Event.writes]
      · split <;> simp [Event.isSATDispatch, Event.writes]
  · simp only [overlayEvents, List.mem_append] at he
    rcases he with (he | he) | he <;> split at he <;> simp at he
    · subst he
      simp [Event.isSATDispatch, Event.writes]
    · rcases he with he | he <;> subst he <;> simp [Event.isSATDispatch, Event.writes]
    · subst he
      simp [Event.isSATDispatch, Event.writes]

theorem frameEvents_disabled_noSatWrite (d : TexParams) (s : GLState) (offs : List FrameInput)
    (hs : Configured s) (hoff : ∀ i ∈ offs, i.enableShadows = false) :
    ∀ e ∈ frameEvents d s offs,
      e.isSATDispatch = false ∧ e.writes satA = false ∧ e.writes satB = false := by
  induction offs generalizing s with
  | nil => intro e he; simp [frameEvents] at he
  | cons i rest ih =>
    intro e he
    simp only [frameEvents, List.mem_append] at he
    rcases he with he | he
    · exact frame_disabled_noSatWrite d s i hs (hoff i (List.mem_cons_self _ _)) e he
    · exact ih _ (frame_configured d s i hs)
        (fun j hj => hoff j (List.mem_cons_of_mem _ hj)) e he

/-! ## Group counts, formats and the two stages (C11, C15, C18, C19) -/

/-- C11. In every shadow-enabled iteration of the render loop, however many
iterations have run since the set-up code, exactly two dispatches are issued
while `computeSAT` is current. Each of them is
`glDispatchCompute(SHADOW_MAP_SIZE, 1, 1)`, a grid of `S × 1 × 1` work groups
and so `S` groups in all, and at the moment of the dispatch `S` is the width
and the height of `sBuffer` (which holds the variance buffer) and of
`satBuffer` (which holds both SAT buffers). -/
theorem sat_dispatch_groups (d : TexParams) (s0 : GLState) (inps : List FrameInput)
    (inp : FrameInput) (hen : inp.enableShadows = true) :
    (satDispatches d (runFrames d (run d s0 setupCmds) inps) (frame inp)).length = 2
    ∧ ∀ e ∈ satDispatches d (runFrames d (run d s0 setupCmds) inps) (frame inp),
        e.2 = Cmd.dispatchCompute SHADOW_MAP_SIZE 1 1
        ∧ e.2.groupCount = SHADOW_MAP_SIZE
        ∧ e.1.fbSize FB.sBuffer = some (SHADOW_MAP_SIZE, SHADOW_MAP_SIZE)
        ∧ e.1.fbSize FB.satBuffer = some (SHADOW_MAP_SIZE, SHADOW_MAP_SIZE) := by
  have hsz := setup_fbSize d s0
  have hrf := runFrames_fbSize d (run d s0 setupCmds) inps
  have hst := stage_fbSize d (runFrames d (run d s0 setupCmds) inps)
  rw [satDispatches_frame d _ inp hen]
  refine ⟨rfl, ?_⟩
  intro e he
  simp only [List.mem_cons, List.mem_singleton, List.not_mem_nil, or_false] at he
  rcases he with he | he <;> subst he
  · exact ⟨rfl, by simp [Cmd.groupCount], by rw [hst.1, hrf]; exact hsz.1,
      by rw [hst.1, hrf]; exact hsz.2⟩
  · exact ⟨rfl, by simp [Cmd.groupCount], by rw [hst.2, hrf]; exact hsz.1,
      by rw [hst.2, hrf]; exact hsz.2⟩

/-- Witness of C11: the second frame after set-up, both frames with the
initial settings. -/
theorem sat_dispatch_groups_witness :
    initialInput.enableShadows = true
    ∧ (satDispatches glDefaults
        (runFrames glDefaults (run glDefaults (GLState.initial glDefaults) setupCmds)
          [initialInput]) (frame initialInput)).length = 2 :=
  ⟨rfl, (sat_dispatch_groups glDefaults (GLState.initial glDefaults) [initialInput]
    initialInput rfl).1⟩

/-- Counterexample to C15 as stated: the textures of `sBuffer` and `satBuffer`
are not all of a 2-channel format after the set-up code. -/
theorem sat_format_not_two_channel :
    ¬ ∀ f ∈ (setupState glDefaults).attachments FB.sBuffer
          ++ (setupState glDefaults).attachments FB.satBuffer, f.channels = 2 := by
  have h := configured_setupState glDefaults
  obtain ⟨-, -, -, -, -, -, h6, h7, -, -⟩ := h
  rw [h6, h7]
  intro hall
  have := hall TexFormat.RGBA32F (by simp)
  simp [TexFormat.channels] at this

/-- C15, as amended. At every iteration of the render loop the textures of
`sBuffer` (texture 0 is the variance buffer) and of `satBuffer` (textures 0
and 1 are the SAT buffers A and B) are allocated with the format GL_RGBA32F, a
floating-point format of 4 channels, and both frame buffers have the size
`S × S`; in a shadow-enabled frame the variance buffer, A and B are bound as
compute images with the same format GL_RGBA32F at both SAT dispatches. -/
theorem sat_buffers_rgba32f (d : TexParams) (s0 : GLState) (inps : List FrameInput)
    (inp : FrameInput) (hen : inp.enableShadows = true) :
    (runFrames d (run d s0 setupCmds) inps).attachments FB.sBuffer
        = [TexFormat.RGBA32F, TexFormat.RGBA32F]
    ∧ (runFrames d (run d s0 setupCmds) inps).attachments FB.satBuffer
        = [TexFormat.RGBA32F, TexFormat.RGBA32F]
    ∧ TexFormat.RGBA32F.isFloat = true ∧ TexFormat.RGBA32F.channels = 4
    ∧ (runFrames d (run d s0 setupCmds) inps).fbSize FB.sBuffer
        = some (SHADOW_MAP_SIZE, SHADOW_MAP_SIZE)
    ∧ (runFrames d (run d s0 setupCmds) inps).fbSize FB.satBuffer
        = some (SHADOW_MAP_SIZE, SHADOW_MAP_SIZE)
    ∧ (satDispatches d (runFrames d (run d s0 setupCmds) inps) (frame inp)).map
          (fun e => (e.1.imageUnit 0, e.1.imageUnit 1))
        = [ (some (varianceBuffer, TexFormat.RGBA32F, Access.READ_WRITE),
              some (satA, TexFormat.RGBA32F, Access.READ_WRITE)),
            (some (satA, TexFormat.RGBA32F, Access.READ_WRITE),
              some (satB, TexFormat.RGBA32F, Access.READ_WRITE)) ] := by
  have hs := runFrames_configured d _ inps (configured_setup d s0)
  have hsz := setup_fbSize d s0
  have hrf := runFrames_fbSize d (run d s0 setupCmds) inps
  obtain ⟨-, -, -, u0, u1, v0, v1, -⟩ := stage_states d _ hs
  refine ⟨hs.2.2.2.2.2.2.1, hs.2.2.2.2.2.2.2.1, rfl, rfl, by rw [hrf]; exact hsz.1,
    by rw [hrf]; exact hsz.2, ?_⟩
  rw [satDispatches_frame d _ inp hen]
  simp [u0, u1, v0, v1]

/-- Witness of C15, as amended: the first frame after set-up. -/
theorem sat_buffers_rgba32f_witness :
    initialInput.enableShadows = true
    ∧ (runFrames glDefaults (run glDefaults (GLState.initial glDefaults) setupCmds)
        []).attachments FB.satBuffer = [TexFormat.RGBA32F, TexFormat.RGBA32F] :=
  ⟨rfl, (sat_buffers_rgba32f glDefaults (GLState.initial glDefaults) [] initialInput rfl).2.1⟩

/-- C18. In a shadow-enabled frame started in a configured state the two SAT
dispatches are one and the same command `glDispatchCompute(S, 1, 1)`, issued
in states `g1` (Stage H) and `g2` (Stage V) that both have `computeSAT` as the
current program with its uniforms `input_image = 0` and `output_image = 1`.
The state `g2` is `g1` with other image bindings, and these differ on the
units 0 and 1 only: Stage H has the variance buffer on unit 0 and A on unit 1,
Stage V has A on unit 0 and B on unit 1. -/
theorem stages_same_algorithm (d : TexParams) (s : GLState) (inp : FrameInput)
    (hs : Configured s) (hen : inp.enableShadows = true) :
    ∃ (g1 g2 : GLState) (c : Cmd),
      satDispatches d s (frame inp) = [(g1, c), (g2, c)]
      ∧ c = Cmd.dispatchCompute SHADOW_MAP_SIZE 1 1
      ∧ g1.program = some Program.computeSAT ∧ g2.program = some Program.computeSAT
      ∧ g1.uniformInt Program.computeSAT Uniform.input_image = some 0
      ∧ g1.uniformInt Program.computeSAT Uniform.output_image = some 1
      ∧ g2.uniformInt Program.computeSAT Uniform.input_image = some 0
      ∧ g2.uniformInt Program.computeSAT Uniform.output_image = some 1
      ∧ g2 = { g1 with imageUnit := g2.imageUnit }
      ∧ (∀ n, n ≠ 0 → n ≠ 1 → g2.imageUnit n = g1.imageUnit n)
      ∧ g1.imageUnit 0 = some (varianceBuffer, TexFormat.RGBA32F, Access.READ_WRITE)
      ∧ g1.imageUnit 1 = some (satA, TexFormat.RGBA32F, Access.READ_WRITE)
      ∧ g2.imageUnit 0 = some (satA, TexFormat.RGBA32F, Access.READ_WRITE)
      ∧ g2.imageUnit 1 = some (satB, TexFormat.RGBA32F, Access.READ_WRITE) := by
  obtain ⟨p, i, o, u0, u1, v0, v1, heq⟩ := stage_states d s hs
  refine ⟨stageHState d s, stageVState d s, Cmd.dispatchCompute SHADOW_MAP_SIZE 1 1,
    satDispatches_frame d s inp hen, rfl, p, ?_, i, o, ?_, ?_, heq,
    fun n h0 h1 => stage_otherUnits d s n h0 h1, u0, u1, v0, v1⟩
  · rw [heq]; exact p
  · rw [heq]; exact i
  · rw [heq]; exact o

/-- Witness of C18: the first frame after set-up. -/
theorem stages_same_algorithm_witness :
    ∃ (g1 g2 : GLState) (c : Cmd),
      satDispatches glDefaults (setupState glDefaults) (frame initialInput) = [(g1, c), (g2, c)]
      ∧ g2 = { g1 with imageUnit := g2.imageUnit } := by
  obtain ⟨g1, g2, c, h, -, -, -, -, -, -, -, heq, -⟩ :=
    stages_same_algorithm glDefaults (setupState glDefaults) initialInput
      (configured_setupState glDefaults) rfl
  exact ⟨g1, g2, c, h, heq⟩

/-- C19. In a frame with `enableShadows` false, started in a configured state,
the only event of the shadow pass is the clear of the variance buffer with
clear colour (1, 1, 1, 1), and the clear colour of the GL state is (0, 0, 0, 1)
after the pass. No event of the frame, nor of any run `offs` of shadow-disabled
frames before it, is a dispatch of `computeSAT` or may write SAT buffer A or B,
so their contents are those left by the last shadow-enabled frame; and in
Final mode the lighting quad of the frame is drawn with the sampler
`shadowSAT` reading B. -/
theorem shadows_disabled_frame (d : TexParams) (s : GLState) (offs : List FrameInput)
    (inp : FrameInput) (hs : Configured s)
    (hoff : ∀ i ∈ offs, i.enableShadows = false) (hen : inp.enableShadows = false) :
    events d (runFrames d s offs) (shadowPass inp)
        = [Event.clear (some FB.sBuffer) ⟨1, 1, 1, 1⟩ true]
    ∧ (run d (runFrames d s offs) (shadowPass inp)).clearColor = ⟨0, 0, 0, 1⟩
    ∧ (∀ e ∈ frameEvents d s offs ++ events d (runFrames d s offs) (frame inp),
        e.isSATDispatch = false ∧ e.writes satA = false ∧ e.writes satB = false)
    ∧ (inp.gBufferMode = GBufferRender.Final →
        Event.draw (some Program.pbrShader) none Mesh.quad (some satB) (some varianceBuffer)
          ∈ events d (runFrames d s offs) (frame inp)) := by
  have hs1 := runFrames_configured d s offs hs
  obtain ⟨h1, h2⟩ := events_shadowPass_disabled d (runFrames d s offs) inp hen
  refine ⟨h1, h2, ?_, ?_⟩
  · intro e he
    rcases List.mem_append.1 he with he | he
    · exact frameEvents_disabled_noSatWrite d s offs hs hoff e he
    · exact frame_disabled_noSatWrite d _ inp hs1 hen e he
  · intro hF
    rw [events_frame d _ inp hs1]
    simp [lightingEvent, hF]

/-- Witness of C19: a shadow-disabled frame after set-up and one other
shadow-disabled frame. -/
theorem shadows_disabled_frame_witness :
    (run glDefaults
        (runFrames glDefaults (setupState glDefaults)
          [{ initialInput with enableShadows := false }])
        (shadowPass { initialInput with enableShadows := false })).clearColor
      = ⟨0, 0, 0, 1⟩ :=
  (shadows_disabled_frame glDefaults (setupState glDefaults)
    [{ initialInput with enableShadows := false }] { initialInput with enableShadows := false }
    (configured_setupState glDefaults) (by simp) rfl).2.1

/-! ## The attenuation of the Soft-Shadow Sampler -/

theorem clamp_fin_bounds (q : ℚ) : 0 ≤ min (max q 0) 1 ∧ min (max q 0) 1 ≤ 1 :=
  ⟨le_min (le_max_right _ _) zero_le_one, min_le_right _ _⟩

/-- Behind the mean the Chebyshev bound is a number in `[0, 1)`. -/
theorem p_max_behind (v mean d : ℚ) (hv : 0 ≤ v) (hd : mean < d) :
    p_max v mean d = FVal.fin (v / (v + (d - mean) ^ 2))
    ∧ 0 ≤ v / (v + (d - mean) ^ 2) ∧ v / (v + (d - mean) ^ 2) < 1 := by
  have hsq : 0 < (d - mean) ^ 2 := by
    have : 0 < d - mean := sub_pos.2 hd
    positivity
  have hden : 0 < v + (d - mean) ^ 2 := by linarith
  refine ⟨by simp [p_max, fdiv, ne_of_gt hden], div_nonneg hv hden.le, ?_⟩
  rw [div_lt_one hden]
  linarith

/-- The attenuation behind the mean, by the three cases of
`1 - shadowSaturation`. -/
theorem attenuation_behind (ε mean meanSquare d sat : ℚ) (hε : 0 ≤ ε) (hd : mean < d) :
    attenuation ε mean meanSquare d sat
      = some (if sat = 1 then 0
          else min (max ((max (meanSquare - mean ^ 2) ε
            / (max (meanSquare - mean ^ 2) ε + (d - mean) ^ 2) - sat) / (1 - sat)) 0) 1) := by
  have hv : 0 ≤ max (meanSquare - mean ^ 2) ε := le_trans hε (le_max_right _ _)
  obtain ⟨hp, -, hp1⟩ := p_max_behind _ mean d hv hd
  by_cases hs : sat = 1
  · subst hs
    have hneg : max (meanSquare - mean ^ 2) ε
        / (max (meanSquare - mean ^ 2) ε + (d - mean) ^ 2) - 1 < 0 := by linarith
    simp [attenuation, not_le.2 hd, hp, FVal.sub, FVal.div, fdiv, clamp, hneg,
      not_lt.2 hneg.le]
  · have h1 : (1 : ℚ) - sat ≠ 0 := fun h => hs (by linarith)
    simp [attenuation, not_le.2 hd, hp, FVal.sub, FVal.div, fdiv, clamp, h1, hs]

/-- In exact arithmetic (`attenuation`, no rounding) and with `ε ≥ 0` the
attenuation always has a numeric value in `[0, 1]`: behind the mean the exact
`p_max` is below 1, so at `shadowSaturation = 1` the quotient is a negative
number over zero and the attenuation is 0; at `shadowSaturation = 0` it is
`p_max` itself. -/
theorem attenuation_exact_in_unit_interval (ε mean meanSquare d sat : ℚ) (hε : 0 ≤ ε) :
    (∃ a, attenuation ε mean meanSquare d sat = some a ∧ 0 ≤ a ∧ a ≤ 1)
    ∧ (mean < d → attenuation ε mean meanSquare d 1 = some 0)
    ∧ (mean < d → attenuation ε mean meanSquare d 0
        = some (max (meanSquare - mean ^ 2) ε
            / (max (meanSquare - mean ^ 2) ε + (d - mean) ^ 2))) := by
  refine ⟨?_, ?_, ?_⟩
  · by_cases hd : d ≤ mean
    · exact ⟨1, by simp [attenuation, hd], zero_le_one, le_refl _⟩
    · rw [attenuation_behind ε mean meanSquare d sat hε (not_le.1 hd)]
      refine ⟨_, rfl, ?_⟩
      split
      · exact ⟨le_refl _, zero_le_one⟩
      · exact clamp_fin_bounds _
  · intro hd
    rw [attenuation_behind ε mean meanSquare d 1 hε hd]
    simp
  · intro hd
    have hv : 0 ≤ max (meanSquare - mean ^ 2) ε := le_trans hε (le_max_right _ _)
    obtain ⟨-, hp0, hp1⟩ := p_max_behind _ mean d hv hd
    rw [attenuation_behind ε mean meanSquare d 0 hε hd]
    simp [hp0, hp1.le]

theorem sliderFloat_range (v lo hi : ℚ) (moved : Option ℚ) (hl : lo ≤ hi)
    (hv : lo ≤ v ∧ v ≤ hi) :
    lo ≤ ImGui.SliderFloat v lo hi moved ∧ ImGui.SliderFloat v lo hi moved ≤ hi := by
  cases moved with
  | none => exact hv
  | some x => exact ⟨le_min (le_max_right _ _) hl, min_le_right _ _⟩

theorem panelSSAO_shadowSaturation (ui : PanelInput) (v : FrameInput) :
    (panelSSAO ui v).shadowSaturation = v.shadowSaturation := by
  unfold panelSSAO
  split <;> rfl

theorem panelIBL_shadowSaturation (ui : PanelInput) (v : FrameInput) :
    (panelIBL ui v).shadowSaturation = v.shadowSaturation := by
  unfold panelIBL
  split <;> rfl

theorem panelDebug_shadowSaturation (ui : PanelInput) (v : FrameInput) :
    (panelDebug ui v).shadowSaturation = v.shadowSaturation := by
  unfold panelDebug
  split <;> rfl

theorem panelShadows_shadowSaturation (ui : PanelInput) (v : FrameInput)
    (hv : 0 ≤ v.shadowSaturation ∧ v.shadowSaturation ≤ 1) :
    0 ≤ (panelShadows ui v).shadowSaturation ∧ (panelShadows ui v).shadowSaturation ≤ 1 := by
  unfold panelShadows
  split
  · exact sliderFloat_range v.shadowSaturation 0 1 _ zero_le_one hv
  · exact hv

theorem panelLighting_shadowSaturation (ui : PanelInput) (v : FrameInput)
    (hv : 0 ≤ v.shadowSaturation ∧ v.shadowSaturation ≤ 1) :
    0 ≤ (panelLighting ui v).shadowSaturation ∧ (panelLighting ui v).shadowSaturation ≤ 1 := by
  unfold panelLighting
  split
  · apply panelShadows_shadowSaturation
    split
    · exact hv
    · exact hv
  · exact hv

theorem controlPanel_shadowSaturation (ui : PanelInput) (v : FrameInput)
    (hv : 0 ≤ v.shadowSaturation ∧ v.shadowSaturation ≤ 1) :
    0 ≤ (controlPanel ui v).shadowSaturation ∧ (controlPanel ui v).shadowSaturation ≤ 1 := by
  unfold controlPanel
  rw [panelDebug_shadowSaturation]
  apply panelLighting_shadowSaturation
  rw [panelIBL_shadowSaturation, panelSSAO_shadowSaturation]
  exact hv

/-- The only upload of `shadowSaturation` in a frame carries the variable. -/
theorem frame_shadowSaturation (inp : FrameInput) (x : ℚ)
    (h : Cmd.setUniformFloat Program.pbrShader Uniform.shadowSaturation x ∈ frame inp) :
    x = inp.shadowSaturation := by
  simp only [frame, beforeLightingDraw, List.mem_append] at h
  rcases h with (((((h | h) | h) | h) | h) | h) | h
  · exfalso
    cases hen : inp.enableShadows <;>
      simp [shadowPass, hen, varianceCapture, satBuilder, clearShadowMap,
        forEach_objectCount] at h
  · exfalso
    simp [geometryPass, forEach_objectCount] at h
  · exfalso
    simp [ssaoPass] at h
  · exfalso
    cases hb : inp.bilateralBlur <;> simp [blurPass, hb] at h
  · by_cases hF : inp.gBufferMode = 0 <;> by_cases hO : inp.gBufferMode = 5 <;>
      simp [lightingBind, lightingFinal, GBufferRender.Final, GBufferRender.Occlusion,
        hF, hO] at h
    all_goals exact h
  · exfalso
    simp [lightingDraw] at h
  · exfalso
    simp only [overlays, List.mem_append] at h
    rcases h with ((h | h) | h) | h <;> split at h <;> simp at h

/-- C14. In every iteration of the render loop, whatever the user does to the
control panel in the iterations before it, the variable `shadowSaturation`
lies in `[0, 1]`, and every value the frame uploads to the uniform
`shadowSaturation` of the lighting shader is that variable and so lies in
`[0, 1]`; the variable starts at 1/2. -/
theorem shadowSaturation_in_range (uis : List PanelInput) :
    initialInput.shadowSaturation = 1 / 2
    ∧ ∀ inp ∈ renderLoop initialInput uis,
        (0 ≤ inp.shadowSaturation ∧ inp.shadowSaturation ≤ 1)
        ∧ ∀ x, Cmd.setUniformFloat Program.pbrShader Uniform.shadowSaturation x ∈ frame inp →
            0 ≤ x ∧ x ≤ 1 := by
  have key : ∀ (uis : List PanelInput) (v : FrameInput),
      (0 ≤ v.shadowSaturation ∧ v.shadowSaturation ≤ 1) →
      ∀ inp ∈ renderLoop v uis, 0 ≤ inp.shadowSaturation ∧ inp.shadowSaturation ≤ 1 := by
    intro uis
    induction uis with
    | nil => intro v _ inp h; simp [renderLoop] at h
    | cons ui rest ih =>
      intro v hv inp h
      simp only [renderLoop, List.mem_cons] at h
      rcases h with h | h
      · subst h
        exact hv
      · exact ih _ (controlPanel_shadowSaturation ui v hv) inp h
  refine ⟨rfl, ?_⟩
  intro inp hin
  have hr := key uis initialInput (by norm_num [initialInput]) inp hin
  refine ⟨hr, ?_⟩
  intro x hx
  rw [frame_shadowSaturation inp x hx]
  exact hr

/-! ## The blur data -/

theorem Sqrt2Pi_pos {K : Type} [LinearOrderedField K] : (0 : K) < Sqrt2Pi := by
  unfold Sqrt2Pi
  norm_num

theorem forLoop_succ {σ : Type} (n : Nat) (body : σ → Int → Option σ) (s : σ) :
    forLoop ((n + 1 : Nat) : Int) body s
      = (forLoop (n : Int) body s).bind (fun st => body st (n : Int)) := by
  simp [forLoop, List.range_succ, List.foldlM_append]

theorem forLoop_zero {σ : Type} (body : σ → Int → Option σ) (s : σ) :
    forLoop ((0 : Nat) : Int) body s = some s := by
  simp [forLoop]

/-- The taps at equal distance from the centre have the same raw value. -/
theorem rawWeight_mirror {K : Type} [Field K] (exp : K → K) (deviation : K) (B j : Nat)
    (hj : j ≤ 2 * B) :
    rawWeight exp deviation (B : Int) (2 * B - j) = rawWeight exp deviation (B : Int) j := by
  have h : ((B : Int) - ((2 * B - j : Nat) : Int)) = -((B : Int) - (j : Int)) := by omega
  simp only [rawWeight, normalDist, h]
  push_cast
  ring_nf

/-- The state of the first loop after `n` iterations. -/
theorem fill_loop {K : Type} [Field K] (exp : K → K) (deviation : K) (B n : Nat)
    (hB : B ≤ 32) (hn : n ≤ B) :
    forLoop (n : Int) (fillBody exp deviation (B : Int) (2 * (B : Int))) (fun _ => none, 0)
      = some (fun j => if j < n ∨ (2 * B - n < j ∧ j ≤ 2 * B)
                then some (rawWeight exp deviation (B : Int) j) else none,
              ∑ i in Finset.range n, 2 * rawWeight exp deviation (B : Int) i) := by
  induction n with
  | zero =>
    rw [forLoop_zero]
    simp
    funext j
    have : ¬ (2 * B < j ∧ j ≤ 2 * B) := by omega
    simp [this]
  | succ n ih =>
    rw [forLoop_succ, ih (by omega)]
    have h1 : (0 : Int) ≤ 2 * (B : Int) - (n : Int) ∧ 2 * (B : Int) - (n : Int) < 65 := by omega
    have h2 : (0 : Int) ≤ (n : Int) ∧ (n : Int) < 65 := by omega
    have h3 : (2 * (B : Int) - (n : Int)).toNat = 2 * B - n := by omega
    simp only [Option.bind_some, fillBody, Weights.write, h1, h2, h3, and_self, if_true,
      Option.map_some', Int.toNat_ofNat, Finset.sum_range_succ, Option.some_bind]
    refine congrArg some (Prod.ext ?_ (by simp [rawWeight]))
    funext j
    have hm := rawWeight_mirror exp deviation B n (by omega)
    by_cases e1 : j = n
    · subst e1
      simp [rawWeight]
    · by_cases e2 : j = 2 * B - n
      · subst e2
        simp only [Function.update_noteq e1, Function.update_same]
        have : 2 * B - n < n + 1 ∨ 2 * B - (n + 1) < 2 * B - n ∧ 2 * B - n ≤ 2 * B := by omega
        rw [if_pos this, hm]
        simp [rawWeight]
      · simp only [Function.update_noteq e1, Function.update_noteq e2]
        have : (j < n ∨ 2 * B - n < j ∧ j ≤ 2 * B)
            ↔ (j < n + 1 ∨ 2 * B - (n + 1) < j ∧ j ≤ 2 * B) := by omega
        simp only [this]

/-- The state of the second loop after `n` iterations. -/
theorem normalize_loop {K : Type} [Field K] (total : K) (f : Nat → K) (B n : Nat)
    (hB : B ≤ 32) (hn : n ≤ 2 * B + 1) :
    forLoop (n : Int) (normalizeBody total) (fun j => if j ≤ 2 * B then some (f j) else none)
      = some (fun j => if j ≤ 2 * B then some (if j < n then f j / total else f j) else none) := by
  induction n with
  | zero =>
    rw [forLoop_zero]
    simp
  | succ n ih =>
    rw [forLoop_succ, ih (by omega)]
    have h2 : (0 : Int) ≤ (n : Int) ∧ (n : Int) < 65 := by omega
    have h3 : n ≤ 2 * B := by omega
    simp only [Option.some_bind, normalizeBody, Weights.read, Weights.write, h2, and_self, if_true,
      Int.toNat_ofNat, h3, lt_irrefl, if_false]
    refine congrArg some ?_
    funext j
    by_cases e1 : j = n
    · subst e1
      simp [h3]
    · simp only [Function.update_noteq e1]
      have : j < n + 1 ↔ j < n := by omega
      simp only [this]

theorem clampWidth_range (width : Int) :
    ∃ B : Nat, clampWidth width = (B : Int) ∧ 1 ≤ B ∧ B ≤ 32 := by
  refine ⟨(clampWidth width).toNat, ?_, ?_, ?_⟩ <;>
    (simp only [clampWidth]; split_ifs <;> omega)

/-- The object the constructor builds: every tap `j ≤ blurWidth2` holds its
raw value divided by the total, and no other entry of `weights` is assigned. -/
theorem new_eq {K : Type} [Field K] (exp : K → K) (width : Int) (deviation : K) :
    OpenGLBlurData.new exp width deviation
      = some { blurWidth := clampWidth width
               blurWidth2 := 2 * clampWidth width
               weights := fun j =>
                 if j ≤ (2 * clampWidth width).toNat then
                   some (rawWeight exp deviation (clampWidth width) j
                     / rawTotal exp deviation (clampWidth width))
                 else none } := by
  obtain ⟨B, hc, hB1, hB⟩ := clampWidth_range width
  have hnew : OpenGLBlurData.new exp width deviation
      = (forLoop (clampWidth width)
          (fillBody exp deviation (clampWidth width) (2 * clampWidth width))
          (fun _ => none, 0)).bind fun st =>
        (st.1.write (clampWidth width) (normalDist exp 0 0 deviation)).bind fun w =>
          (w.read (clampWidth width)).bind fun x =>
            (forLoop (2 * clampWidth width + 1) (normalizeBody (st.2 + x)) w).map fun w2 =>
              { blurWidth := clampWidth width, blurWidth2 := 2 * clampWidth width,
                weights := w2 } := rfl
  rw [hnew, hc, fill_loop exp deviation B B hB (le_refl _)]
  have h2 : (0 : Int) ≤ (B : Int) ∧ (B : Int) < 65 := by omega
  have hcentre : normalDist exp 0 0 deviation = rawWeight exp deviation (B : Int) B := by
    simp [rawWeight]
  have hw : Function.update
      (fun j => if j < B ∨ (2 * B - B < j ∧ j ≤ 2 * B)
        then some (rawWeight exp deviation (B : Int) j) else none)
      B (some (rawWeight exp deviation (B : Int) B))
      = fun j => if j ≤ 2 * B then some (rawWeight exp deviation (B : Int) j) else none := by
    funext j
    by_cases e1 : j = B
    · subst e1
      simp [show j ≤ 2 * j by omega]
    · simp only [Function.update_noteq e1]
      have : (j < B ∨ 2 * B - B < j ∧ j ≤ 2 * B) ↔ j ≤ 2 * B := by omega
      simp only [this]
  have hloop : (2 * (B : Int) + 1) = ((2 * B + 1 : Nat) : Int) := by push_cast; ring
  have h2B : (2 * (B : Int)).toNat = 2 * B := by omega
  simp only [Option.some_bind, Weights.write, Weights.read, h2, and_self, if_true,
    Int.toNat_ofNat, hcentre, hw, show B ≤ 2 * B by omega, hloop]
  rw [normalize_loop _ _ B (2 * B + 1) hB (le_refl _)]
  simp only [Option.map_some', rawTotal, Int.toNat_ofNat, h2B]
  refine congrArg some ?_
  congr 1
  funext j
  by_cases hj : j ≤ 2 * B
  · have : j < 2 * B + 1 := by omega
    simp [hj, this]
  · simp [hj]

/-- The raw values of all taps add up to the total the constructor divides
by. -/
theorem rawWeight_sum {K : Type} [Field K] (exp : K → K) (deviation : K) (B : Nat) :
    ∑ j in Finset.range (2 * B + 1), rawWeight exp deviation (B : Int) j
      = rawTotal exp deviation (B : Int) := by
  have hsplit : 2 * B + 1 = B + (B + 1) := by omega
  rw [hsplit, Finset.sum_range_add, Finset.sum_range_succ']
  have hrefl : ∑ k in Finset.range B, rawWeight exp deviation (B : Int) (B + (k + 1))
      = ∑ k in Finset.range B, rawWeight exp deviation (B : Int) k := by
    rw [← Finset.sum_range_reflect (fun k => rawWeight exp deviation (B : Int) k) B]
    refine Finset.sum_congr rfl ?_
    intro k hk
    have hk1 : k < B := Finset.mem_range.1 hk
    rw [← rawWeight_mirror exp deviation B (B - 1 - k) (by omega)]
    congr 1
    omega
  simp only [rawTotal, Int.toNat_ofNat, hrefl, add_zero, ← Finset.mul_sum]
  ring

/-- For a deviation other than zero and a positive `exp` the total is not
zero. -/
theorem rawTotal_ne_zero {K : Type} [LinearOrderedField K] (exp : K → K)
    (hexp : ∀ x, 0 < exp x) (deviation : K) (hd : deviation ≠ 0) (B : Nat) :
    rawTotal exp deviation (B : Int) ≠ 0 := by
  have hc : (Sqrt2Pi * deviation : K) ≠ 0 := mul_ne_zero (ne_of_gt Sqrt2Pi_pos) hd
  have hform : rawTotal exp deviation (B : Int)
      = ((∑ i in Finset.range B,
            2 * exp (-((((B : Int) - (i : Int) : Int) : K) * (((B : Int) - (i : Int) : Int) : K))
              / (2 * (deviation * deviation))))
          + exp (-((((B : Int) - (B : Int) : Int) : K) * (((B : Int) - (B : Int) : Int) : K))
              / (2 * (deviation * deviation)))) / (Sqrt2Pi * deviation) := by
    simp only [rawTotal, rawWeight, normalDist, Int.toNat_ofNat, sub_zero, add_div,
      Finset.sum_div, mul_div_assoc]
  rw [hform]
  refine div_ne_zero (ne_of_gt ?_) hc
  refine add_pos_of_nonneg_of_pos (Finset.sum_nonneg ?_) (hexp _)
  intro i _
  exact (mul_pos two_pos (hexp _)).le

/-- C16. In exact arithmetic over an ordered field, with any positive function
for `glm::exp` (the real numbers with the real exponential are one instance),
for every `width` and every `deviation` other than zero the constructor
returns an object in which every entry `weights[0 .. blurWidth2]` is assigned
and these `2 * blurWidth + 1` entries add up to 1. -/
theorem weights_sum_one {K : Type} [LinearOrderedField K] (exp : K → K)
    (hexp : ∀ x, 0 < exp x) (width : Int) (deviation : K) (hd : deviation ≠ 0) :
    ∃ b, OpenGLBlurData.new exp width deviation = some b
      ∧ b.blurWidth2.toNat + 1 = 2 * b.blurWidth.toNat + 1
      ∧ (∀ i ∈ Finset.range (b.blurWidth2.toNat + 1), (b.weights i).isSome = true)
      ∧ ∑ i in Finset.range (b.blurWidth2.toNat + 1), (b.weights i).getD 0 = 1 := by
  obtain ⟨B, hc, hB1, hB⟩ := clampWidth_range width
  refine ⟨_, new_eq exp width deviation, ?_, ?_, ?_⟩
  · simp only [hc]
    omega
  · intro i hi
    have : i ≤ (2 * clampWidth width).toNat := by
      have := Finset.mem_range.1 hi
      simp only at this
      omega
    simp [this]
  · have h2B : (2 * (B : Int)).toNat = 2 * B := by omega
    simp only [hc, h2B]
    have hsum : ∑ i in Finset.range (2 * B + 1),
        (if i ≤ 2 * B then some (rawWeight exp deviation (B : Int) i
            / rawTotal exp deviation (B : Int)) else none).getD 0
        = ∑ i in Finset.range (2 * B + 1),
            rawWeight exp deviation (B : Int) i / rawTotal exp deviation (B : Int) := by
      refine Finset.sum_congr rfl ?_
      intro i hi
      have : i ≤ 2 * B := by
        have := Finset.mem_range.1 hi
        omega
      simp [this]
    rw [hsum, ← Finset.sum_div, rawWeight_sum]
    exact div_self (rawTotal_ne_zero exp hexp deviation hd B)

/-- Witness of C16: the object `main()` constructs, `OpenGLBlurData data(8,
8.0f)`, over the real numbers with the real exponential. -/
theorem weights_sum_one_witness :
    (8 : ℝ) ≠ 0
    ∧ ∃ b, OpenGLBlurData.new Real.exp 8 (8 : ℝ) = some b
      ∧ ∑ i in Finset.range (b.blurWidth2.toNat + 1), (b.weights i).getD 0 = 1 := by
  refine ⟨by simp, ?_⟩
  obtain ⟨b, h1, -, -, h4⟩ := weights_sum_one Real.exp Real.exp_pos 8 (8 : ℝ) (by simp)
  exact ⟨b, h1, h4⟩

/-- C17. For every `width`, whatever the deviation, the constructor returns an
object whose `blurWidth` is `width` clamped to `[1, 32]` (1 if `width < 1`, 32
if `width > 32`, `width` otherwise) and whose `blurWidth2` is
`2 * blurWidth`. -/
theorem blurWidth_clamped {K : Type} [Field K] (exp : K → K) (width : Int) (deviation : K) :
    ∃ b, OpenGLBlurData.new exp width deviation = some b
      ∧ b.blurWidth = (if width < 1 then 1 else if width > 32 then 32 else width)
      ∧ 1 ≤ b.blurWidth ∧ b.blurWidth ≤ 32
      ∧ b.blurWidth2 = 2 * b.blurWidth := by
  refine ⟨_, new_eq exp width deviation, ?_, ?_, ?_, rfl⟩ <;>
    (simp only [clampWidth]; split_ifs <;> omega)

/-! ## The point lights -/

theorem gridCells_eq : gridCells = (List.range 100).map cellOf := by
  decide

theorem cellOf_curLight (X Z Y : Nat) (hX : X < 5) (hZ : Z < 5) (hY : Y < 4) :
    cellOf (curLight X Z Y) = (X, Z, Y) ∧ curLight X Z Y < 100 := by
  simp only [cellOf, curLight, LIGHT_GRID_WIDTH, LIGHT_GRID_HEIGHT, Prod.mk.injEq]
  omega

theorem curLight_cellOf (n : Nat) :
    curLight (cellOf n).1 (cellOf n).2.1 (cellOf n).2.2 = n := by
  simp only [cellOf, curLight, LIGHT_GRID_WIDTH, LIGHT_GRID_HEIGHT]
  omega

/-- The state of the loops of `configurePointLights` after the first `n`
cells. -/
theorem configure_fold {K : Type} [Field K] (env : LightEnv K) (radius separation yOffset : K)
    (ms : List (Mat4 K)) (cs : List (Vec4 K)) (n : Nat) :
    ((List.range n).map cellOf).foldl (configureBody env radius separation yOffset) (ms, cs, 0)
      = (ms ++ (List.range n).map
            (fun i => (lightEntry env radius separation yOffset (cellOf i) (5 * i)).1),
         cs ++ (List.range n).map
            (fun i => (lightEntry env radius separation yOffset (cellOf i) (5 * i)).2),
         5 * n) := by
  induction n with
  | zero => simp
  | succ n ih =>
    rw [List.range_succ, List.map_append, List.foldl_append, ih]
    simp [configureBody, List.range_succ, Nat.mul_succ]

/-- The entries `configurePointLights` appends to empty vectors. -/
theorem configure_entries {K : Type} [Field K] (env : LightEnv K)
    (radius separation yOffset : K) (n : Nat) (hn : n < 100) :
    (configurePointLights env [] [] radius separation yOffset).1[n]?
        = some (lightEntry env radius separation yOffset (cellOf n) (5 * n)).1
    ∧ (configurePointLights env [] [] radius separation yOffset).2[n]?
        = some (lightEntry env radius separation yOffset (cellOf n) (5 * n)).2
    ∧ (configurePointLights env [] [] radius separation yOffset).1.length = 100
    ∧ (configurePointLights env [] [] radius separation yOffset).2.length = 100 := by
  simp only [configurePointLights, gridCells_eq, configure_fold, List.nil_append]
  simp [List.getElem?_map, List.getElem?_range hn]

/-- The state of the loops of `updatePointLights` after the first `n` cells. -/
theorem update_fold {K : Type} [Field K] (separation yOffset radius : K)
    (ms : List (Mat4 K)) (cs : List (Vec4 K)) (n : Nat) (hn : n ≤ 100)
    (hm : n ≤ ms.length) (hc : n ≤ cs.length) :
    ∃ ms2 cs2,
      ((List.range n).map cellOf).foldlM (updateBody separation yOffset radius) (ms, cs)
        = some (ms2, cs2)
      ∧ ms2.length = ms.length ∧ cs2.length = cs.length
      ∧ (∀ j, ms2[j]? = if j < n
          then ms[j]?.map (fun m => { m with c3 := updatedCentre separation yOffset (cellOf j) })
          else ms[j]?)
      ∧ (∀ j, cs2[j]? = if j < n then cs[j]?.map (fun c => { c with w := radius })
          else cs[j]?) := by
  induction n with
  | zero => exact ⟨ms, cs, by simp, rfl, rfl, by simp, by simp⟩
  | succ n ih =>
    obtain ⟨ms1, cs1, hf, hl1, hl2, hg1, hg2⟩ := ih (by omega) (by omega) (by omega)
    have hcur := curLight_cellOf n
    have hn1 : n < ms1.length := by omega
    have hn2 : n < cs1.length := by omega
    have hstep : updateBody separation yOffset radius (ms1, cs1) (cellOf n)
        = some (ms1.set n { ms1[n] with c3 := updatedCentre separation yOffset (cellOf n) },
                cs1.set n { cs1[n] with w := radius }) := by
      simp [updateBody, hcur, List.getElem?_eq_getElem hn1, List.getElem?_eq_getElem hn2,
        updatedCentre]
    rw [List.range_succ, List.map_append, List.foldlM_append, hf]
    refine ⟨ms1.set n { ms1[n] with c3 := updatedCentre separation yOffset (cellOf n) },
      cs1.set n { cs1[n] with w := radius }, by simp [hstep], by simp [hl1], by simp [hl2],
      ?_, ?_⟩
    · intro j
      by_cases e : j = n
      · subst e
        have h1 := hg1 j
        simp only [lt_irrefl, if_false, List.getElem?_eq_getElem hn1,
          List.getElem?_eq_getElem (show j < ms.length by omega)] at h1
        simp [List.getElem?_set, hn1, List.getElem?_eq_getElem (show j < ms.length by omega),
          updatedCentre, Option.some.inj h1]
      · have hne : ¬ n = j := fun h => e h.symm
        have : j < n + 1 ↔ j < n := by omega
        simp only [List.getElem?_set, hne, if_false, this]
        exact hg1 j
    · intro j
      by_cases e : j = n
      · subst e
        have h2 := hg2 j
        simp only [lt_irrefl, if_false, List.getElem?_eq_getElem hn2,
          List.getElem?_eq_getElem (show j < cs.length by omega)] at h2
        simp [List.getElem?_set, hn2, List.getElem?_eq_getElem (show j < cs.length by omega),
          Option.some.inj h2]
      · have hne : ¬ n = j := fun h => e h.symm
        have : j < n + 1 ↔ j < n := by omega
        simp only [List.getElem?_set, hne, if_false, this]
        exact hg2 j

/-- The result of `updatePointLights` on vectors of at least 100 entries when
`separation` is not negative. -/
theorem update_result {K : Type} [LinearOrderedField K] (separation yOffset radius : K)
    (ms : List (Mat4 K)) (cs : List (Vec4 K)) (hm : 100 ≤ ms.length) (hc : 100 ≤ cs.length)
    (hs : ¬ separation < 0) :
    ∃ ms2 cs2,
      updatePointLights ms cs separation yOffset radius
        = some (ms2, cs2,
            [ BufferCall.bindArrayBuffer true, BufferCall.arrayBufferData (ms2.take 100),
              BufferCall.bindArrayBuffer false ])
      ∧ ms2.length = ms.length ∧ cs2.length = cs.length
      ∧ ∀ n, n < 100 →
          centre ms2 n = some (updatedCentre separation yOffset (cellOf n))
          ∧ cs2[n]?.map Vec4.w = some radius := by
  obtain ⟨ms2, cs2, hf, hl1, hl2, hg1, hg2⟩ :=
    update_fold separation yOffset radius ms cs 100 (le_refl _) hm hc
  refine ⟨ms2, cs2, ?_, hl1, hl2, ?_⟩
  · simp [updatePointLights, hs, gridCells_eq, hf, LIGHT_GRID_WIDTH, LIGHT_GRID_HEIGHT]
  · intro n hn
    have h1 : n < ms.length := by omega
    have h2 : n < cs.length := by omega
    simp [centre, hg1 n, hg2 n, hn, List.getElem?_eq_getElem h1, List.getElem?_eq_getElem h2]

/-- The centre and the size `configurePointLights` gives the light of a
cell. -/
theorem configure_result {K : Type} [LinearOrderedField K] (env : LightEnv K)
    (radius separation yOffset : K) (X Z Y : Nat) (hX : X < 5) (hZ : Z < 5) (hY : Y < 4) :
    centre (configurePointLights env [] [] radius separation yOffset).1 (curLight X Z Y)
      = some ⟨((X : K) - 2) * (2 * radius * separation) + (lightOffset env (5 * curLight X Z Y)).1,
              ((Y : K) - 3 / 2) * (2 * radius * separation) + yOffset,
              ((Z : K) - 2) * (2 * radius * separation) + (lightOffset env (5 * curLight X Z Y)).2,
              1⟩
    ∧ (configurePointLights env [] [] radius separation yOffset).2[curLight X Z Y]?.map Vec4.w
      = some radius := by
  obtain ⟨hcell, hlt⟩ := cellOf_curLight X Z Y hX hZ hY
  obtain ⟨h1, h2, -, -⟩ := configure_entries env radius separation yOffset _ hlt
  simp only [centre, h1, h2, hcell, Option.map_some', lightEntry, translate, Mat4.identity,
    Vec4.add, Vec4.scale, LIGHT_GRID_WIDTH, LIGHT_GRID_HEIGHT]
  simp only [and_true, Option.some.injEq, Vec4.mk.injEq]
  refine ⟨?_, ?_, ?_, ?_⟩ <;> norm_num

/-- The centre `updatePointLights` gives the light of cell `(X, Z, Y)`. -/
theorem updatedCentre_eq {K : Type} [LinearOrderedField K] (separation yOffset : K)
    (X Z Y : Nat) :
    updatedCentre separation yOffset (X, Z, Y)
      = ⟨((X : K) - 2) * (2 * INITIAL_POINT_LIGHT_RADIUS * separation),
         ((Y : K) - 3 / 2) * (2 * INITIAL_POINT_LIGHT_RADIUS * separation) + yOffset,
         ((Z : K) - 2) * (2 * INITIAL_POINT_LIGHT_RADIUS * separation), 1⟩ := by
  simp only [updatedCentre, LIGHT_GRID_WIDTH, LIGHT_GRID_HEIGHT, Vec4.mk.injEq]
  refine ⟨?_, ?_, ?_, trivial⟩ <;> norm_num

/-- Counterexample to C20 as stated: `updatePointLights` with separation 1 and
radius 1 on 100 lights. The lights of the cells (0, 0, 0) and (0, 0, 1) get
the size 1 and centres that are 87/50, not 2, apart along the vertical
axis. -/
theorem update_spacing_ignores_radius :
    ∃ ms2 cs2 calls,
      updatePointLights (List.replicate 100 (Mat4.identity : Mat4 ℚ))
          (List.replicate 100 (⟨1, 1, 1, 87 / 100⟩ : Vec4 ℚ)) 1 0 1 = some (ms2, cs2, calls)
      ∧ ∃ a b, centre ms2 (curLight 0 0 0) = some a ∧ centre ms2 (curLight 0 0 1) = some b
        ∧ cs2[curLight 0 0 0]?.map Vec4.w = some 1
        ∧ cs2[curLight 0 0 1]?.map Vec4.w = some 1
        ∧ b.y - a.y = 87 / 50 ∧ b.y - a.y ≠ 2 * 1 := by
  obtain ⟨ms2, cs2, hu, -, -, hn⟩ := update_result (1 : ℚ) 0 1
    (List.replicate 100 (Mat4.identity : Mat4 ℚ))
    (List.replicate 100 (⟨1, 1, 1, 87 / 100⟩ : Vec4 ℚ)) (by simp) (by simp) (by norm_num)
  obtain ⟨c0, l0⟩ := cellOf_curLight 0 0 0 (by decide) (by decide) (by decide)
  obtain ⟨c1, l1⟩ := cellOf_curLight 0 0 1 (by decide) (by decide) (by decide)
  obtain ⟨ha, wa⟩ := hn _ l0
  obtain ⟨hb, wb⟩ := hn _ l1
  rw [c0] at ha
  rw [c1] at hb
  refine ⟨ms2, cs2, _, hu, _, _, ha, hb, wa, wb, ?_, ?_⟩ <;>
    norm_num [updatedCentre, LIGHT_GRID_HEIGHT, INITIAL_POINT_LIGHT_RADIUS]

/-- C20, as amended. For every radius, separation and vertical offset and every
grid cell `(X, Z, Y)`: `configurePointLights` stores the radius in the `w`
component of the light's entry of `modelColorSizes`, and the centre of the
light above it (cell `(X, Z, Y + 1)`) has a `y` coordinate exactly
`2 * radius * separation` higher, that is `2 * radius` for separation 1, less
for a separation below 1 and more for one above 1 when the radius is
positive; along the two horizontal grid axes the coordinates of neighbouring
centres differ by `2 * radius * separation` and the difference of the two
lights' random offsets. `updatePointLights`, called with a separation that is
not negative on vectors of at least 100 entries, stores the new radius in `w`
and places the centres of grid-adjacent lights exactly
`2 * INITIAL_POINT_LIGHT_RADIUS * separation` apart along the grid axis,
whatever the new radius is. -/
theorem point_light_spacing {K : Type} [LinearOrderedField K] (env : LightEnv K)
    (radius separation yOffset : K) (X Z Y : Nat) (hX : X < 5) (hZ : Z < 5) (hY : Y < 4) :
    (∃ a,
      centre (configurePointLights env [] [] radius separation yOffset).1 (curLight X Z Y)
        = some a
      ∧ (configurePointLights env [] [] radius separation yOffset).2[curLight X Z Y]?.map Vec4.w
        = some radius
      ∧ (Y + 1 < 4 → ∃ b,
          centre (configurePointLights env [] [] radius separation yOffset).1
            (curLight X Z (Y + 1)) = some b
          ∧ b.y - a.y = 2 * radius * separation
          ∧ (separation = 1 → b.y - a.y = 2 * radius)
          ∧ (0 < radius → separation < 1 → b.y - a.y < 2 * radius)
          ∧ (0 < radius → 1 < separation → 2 * radius < b.y - a.y))
      ∧ (X + 1 < 5 → ∃ b,
          centre (configurePointLights env [] [] radius separation yOffset).1
            (curLight (X + 1) Z Y) = some b
          ∧ b.x - a.x = 2 * radius * separation
              + ((lightOffset env (5 * curLight (X + 1) Z Y)).1
                  - (lightOffset env (5 * curLight X Z Y)).1))
      ∧ (Z + 1 < 5 → ∃ b,
          centre (configurePointLights env [] [] radius separation yOffset).1
            (curLight X (Z + 1) Y) = some b
          ∧ b.z - a.z = 2 * radius * separation
              + ((lightOffset env (5 * curLight X (Z + 1) Y)).2
                  - (lightOffset env (5 * curLight X Z Y)).2)))
    ∧ (∀ (ms : List (Mat4 K)) (cs : List (Vec4 K)) (newRadius : K),
        100 ≤ ms.length → 100 ≤ cs.length → ¬ separation < 0 →
        ∃ ms2 cs2 calls,
          updatePointLights ms cs separation yOffset newRadius = some (ms2, cs2, calls)
          ∧ ∃ a, centre ms2 (curLight X Z Y) = some a
            ∧ cs2[curLight X Z Y]?.map Vec4.w = some newRadius
            ∧ (Y + 1 < 4 → ∃ b, centre ms2 (curLight X Z (Y + 1)) = some b
                ∧ b.y - a.y = 2 * INITIAL_POINT_LIGHT_RADIUS * separation)
            ∧ (X + 1 < 5 → ∃ b, centre ms2 (curLight (X + 1) Z Y) = some b
                ∧ b.x - a.x = 2 * INITIAL_POINT_LIGHT_RADIUS * separation)
            ∧ (Z + 1 < 5 → ∃ b, centre ms2 (curLight X (Z + 1) Y) = some b
                ∧ b.z - a.z = 2 * INITIAL_POINT_LIGHT_RADIUS * separation)) := by
  constructor
  · obtain ⟨ha, hw⟩ := configure_result env radius separation yOffset X Z Y hX hZ hY
    refine ⟨_, ha, hw, ?_, ?_, ?_⟩
    · intro h
      obtain ⟨hb, -⟩ := configure_result env radius separation yOffset X Z (Y + 1) hX hZ h
      have hd : ((((Y + 1 : Nat) : K) - 3 / 2) * (2 * radius * separation) + yOffset)
          - (((Y : K) - 3 / 2) * (2 * radius * separation) + yOffset)
          = 2 * radius * separation := by
        push_cast
        ring
      refine ⟨_, hb, hd, ?_, ?_, ?_⟩
      · intro h1
        rw [hd, h1, mul_one]
      · intro hr h1
        rw [hd]
        have : 0 < 2 * radius := by linarith
        nlinarith
      · intro hr h1
        rw [hd]
        have : 0 < 2 * radius := by linarith
        nlinarith
    · intro h
      obtain ⟨hb, -⟩ := configure_result env radius separation yOffset (X + 1) Z Y h hZ hY
      refine ⟨_, hb, ?_⟩
      push_cast
      ring
    · intro h
      obtain ⟨hb, -⟩ := configure_result env radius separation yOffset X (Z + 1) Y hX h hY
      refine ⟨_, hb, ?_⟩
      push_cast
      ring
  · intro ms cs newRadius hm hc hs
    obtain ⟨ms2, cs2, hu, -, -, hn⟩ := update_result separation yOffset newRadius ms cs hm hc hs
    obtain ⟨c0, l0⟩ := cellOf_curLight X Z Y hX hZ hY
    obtain ⟨ha, wa⟩ := hn _ l0
    rw [c0, updatedCentre_eq] at ha
    refine ⟨ms2, cs2, _, hu, _, ha, wa, ?_, ?_, ?_⟩
    · intro h
      obtain ⟨c1, l1⟩ := cellOf_curLight X Z (Y + 1) hX hZ h
      obtain ⟨hb, -⟩ := hn _ l1
      rw [c1, updatedCentre_eq] at hb
      refine ⟨_, hb, ?_⟩
      push_cast
      ring
    · intro h
      obtain ⟨c1, l1⟩ := cellOf_curLight (X + 1) Z Y h hZ hY
      obtain ⟨hb, -⟩ := hn _ l1
      rw [c1, updatedCentre_eq] at hb
      refine ⟨_, hb, ?_⟩
      push_cast
      ring
    · intro h
      obtain ⟨c1, l1⟩ := cellOf_curLight X (Z + 1) Y hX h hY
      obtain ⟨hb, -⟩ := hn _ l1
      rw [c1, updatedCentre_eq] at hb
      refine ⟨_, hb, ?_⟩
      push_cast
      ring

/-- Witness of C20, as amended: the cell (0, 0, 0) with the initial values of
`main()`, radius 87/100, separation 31/50 and vertical offset 241/200, with
all random numbers 0 (every angle is then 0, where the cosine is 1 and the
sine is 0). -/
theorem point_light_spacing_witness :
    (0 < 5 ∧ 0 < 4)
    ∧ ∃ a, centre (configurePointLights
          (⟨fun _ => 0, 2147483647, 22 / 7, fun _ => 1, fun _ => 0⟩ : LightEnv ℚ) [] []
          (87 / 100) (31 / 50) (241 / 200)).1 (curLight 0 0 0) = some a :=
  ⟨by decide,
    (point_light_spacing (⟨fun _ => 0, 2147483647, 22 / 7, fun _ => 1, fun _ => 0⟩ : LightEnv ℚ)
      (87 / 100) (31 / 50) (241 / 200) 0 0 0 (by decide) (by decide) (by decide)).1.imp
      (fun _ h => h.1)⟩

/-! ## Array accesses, normalised taps and symmetry of the blur data -/

/-- The constructor is its first part followed by the normalisation loop. -/
theorem new_of_filled {K : Type} [Field K] (exp : K → K) (width : Int) (deviation : K) :
    OpenGLBlurData.new exp width deviation
      = (OpenGLBlurData.filled exp width deviation).bind fun st =>
          (forLoop (2 * clampWidth width + 1) (normalizeBody st.2) st.1).map fun w2 =>
            { blurWidth := clampWidth width, blurWidth2 := 2 * clampWidth width,
              weights := w2 } := by
  simp only [OpenGLBlurData.new, OpenGLBlurData.filled, clampWidth]
  cases forLoop (if (if width < 1 then 1 else width) > 32 then 32 else if width < 1 then 1 else width)
      (fillBody exp deviation
        (if (if width < 1 then 1 else width) > 32 then 32 else if width < 1 then 1 else width)
        (2 * if (if width < 1 then 1 else width) > 32 then 32 else if width < 1 then 1 else width))
      ((fun _ => none, 0) : Weights K × K) with
  | none => rfl
  | some st =>
    simp only [Option.some_bind]
    cases st.1.write
        (if (if width < 1 then 1 else width) > 32 then 32 else if width < 1 then 1 else width)
        (normalDist exp 0 0 deviation) with
    | none => rfl
    | some w =>
      simp only [Option.some_bind]
      cases w.read
          (if (if width < 1 then 1 else width) > 32 then 32 else if width < 1 then 1 else width) with
      | none => rfl
      | some x => rfl

/-- The array and the total when the normalisation loop is entered: exactly
the entries `0 .. blurWidth2` are assigned, each with its raw value. -/
theorem filled_eq {K : Type} [Field K] (exp : K → K) (width : Int) (deviation : K) :
    OpenGLBlurData.filled exp width deviation
      = some (fun j => if j ≤ (2 * clampWidth width).toNat
                then some (rawWeight exp deviation (clampWidth width) j) else none,
              rawTotal exp deviation (clampWidth width)) := by
  obtain ⟨B, hc, hB1, hB⟩ := clampWidth_range width
  have hfilled : OpenGLBlurData.filled exp width deviation
      = (forLoop (clampWidth width)
          (fillBody exp deviation (clampWidth width) (2 * clampWidth width))
          (fun _ => none, 0)).bind fun st =>
        (st.1.write (clampWidth width) (normalDist exp 0 0 deviation)).bind fun w =>
          (w.read (clampWidth width)).map fun x => (w, st.2 + x) := rfl
  rw [hfilled, hc, fill_loop exp deviation B B hB (le_refl _)]
  have h2 : (0 : Int) ≤ (B : Int) ∧ (B : Int) < 65 := by omega
  have hcentre : normalDist exp 0 0 deviation = rawWeight exp deviation (B : Int) B := by
    simp [rawWeight]
  have hw : Function.update
      (fun j => if j < B ∨ (2 * B - B < j ∧ j ≤ 2 * B)
        then some (rawWeight exp deviation (B : Int) j) else none)
      B (some (rawWeight exp deviation (B : Int) B))
      = fun j => if j ≤ 2 * B then some (rawWeight exp deviation (B : Int) j) else none := by
    funext j
    by_cases e1 : j = B
    · subst e1
      simp [show j ≤ 2 * j by omega]
    · simp only [Function.update_noteq e1]
      have : (j < B ∨ 2 * B - B < j ∧ j ≤ 2 * B) ↔ j ≤ 2 * B := by omega
      simp only [this]
  have h2B : (2 * (B : Int)).toNat = 2 * B := by omega
  simp only [Option.some_bind, Weights.write, Weights.read, h2, and_self, if_true,
    Int.toNat_ofNat, hcentre, hw, show B ≤ 2 * B by omega, Option.map_some', rawTotal, h2B]

/-- C21. For every `width` and every deviation the constructor returns an
object: none of its accesses to `weights` fails, where a write fails exactly
for an index outside `[0, 64]` and a read fails exactly for such an index or
an entry nothing was assigned to. The indices it uses, `i` and
`blurWidth2 - i` for `0 ≤ i < blurWidth`, `blurWidth`, and `i` for
`0 ≤ i ≤ blurWidth2`, all lie in `[0, 64]`, and when the normalisation loop is
entered the assigned entries of `weights` are exactly those at
`0 .. blurWidth2`. -/
theorem blur_accesses_in_range {K : Type} [Field K] (exp : K → K) (width : Int)
    (deviation : K) :
    (∀ (w : Weights K) (i : Int) (x : K), (w.write i x).isSome = true ↔ 0 ≤ i ∧ i ≤ 64)
    ∧ (∀ (w : Weights K) (i : Int),
        (w.read i).isSome = true ↔ (0 ≤ i ∧ i ≤ 64) ∧ (w i.toNat).isSome = true)
    ∧ ∃ (b : OpenGLBlurData K) (w : Weights K) (total : K),
        OpenGLBlurData.new exp width deviation = some b
        ∧ OpenGLBlurData.filled exp width deviation = some (w, total)
        ∧ (forLoop (b.blurWidth2 + 1) (normalizeBody total) w).map
            (fun w2 => ({ blurWidth := b.blurWidth, blurWidth2 := b.blurWidth2,
                          weights := w2 } : OpenGLBlurData K)) = some b
        ∧ (∀ j : Nat, (w j).isSome = true ↔ (j : Int) ≤ b.blurWidth2)
        ∧ (∀ i : Int, 0 ≤ i → i < b.blurWidth →
            (0 ≤ i ∧ i ≤ 64) ∧ (0 ≤ b.blurWidth2 - i ∧ b.blurWidth2 - i ≤ 64))
        ∧ (0 ≤ b.blurWidth ∧ b.blurWidth ≤ 64)
        ∧ (∀ i : Int, 0 ≤ i → i ≤ b.blurWidth2 → 0 ≤ i ∧ i ≤ 64) := by
  obtain ⟨B, hc, hB1, hB⟩ := clampWidth_range width
  refine ⟨?_, ?_, _, _, _, new_eq exp width deviation, filled_eq exp width deviation,
    ?_, ?_, ?_, ?_, ?_⟩
  · intro w i x
    by_cases h : 0 ≤ i ∧ i < 65
    · have h2 : 0 ≤ i ∧ i ≤ 64 := by omega
      simp [Weights.write, h, h2]
    · have h2 : ¬ (0 ≤ i ∧ i ≤ 64) := by omega
      simp [Weights.write, h, h2]
  · intro w i
    by_cases h : 0 ≤ i ∧ i < 65
    · have h2 : 0 ≤ i ∧ i ≤ 64 := by omega
      simp [Weights.read, h, h2]
    · have h2 : ¬ (0 ≤ i ∧ i ≤ 64) := by omega
      simp [Weights.read, h, h2]
  · have h := new_of_filled exp width deviation
    rw [filled_eq, new_eq] at h
    exact h.symm
  · intro j
    simp only [hc]
    by_cases hj : j ≤ (2 * (B : Int)).toNat
    · have : (j : Int) ≤ 2 * (B : Int) := by omega
      simp [hj, this]
    · have : ¬ (j : Int) ≤ 2 * (B : Int) := by omega
      simp [hj, this]
  · intro i h0 h1
    simp only [hc] at h1 ⊢
    omega
  · simp only [hc]
    omega
  · intro i h0 h1
    simp only [hc] at h1
    omega

/-- The raw value of a tap is its Gaussian tap times the prefactor of
`normalDist`. -/
theorem rawWeight_eq_gaussianTap {K : Type} [Field K] (exp : K → K) (deviation : K) (w : Int)
    (j : Nat) :
    rawWeight exp deviation w j = gaussianTap exp w deviation j / (Sqrt2Pi * deviation) := by
  simp only [rawWeight, normalDist, gaussianTap, sub_zero, pow_two]

/-- For a deviation other than zero a weight is the normalised Gaussian tap:
the prefactor cancels. -/
theorem weight_eq_normalisedGaussian {K : Type} [LinearOrderedField K] (exp : K → K)
    (deviation : K) (hd : deviation ≠ 0) (B j : Nat) :
    rawWeight exp deviation (B : Int) j / rawTotal exp deviation (B : Int)
      = normalisedGaussian exp (B : Int) deviation j := by
  have hc : (Sqrt2Pi * deviation : K) ≠ 0 := mul_ne_zero (ne_of_gt Sqrt2Pi_pos) hd
  rw [← rawWeight_sum exp deviation B]
  simp only [rawWeight_eq_gaussianTap, normalisedGaussian, Int.toNat_ofNat, ← Finset.sum_div]
  exact div_div_div_cancel_right₀ hc _ _

theorem gaussianTap_neg {K : Type} [Field K] (exp : K → K) (deviation : K) (w : Int) (j : Nat) :
    gaussianTap exp w (-deviation) j = gaussianTap exp w deviation j := by
  simp only [gaussianTap, neg_sq]

theorem normalisedGaussian_pos {K : Type} [LinearOrderedField K] (exp : K → K)
    (hexp : ∀ x, 0 < exp x) (deviation : K) (w : Int) (j : Nat) :
    0 < normalisedGaussian exp w deviation j := by
  refine div_pos (hexp _) ?_
  rw [Finset.sum_range_succ]
  exact add_pos_of_nonneg_of_pos (Finset.sum_nonneg fun i _ => (hexp _).le) (hexp _)

/-- The object the constructor builds for a deviation other than zero, in
terms of the normalised Gaussian taps. -/
theorem new_gaussian {K : Type} [LinearOrderedField K] (exp : K → K) (width : Int)
    (deviation : K) (hd : deviation ≠ 0) :
    OpenGLBlurData.new exp width deviation
      = some { blurWidth := clampWidth width
               blurWidth2 := 2 * clampWidth width
               weights := fun j =>
                 if j ≤ (2 * clampWidth width).toNat then
                   some (normalisedGaussian exp (clampWidth width) deviation j)
                 else none } := by
  obtain ⟨B, hc, -, -⟩ := clampWidth_range width
  rw [new_eq, hc]
  simp only [weight_eq_normalisedGaussian exp deviation hd]

/-- C22. In exact arithmetic over an ordered field, with any positive function
for `exp` (the real numbers with the real exponential are one instance), for
every `width` and every deviation other than zero, with `w` the width clamped
to `[1, 32]`: the constructor returns an object with `blurWidth = w` whose
entry `weights[i]`, for every `0 ≤ i ≤ 2 * w`, is
`exp(-(w - i)^2 / (2 * deviation^2))` divided by the sum of these values over
`k = 0 .. 2 * w`; every such weight is positive, and the constructor returns
the same object for `-deviation`. -/
theorem weights_normalised_gaussian {K : Type} [LinearOrderedField K] (exp : K → K)
    (hexp : ∀ x, 0 < exp x) (width : Int) (deviation : K) (hd : deviation ≠ 0) :
    ∃ b, OpenGLBlurData.new exp width deviation = some b
      ∧ b.blurWidth = (if width < 1 then 1 else if width > 32 then 32 else width)
      ∧ b.blurWidth2 = 2 * b.blurWidth
      ∧ (∀ i : Nat, (i : Int) ≤ 2 * b.blurWidth →
          b.weights i
            = some (exp (-((b.blurWidth - i : Int) : K) ^ 2 / (2 * deviation ^ 2))
                / ∑ k in Finset.range (2 * b.blurWidth.toNat + 1),
                    exp (-((b.blurWidth - k : Int) : K) ^ 2 / (2 * deviation ^ 2)))
          ∧ b.weights i = some (normalisedGaussian exp b.blurWidth deviation i)
          ∧ 0 < normalisedGaussian exp b.blurWidth deviation i)
      ∧ OpenGLBlurData.new exp width (-deviation) = some b := by
  obtain ⟨B, hc, hB1, hB⟩ := clampWidth_range width
  refine ⟨_, new_gaussian exp width deviation hd, ?_, rfl, ?_, ?_⟩
  · simp only [clampWidth]
    split_ifs <;> omega
  · intro i hi
    simp only [hc] at hi ⊢
    have h : i ≤ (2 * (B : Int)).toNat := by omega
    refine ⟨?_, ?_, normalisedGaussian_pos exp hexp deviation _ i⟩
    · simp only [h, if_true, normalisedGaussian, gaussianTap]
    · simp only [h, if_true]
  · rw [new_gaussian exp width (-deviation) (neg_ne_zero.2 hd)]
    simp only [normalisedGaussian, gaussianTap_neg]

/-- Witness of C22: the object `main()` constructs, `OpenGLBlurData data(8,
8.0f)`, over the real numbers with the real exponential. -/
theorem weights_normalised_gaussian_witness :
    (8 : ℝ) ≠ 0
    ∧ ∃ b, OpenGLBlurData.new Real.exp 8 (8 : ℝ) = some b
      ∧ OpenGLBlurData.new Real.exp 8 (-(8 : ℝ)) = some b := by
  refine ⟨by simp, ?_⟩
  obtain ⟨b, h1, -, -, -, h5⟩ :=
    weights_normalised_gaussian Real.exp Real.exp_pos 8 (8 : ℝ) (by simp)
  exact ⟨b, h1, h5⟩

/-- C23. For every `width` and every deviation the constructor returns an
object whose weights are symmetric about the centre tap: for every
`0 ≤ i ≤ blurWidth2` the entries `weights[i]` and `weights[blurWidth2 - i]` are
both assigned and hold the same value. -/
theorem weights_symmetric {K : Type} [Field K] (exp : K → K) (width : Int) (deviation : K) :
    ∃ b, OpenGLBlurData.new exp width deviation = some b
      ∧ ∀ i : Nat, (i : Int) ≤ b.blurWidth2 →
          (b.weights i).isSome = true
          ∧ b.weights i = b.weights (b.blurWidth2 - i).toNat := by
  obtain ⟨B, hc, hB1, hB⟩ := clampWidth_range width
  refine ⟨_, new_eq exp width deviation, ?_⟩
  intro i hi
  simp only [hc] at hi ⊢
  have h1 : i ≤ (2 * (B : Int)).toNat := by omega
  have h2 : (2 * (B : Int) - (i : Int)).toNat = 2 * B - i := by omega
  have h3 : 2 * B - i ≤ (2 * (B : Int)).toNat := by omega
  simp only [h1, h2, h3, if_true, Option.isSome_some, true_and]
  rw [rawWeight_mirror exp deviation B i (by omega)]

/-! ## The index of a light and the early return of `updatePointLights` -/

theorem cellOf_inGrid (n : Nat) (hn : n < 100) :
    (cellOf n).1 < 5 ∧ (cellOf n).2.1 < 5 ∧ (cellOf n).2.2 < 4 := by
  simp only [cellOf, LIGHT_GRID_WIDTH, LIGHT_GRID_HEIGHT]
  omega

/-- Iteration `curLight X Z Y` of the nested loops is the one of cell
`(X, Z, Y)`. -/
theorem gridCells_curLight (X Z Y : Nat) (hX : X < 5) (hZ : Z < 5) (hY : Y < 4) :
    gridCells[curLight X Z Y]? = some (X, Z, Y) := by
  obtain ⟨hcell, hlt⟩ := cellOf_curLight X Z Y hX hZ hY
  rw [gridCells_eq, List.getElem?_map, List.getElem?_range hlt, Option.map_some', hcell]

/-- A call of `configurePointLights` makes both vectors 100 entries longer. -/
theorem configure_length {K : Type} [Field K] (env : LightEnv K)
    (radius separation yOffset : K) (ms : List (Mat4 K)) (cs : List (Vec4 K)) :
    (configurePointLights env ms cs radius separation yOffset).1.length = ms.length + 100
    ∧ (configurePointLights env ms cs radius separation yOffset).2.length = cs.length + 100 := by
  simp only [configurePointLights, gridCells_eq, configure_fold]
  simp

/-- The entries of both vectors after `updatePointLights`, called with a
separation that is not negative on vectors of at least 100 entries. -/
theorem update_entries {K : Type} [LinearOrderedField K] (separation yOffset radius : K)
    (ms : List (Mat4 K)) (cs : List (Vec4 K)) (hm : 100 ≤ ms.length) (hc : 100 ≤ cs.length)
    (hs : ¬ separation < 0) :
    ∃ ms2 cs2,
      updatePointLights ms cs separation yOffset radius
        = some (ms2, cs2,
            [ BufferCall.bindArrayBuffer true, BufferCall.arrayBufferData (ms2.take 100),
              BufferCall.bindArrayBuffer false ])
      ∧ ∀ n, n < 100 →
          ms2[n]? = ms[n]?.map
              (fun m => { m with c3 := updatedCentre separation yOffset (cellOf n) })
          ∧ cs2[n]? = cs[n]?.map (fun c => { c with w := radius }) := by
  obtain ⟨ms2, cs2, hf, -, -, hg1, hg2⟩ :=
    update_fold separation yOffset radius ms cs 100 (le_refl _) hm hc
  refine ⟨ms2, cs2, ?_, ?_⟩
  · simp [updatePointLights, hs, gridCells_eq, hf, LIGHT_GRID_WIDTH, LIGHT_GRID_HEIGHT]
  · intro n hn
    exact ⟨by rw [hg1 n, if_pos hn], by rw [hg2 n, if_pos hn]⟩

/-- The index map `curLight` is a bijection from the grid onto `[0, 100)`. -/
theorem curLight_bijOn :
    Set.BijOn (fun c : Nat × Nat × Nat => curLight c.1 c.2.1 c.2.2)
      {c | c.1 < LIGHT_GRID_WIDTH ∧ c.2.1 < LIGHT_GRID_WIDTH ∧ c.2.2 < LIGHT_GRID_HEIGHT}
      (Set.Iio totalLights) := by
  refine ⟨?_, ?_, ?_⟩
  · rintro ⟨X, Z, Y⟩ ⟨hX, hZ, hY⟩
    exact (cellOf_curLight X Z Y hX hZ hY).2
  · rintro ⟨X, Z, Y⟩ ⟨hX, hZ, hY⟩ ⟨X2, Z2, Y2⟩ ⟨hX2, hZ2, hY2⟩ h
    have h1 := (cellOf_curLight X Z Y hX hZ hY).1
    have h2 := (cellOf_curLight X2 Z2 Y2 hX2 hZ2 hY2).1
    simp only at h
    rw [← h1, ← h2, h]
  · intro n hn
    have hn2 : n < 100 := hn
    exact ⟨cellOf n, cellOf_inGrid n hn2, curLight_cellOf n⟩

/-- C24. A call of `configurePointLights` makes `modelMatrices` and
`modelColorSizes` exactly `totalLights = LIGHT_GRID_WIDTH * LIGHT_GRID_WIDTH *
LIGHT_GRID_HEIGHT = 100` entries longer, so on empty vectors both have 100
entries afterwards. On empty vectors the entry made for grid cell `(X, Z, Y)`,
which is the cell of iteration `curLight X Z Y` of the nested loops, is the
entry at index `curLight X Z Y` of both vectors. The map `curLight` is a
bijection from the grid onto `[0, totalLights)`. A later call of
`updatePointLights` with a separation that is not negative succeeds, and at
index `curLight X Z Y` it leaves the entry of cell `(X, Z, Y)` with the centre
of that cell in column 3 of the matrix and the new radius in `w`. -/
theorem configure_appends_grid {K : Type} [LinearOrderedField K] (env : LightEnv K)
    (radius separation yOffset : K) :
    totalLights = 100
    ∧ (∀ (ms : List (Mat4 K)) (cs : List (Vec4 K)),
        (configurePointLights env ms cs radius separation yOffset).1.length
          = ms.length + totalLights
        ∧ (configurePointLights env ms cs radius separation yOffset).2.length
          = cs.length + totalLights)
    ∧ (configurePointLights env [] [] radius separation yOffset).1.length = totalLights
    ∧ (configurePointLights env [] [] radius separation yOffset).2.length = totalLights
    ∧ (∀ X Z Y, X < LIGHT_GRID_WIDTH → Z < LIGHT_GRID_WIDTH → Y < LIGHT_GRID_HEIGHT →
        curLight X Z Y < totalLights
        ∧ gridCells[curLight X Z Y]? = some (X, Z, Y)
        ∧ (configurePointLights env [] [] radius separation yOffset).1[curLight X Z Y]?
          = some (lightEntry env radius separation yOffset (X, Z, Y) (5 * curLight X Z Y)).1
        ∧ (configurePointLights env [] [] radius separation yOffset).2[curLight X Z Y]?
          = some (lightEntry env radius separation yOffset (X, Z, Y) (5 * curLight X Z Y)).2)
    ∧ Set.BijOn (fun c : Nat × Nat × Nat => curLight c.1 c.2.1 c.2.2)
        {c | c.1 < LIGHT_GRID_WIDTH ∧ c.2.1 < LIGHT_GRID_WIDTH ∧ c.2.2 < LIGHT_GRID_HEIGHT}
        (Set.Iio totalLights)
    ∧ (∀ (separation2 yOffset2 radius2 : K), ¬ separation2 < 0 →
        ∃ ms2 cs2 calls,
          updatePointLights (configurePointLights env [] [] radius separation yOffset).1
              (configurePointLights env [] [] radius separation yOffset).2
              separation2 yOffset2 radius2 = some (ms2, cs2, calls)
          ∧ ∀ X Z Y, X < LIGHT_GRID_WIDTH → Z < LIGHT_GRID_WIDTH → Y < LIGHT_GRID_HEIGHT →
              ms2[curLight X Z Y]?
                = some { (lightEntry env radius separation yOffset (X, Z, Y)
                            (5 * curLight X Z Y)).1 with
                          c3 := updatedCentre separation2 yOffset2 (X, Z, Y) }
              ∧ cs2[curLight X Z Y]?
                = some { (lightEntry env radius separation yOffset (X, Z, Y)
                            (5 * curLight X Z Y)).2 with w := radius2 }) := by
  have hentry : ∀ X Z Y, X < 5 → Z < 5 → Y < 4 →
      curLight X Z Y < 100
      ∧ cellOf (curLight X Z Y) = (X, Z, Y)
      ∧ (configurePointLights env [] [] radius separation yOffset).1[curLight X Z Y]?
        = some (lightEntry env radius separation yOffset (X, Z, Y) (5 * curLight X Z Y)).1
      ∧ (configurePointLights env [] [] radius separation yOffset).2[curLight X Z Y]?
        = some (lightEntry env radius separation yOffset (X, Z, Y) (5 * curLight X Z Y)).2 := by
    intro X Z Y hX hZ hY
    obtain ⟨hcell, hlt⟩ := cellOf_curLight X Z Y hX hZ hY
    obtain ⟨h1, h2, -, -⟩ := configure_entries env radius separation yOffset _ hlt
    rw [hcell] at h1 h2
    exact ⟨hlt, hcell, h1, h2⟩
  have hlen := configure_length env radius separation yOffset
  have ht : totalLights = 100 := rfl
  refine ⟨ht, ?_, ?_, ?_, ?_, curLight_bijOn, ?_⟩
  · intro ms cs
    rw [ht]
    exact hlen ms cs
  · rw [ht, (hlen [] []).1]
    rfl
  · rw [ht, (hlen [] []).2]
    rfl
  · intro X Z Y hX hZ hY
    obtain ⟨hlt, -, h1, h2⟩ := hentry X Z Y hX hZ hY
    exact ⟨hlt, gridCells_curLight X Z Y hX hZ hY, h1, h2⟩
  · intro separation2 yOffset2 radius2 hs
    obtain ⟨ms2, cs2, hu, hn⟩ := update_entries separation2 yOffset2 radius2
      (configurePointLights env [] [] radius separation yOffset).1
      (configurePointLights env [] [] radius separation yOffset).2
      (by rw [(hlen [] []).1]; simp) (by rw [(hlen [] []).2]; simp) hs
    refine ⟨ms2, cs2, _, hu, ?_⟩
    intro X Z Y hX hZ hY
    obtain ⟨hlt, hcell, h1, h2⟩ := hentry X Z Y hX hZ hY
    obtain ⟨g1, g2⟩ := hn _ hlt
    rw [g1, g2, h1, h2, hcell]
    exact ⟨rfl, rfl⟩

/-- C25. For every separation below zero `updatePointLights` returns at once:
the two vectors are the ones it was given, entry by entry, and it makes no
buffer call, so nothing is uploaded. -/
theorem update_negative_separation {K : Type} [LinearOrderedField K]
    (ms : List (Mat4 K)) (cs : List (Vec4 K)) (separation yOffset radius : K)
    (hs : separation < 0) :
    updatePointLights ms cs separation yOffset radius = some (ms, cs, []) := by
  unfold updatePointLights
  rw [if_pos hs]

/-- Witness of C25: separation -1 on the vectors that `configurePointLights`
fills with the initial values of `main()` (radius 87/100, separation 31/50,
vertical offset 241/200) and all random numbers 0. -/
theorem update_negative_separation_witness :
    (-1 : ℚ) < 0
    ∧ updatePointLights
        (configurePointLights
          (⟨fun _ => 0, 2147483647, 22 / 7, fun _ => 1, fun _ => 0⟩ : LightEnv ℚ) [] []
          (87 / 100) (31 / 50) (241 / 200)).1
        (configurePointLights
          (⟨fun _ => 0, 2147483647, 22 / 7, fun _ => 1, fun _ => 0⟩ : LightEnv ℚ) [] []
          (87 / 100) (31 / 50) (241 / 200)).2
        (-1) (241 / 200) (87 / 100)
      = some
        ((configurePointLights
            (⟨fun _ => 0, 2147483647, 22 / 7, fun _ => 1, fun _ => 0⟩ : LightEnv ℚ) [] []
            (87 / 100) (31 / 50) (241 / 200)).1,
         (configurePointLights
            (⟨fun _ => 0, 2147483647, 22 / 7, fun _ => 1, fun _ => 0⟩ : LightEnv ℚ) [] []
            (87 / 100) (31 / 50) (241 / 200)).2, []) :=
  ⟨by simp, update_negative_separation _ _ (-1) (241 / 200) (87 / 100) (by simp)⟩

/-! ## The attenuation with rounded arithmetic -/

theorem attenuationWith_id (ε mean meanSquare d sat : ℚ) :
    attenuationWith id ε mean meanSquare d sat = attenuation ε mean meanSquare d sat := by
  have h1 : ∀ a b, fdivWith id a b = fdiv a b := fun a b => rfl
  have h2 : ∀ (x : FVal) (s : ℚ), x.subWith id s = x.sub s := by
    intro x s
    cases x <;> rfl
  have h3 : ∀ (x : FVal) (b : ℚ), x.divWith id b = x.div b := by
    intro x b
    cases x <;> rfl
  simp only [attenuationWith, attenuation, p_maxWith, p_max, h1, h2, h3, id, pow_two]

end SASVSM
